import Mathlib

/-!
Verification development for the anki-doc-master backend
(document-to-flashcard pipeline).

The Python sources under `src/backend/src` are shallowly embedded here:
pure helper methods become Lean functions over `List Char` (Python
strings are sequences of code points, so a character list is the
faithful carrier; indices returned by `str.find`/`str.rfind` are
modelled as `Int` with the Python `-1` convention), JSON values become
an inductive type with an executable parser modelling `json.loads` on
the JSON subset actually exercised (objects, arrays, strings with the
common escapes, integers, booleans, null), and the stage services
(`RestructurerService.restructure_document`,
`GeneratorService.generate_cards`, `AtomizerService.optimize_cards`)
become explicit state-passing functions in which the external
reasoning gateway is an oracle parameter and every externally visible
effect (gateway call, artifact write, ledger transition, metadata
write) is recorded in a trace.
-/

namespace AnkiDoc

/-! ## Python string primitives over `List Char` -/

/-- Whitespace predicate used to model `str.strip()` / `\s` for the
ASCII whitespace range (space, tab, newline, carriage return, form
feed, vertical tab). -/
def pyWs (c : Char) : Bool :=
  c = ' ' || c = '\t' || c = '\n' || c = '\r' || c = '\x0b' || c = '\x0c'

/-- Model of Python `str.strip()`. -/
def pyStrip (l : List Char) : List Char :=
  ((l.dropWhile pyWs).reverse.dropWhile pyWs).reverse

/-- Model of Python `str.lower()` (ASCII range). -/
def pyLower (l : List Char) : List Char := l.map Char.toLower

/-- Index of the first occurrence of `pat` in `l` (leftmost match of a
non-empty pattern), if any. -/
def firstMatch (pat : List Char) : List Char → Option Nat
  | [] => none
  | c :: rest =>
    if pat.isPrefixOf (c :: rest) then some 0
    else (firstMatch pat rest).map (· + 1)

/-- Index of the last occurrence of `pat` in `l`, if any. -/
def lastMatch (pat : List Char) : List Char → Option Nat
  | [] => none
  | c :: rest =>
    match lastMatch pat rest with
    | some n => some (n + 1)
    | none => if pat.isPrefixOf (c :: rest) then some 0 else none

/-- Model of Python `haystack.find(pat)` for non-empty `pat`:
index of the leftmost occurrence, `-1` when absent. -/
def pyFind (l pat : List Char) : Int :=
  match firstMatch pat l with
  | some n => (n : Int)
  | none => -1

/-- Model of Python `haystack.find(pat, start)` for non-empty `pat`. -/
def pyFindFrom (l pat : List Char) (start : Nat) : Int :=
  match firstMatch pat (l.drop start) with
  | some n => ((start + n : Nat) : Int)
  | none => -1

/-- Model of Python `haystack.rfind(pat)` for non-empty `pat`. -/
def pyRFind (l pat : List Char) : Int :=
  match lastMatch pat l with
  | some n => (n : Int)
  | none => -1

/-- Model of the Python slice `l[a:b]` for `0 ≤ a ≤ b`. -/
def pySlice (l : List Char) (a b : Nat) : List Char :=
  (l.drop a).take (b - a)

/-- Model of Python substring containment `pat in l` (non-empty `pat`). -/
def containsSub (l pat : List Char) : Bool :=
  (firstMatch pat l).isSome

/-- Model of Python `l.split("\n")` (`split "" = [""]`). -/
def pySplitNl : List Char → List (List Char)
  | [] => [[]]
  | c :: rest =>
    if c = '\n' then [] :: pySplitNl rest
    else
      match pySplitNl rest with
      | h :: t => (c :: h) :: t
      | [] => [[c]]

/-- Model of Python `"\n".join(ls)`. -/
def pyJoinNl : List (List Char) → List Char
  | [] => []
  | [l] => l
  | l :: rest => l ++ '\n' :: pyJoinNl rest

/-- Model of `line.startswith(pre)`. -/
def pyStartsWith (l pre : List Char) : Bool := pre.isPrefixOf l

/-- Value of a non-empty list of decimal digit characters. -/
def digitsVal (ds : List Char) : Nat :=
  ds.foldl (fun acc c => acc * 10 + (c.toNat - '0'.toNat)) 0

/-! ## JSON values, `json.loads` and `json.dumps` models -/

/-- JSON values as produced by `json.loads` (numbers restricted to
integers: no input relevant to the claims uses fractional numbers). -/
inductive Json where
  | null : Json
  | bool (b : Bool) : Json
  | num (n : Int) : Json
  | str (s : List Char) : Json
  | arr (xs : List Json) : Json
  | obj (kvs : List (List Char × Json)) : Json

instance : Inhabited Json := ⟨.null⟩

mutual

/-- Boolean structural equality on JSON values (model of Python `==`
between values decoded by `json.loads`). -/
def Json.eqb : Json → Json → Bool
  | .null, .null => true
  | .bool a, .bool b => a = b
  | .num a, .num b => a = b
  | .str a, .str b => a = b
  | .arr xs, .arr ys => Json.eqbList xs ys
  | .obj a, .obj b => Json.eqbKvs a b
  | _, _ => false

/-- Elementwise equality on JSON arrays. -/
def Json.eqbList : List Json → List Json → Bool
  | [], [] => true
  | x :: xs, y :: ys => Json.eqb x y && Json.eqbList xs ys
  | _, _ => false

/-- Elementwise equality on JSON object member lists. -/
def Json.eqbKvs : List (List Char × Json) → List (List Char × Json) → Bool
  | [], [] => true
  | (k, v) :: xs, (k', v') :: ys => k = k' && Json.eqb v v' && Json.eqbKvs xs ys
  | _, _ => false

end

mutual

/-- Decidable equality on JSON values. -/
def Json.decEq : (a b : Json) → Decidable (a = b)
  | .null, .null => isTrue rfl
  | .bool a, .bool b =>
    if h : a = b then isTrue (by rw [h]) else isFalse (by simp [h])
  | .num a, .num b =>
    if h : a = b then isTrue (by rw [h]) else isFalse (by simp [h])
  | .str a, .str b =>
    if h : a = b then isTrue (by rw [h]) else isFalse (by simp [h])
  | .arr xs, .arr ys =>
    match Json.decEqList xs ys with
    | isTrue h => isTrue (by rw [h])
    | isFalse h => isFalse (by simp [h])
  | .obj xs, .obj ys =>
    match Json.decEqKvs xs ys with
    | isTrue h => isTrue (by rw [h])
    | isFalse h => isFalse (by simp [h])
  | .null, .bool _ | .null, .num _ | .null, .str _ | .null, .arr _ | .null, .obj _
  | .bool _, .null | .bool _, .num _ | .bool _, .str _ | .bool _, .arr _ | .bool _, .obj _
  | .num _, .null | .num _, .bool _ | .num _, .str _ | .num _, .arr _ | .num _, .obj _
  | .str _, .null | .str _, .bool _ | .str _, .num _ | .str _, .arr _ | .str _, .obj _
  | .arr _, .null | .arr _, .bool _ | .arr _, .num _ | .arr _, .str _ | .arr _, .obj _
  | .obj _, .null | .obj _, .bool _ | .obj _, .num _ | .obj _, .str _ | .obj _, .arr _ =>
    isFalse (by simp)

/-- Decidable equality on lists of JSON values. -/
def Json.decEqList : (a b : List Json) → Decidable (a = b)
  | [], [] => isTrue rfl
  | [], _ :: _ => isFalse (by simp)
  | _ :: _, [] => isFalse (by simp)
  | x :: xs, y :: ys =>
    match Json.decEq x y, Json.decEqList xs ys with
    | isTrue h1, isTrue h2 => isTrue (by rw [h1, h2])
    | isFalse h1, _ => isFalse (by simp [h1])
    | _, isFalse h2 => isFalse (by simp [h2])

/-- Decidable equality on JSON object member lists. -/
def Json.decEqKvs : (a b : List (List Char × Json)) → Decidable (a = b)
  | [], [] => isTrue rfl
  | [], _ :: _ => isFalse (by simp)
  | _ :: _, [] => isFalse (by simp)
  | (k, v) :: xs, (k', v') :: ys =>
    if hk : k = k' then
      match Json.decEq v v', Json.decEqKvs xs ys with
      | isTrue h1, isTrue h2 => isTrue (by rw [hk, h1, h2])
      | isFalse h1, _ => isFalse (by simp [h1])
      | _, isFalse h2 => isFalse (by simp [h2])
    else isFalse (by simp [hk])

end

instance : DecidableEq Json := Json.decEq

/-- JSON whitespace skipped by the decoder. -/
def skipWs (l : List Char) : List Char :=
  l.dropWhile (fun c => c = ' ' || c = '\t' || c = '\n' || c = '\r')

/-- Decode one escape character of a JSON string (common escapes; the
`\uXXXX` form is outside the modelled subset). -/
def escChar (c : Char) : Option Char :=
  if c = '"' then some '"'
  else if c = '\\' then some '\\'
  else if c = '/' then some '/'
  else if c = 'n' then some '\n'
  else if c = 't' then some '\t'
  else if c = 'r' then some '\r'
  else if c = 'b' then some '\x08'
  else if c = 'f' then some '\x0c'
  else none

/-- Parse the body of a JSON string after the opening quote. -/
def parseStringBody : List Char → Option (List Char × List Char)
  | [] => none
  | c :: rest =>
    if c = '"' then some ([], rest)
    else if c = '\\' then
      match rest with
      | [] => none
      | e :: rest' =>
        match escChar e, parseStringBody rest' with
        | some d, some (s, r) => some (d :: s, r)
        | _, _ => none
    else
      match parseStringBody rest with
      | some (s, r) => some (c :: s, r)
      | none => none

/-- Parse a run of decimal digits. -/
def parseDigits (l : List Char) : Option (Nat × List Char) :=
  let ds := l.takeWhile Char.isDigit
  if ds = [] then none else some (digitsVal ds, l.dropWhile Char.isDigit)

mutual

/-- Fuel-based recursive-descent JSON value parser (model of the
decoding done by `json.loads` on the modelled subset). -/
def parseValue : Nat → List Char → Option (Json × List Char)
  | 0, _ => none
  | _fuel + 1, l =>
    let l := skipWs l
    match l with
    | [] => none
    | c :: rest =>
      if c = 'n' then
        if ['u','l','l'].isPrefixOf rest then some (.null, rest.drop 3) else none
      else if c = 't' then
        if ['r','u','e'].isPrefixOf rest then some (.bool true, rest.drop 3) else none
      else if c = 'f' then
        if ['a','l','s','e'].isPrefixOf rest then some (.bool false, rest.drop 4) else none
      else if c = '"' then
        match parseStringBody rest with
        | some (s, r) => some (.str s, r)
        | none => none
      else if c = '-' then
        match parseDigits rest with
        | some (n, r) => some (.num (-(n : Int)), r)
        | none => none
      else if c.isDigit then
        match parseDigits (c :: rest) with
        | some (n, r) => some (.num (n : Int), r)
        | none => none
      else if c = '[' then
        match skipWs rest with
        | ']' :: r => some (.arr [], r)
        | _ =>
          match parseElems _fuel rest with
          | some (xs, r) => some (.arr xs, r)
          | none => none
      else if c = '{' then
        match skipWs rest with
        | '}' :: r => some (.obj [], r)
        | _ =>
          match parseMembers _fuel rest with
          | some (kvs, r) => some (.obj kvs, r)
          | none => none
      else none

/-- Parse array elements up to and including the closing `]`. -/
def parseElems : Nat → List Char → Option (List Json × List Char)
  | 0, _ => none
  | fuel + 1, l =>
    match parseValue fuel l with
    | none => none
    | some (v, r) =>
      match skipWs r with
      | ',' :: r' =>
        match parseElems fuel r' with
        | some (xs, r'') => some (v :: xs, r'')
        | none => none
      | ']' :: r' => some ([v], r')
      | _ => none

/-- Parse object members up to and including the closing `}`. -/
def parseMembers : Nat → List Char → Option (List (List Char × Json) × List Char)
  | 0, _ => none
  | fuel + 1, l =>
    match skipWs l with
    | '"' :: rest =>
      match parseStringBody rest with
      | none => none
      | some (k, r) =>
        match skipWs r with
        | ':' :: r' =>
          match parseValue fuel r' with
          | none => none
          | some (v, r'') =>
            match skipWs r'' with
            | ',' :: r3 =>
              match parseMembers fuel r3 with
              | some (kvs, r4) => some ((k, v) :: kvs, r4)
              | none => none
            | '}' :: r3 => some ([(k, v)], r3)
            | _ => none
        | _ => none
    | _ => none

end

/-- Model of `json.loads`: decode the whole input, `none` on a
`json.JSONDecodeError`. -/
def jsonLoads (l : List Char) : Option Json :=
  match parseValue (2 * l.length + 2) l with
  | some (v, r) => if skipWs r = [] then some v else none
  | none => none

/-- Serialize one JSON string character as `json.dumps` does with
`ensure_ascii=False` (common control-character escapes). -/
def dumpChar (c : Char) : List Char :=
  if c = '"' then ['\\', '"']
  else if c = '\\' then ['\\', '\\']
  else if c = '\n' then ['\\', 'n']
  else if c = '\t' then ['\\', 't']
  else if c = '\r' then ['\\', 'r']
  else [c]

/-- Serialize a JSON string literal. -/
def dumpString (s : List Char) : List Char :=
  '"' :: (s.foldr (fun c acc => dumpChar c ++ acc) ['"'])

/-- Comma-separated concatenation with Python's default `", "`. -/
def joinComma : List (List Char) → List Char
  | [] => []
  | [l] => l
  | l :: rest => l ++ ',' :: ' ' :: joinComma rest

mutual

/-- Model of `json.dumps(v, ensure_ascii=False)` (default separators
`", "` and `": "`, no indent). -/
def pyDumps : Json → List Char
  | .null => (r"null").data
  | .bool true => (r"true").data
  | .bool false => (r"false").data
  | .num n => (toString n).data
  | .str s => dumpString s
  | .arr xs => '[' :: joinComma (dumpElems xs) ++ [']']
  | .obj kvs => '{' :: joinComma (dumpMembers kvs) ++ ['}']

/-- Serialized elements of a JSON array. -/
def dumpElems : List Json → List (List Char)
  | [] => []
  | x :: xs => pyDumps x :: dumpElems xs

/-- Serialized members of a JSON object. -/
def dumpMembers : List (List Char × Json) → List (List Char)
  | [] => []
  | (k, v) :: kvs => (dumpString k ++ ':' :: ' ' :: pyDumps v) :: dumpMembers kvs

end

instance : Repr Json := ⟨fun j _ => Std.Format.text (String.mk (pyDumps j))⟩

/-! ## Exception kinds

One error type covering the domain exceptions of
`src/domain/exceptions.py` that the embedded code paths can raise,
plus the built-in Python exceptions that can escape them
(`AttributeError`, `TypeError`, `ValueError`). `aiError` is the
gateway error kind (`AIError`). -/

inductive Err where
  | validation (msg : List Char)
  | analysisNotFound
  | documentNotFound
  | restructurationNotFound
  | generationNotFound
  | alreadyExists
  | aiError (msg : List Char)
  | attributeError
  | typeError
  | valueError
  | pyOther (msg : List Char)
deriving DecidableEq, Repr

/-- Recognize the gateway error kind. -/
def Err.isAIError : Err → Bool
  | .aiError _ => true
  | _ => false

/-! ## Python operations on decoded JSON values -/

/-- Model of `d.get(key, default)`: dictionaries answer the lookup
(last binding wins, as `json.loads` keeps the last duplicate key);
any non-dict value raises `AttributeError` since lists, strings,
numbers, booleans and `None` have no `get` method. -/
def pyGet (j : Json) (key : List Char) (dflt : Json) : Except Err Json :=
  match j with
  | .obj kvs =>
    match kvs.reverse.find? (fun kv => kv.1 = key) with
    | some kv => .ok kv.2
    | none => .ok dflt
  | _ => .error .attributeError

/-- Model of Python iteration `for x in j`: lists yield their
elements, strings their one-character substrings, dicts their keys;
numbers, booleans and `None` raise `TypeError`. -/
def pyIter (j : Json) : Except Err (List Json) :=
  match j with
  | .arr xs => .ok xs
  | .str s => .ok (s.map (fun c => .str [c]))
  | .obj kvs => .ok (kvs.map (fun kv => .str kv.1))
  | _ => .error .typeError

/-- Model of Python `key in j` for a string `key`: dict key
membership, substring test on strings, `==` membership on lists;
`TypeError` on numbers, booleans and `None`. -/
def pyIn (key : List Char) (j : Json) : Except Err Bool :=
  match j with
  | .obj kvs => .ok (kvs.any (fun kv => kv.1 = key))
  | .str s => .ok (containsSub s key)
  | .arr xs => .ok (xs.any (fun x => x.eqb (.str key)))
  | _ => .error .typeError

/-! ## Structured-response extractors

Models of the markdown/JSON scraping pipeline shared verbatim by
`RestructurerService._parse_module_items`,
`GeneratorService._parse_cards` and
`AtomizerService._parse_optimized_cards`, and of
`AnalystService._parse_detected_modules`. -/

/-- The markdown code-fence extraction block common to the parsers:

    if "```json" in response: take the interior of the first
    ```json fence (if a closing ``` follows);
    elif "```" in response: take the interior of the first plain fence;
    otherwise keep the response unchanged. -/
def stripJsonFence (r : List Char) : List Char :=
  if containsSub r ['`','`','`','j','s','o','n'] then
    let start := pyFind r ['`','`','`','j','s','o','n'] + 7
    let stop := pyFindFrom r ['`','`','`'] start.toNat
    if stop ≠ -1 then pyStrip (pySlice r start.toNat stop.toNat) else r
  else if containsSub r ['`','`','`'] then
    let start := pyFind r ['`','`','`'] + 3
    let stop := pyFindFrom r ['`','`','`'] start.toNat
    if stop ≠ -1 then pyStrip (pySlice r start.toNat stop.toNat) else r
  else r

/-- The `{...}` span heuristic common to the parsers:
`start = response.find("{")`, `end = response.rfind("}") + 1`, and the
slice is taken only when `start != -1 and end > start`. -/
def braceSpan (r : List Char) : List Char :=
  let start := pyFind r ['{']
  let stop := pyRFind r ['}'] + 1
  if start ≠ -1 ∧ stop > start then pySlice r start.toNat stop.toNat else r

/-- Model of `GeneratorService._validate_card_structure` and of the
verbatim-identical `AtomizerService._validate_card_structure`:
`basic` cards need the keys `front` and `back` present (`and`
short-circuits), `cloze` cards the key `text`; any other card type
yields `False`. -/
def validateCardStructure (card : Json) (cardType : List Char) : Except Err Bool :=
  if cardType = ['b','a','s','i','c'] then do
    let hasFront ← pyIn ['f','r','o','n','t'] card
    if hasFront then pyIn ['b','a','c','k'] card else pure false
  else if cardType = ['c','l','o','z','e'] then
    pyIn ['t','e','x','t'] card
  else pure false

/-- The validation loop of `_parse_cards`: keep cards passing the
shape check, drop the others silently. -/
def filterValidCards (cards : List Json) (cardType : List Char) : Except Err (List Json) :=
  match cards with
  | [] => .ok []
  | c :: rest => do
    let ok ← validateCardStructure c cardType
    let tail ← filterValidCards rest cardType
    if ok then pure (c :: tail) else pure tail

/-- Model of `GeneratorService._parse_cards` and of the
verbatim-identical `AtomizerService._parse_optimized_cards`: strip,
fail on empty, strip markdown fences, take the outer `{...}` span,
`json.loads` (decode failure surfaces as `AIError`), read the
`cards` field with default `[]`, and filter by the shape check.
The `module` argument only feeds the error messages. -/
def parseCardsResponse (response : List Char) (module : List Char)
    (cardType : List Char) : Except Err (List Json) :=
  let r := pyStrip response
  if r = [] then
    .error (.aiError (['R','é','p','o','n','s','e',' ','v','i','d','e',' '] ++ module))
  else
    let r := braceSpan (stripJsonFence r)
    match jsonLoads r with
    | none => .error (.aiError (['J','S','O','N',' ','i','n','v','a','l','i','d','e',' '] ++ module))
    | some parsed => do
      let cardsField ← pyGet parsed ['c','a','r','d','s'] (.arr [])
      let cards ← pyIter cardsField
      filterValidCards cards cardType

/-- Model of `AnalystService._parse_detected_modules`: strip, fail on
empty, strip markdown fences, try `json.loads` directly, then retry
on the `{...}` span; a decode failure on both attempts surfaces as
`AIError`.  Returns the raw `detected_modules` value (default `[]`). -/
def parseDetectedModules (response : List Char) : Except Err Json :=
  let r := pyStrip response
  if r = [] then
    .error (.aiError ['R','é','p','o','n','s','e',' ','v','i','d','e'])
  else
    let r := stripJsonFence r
    match jsonLoads r with
    | some parsed => pyGet parsed ['d','e','t','e','c','t','e','d','_','m','o','d','u','l','e','s'] (.arr [])
    | none =>
      let start := pyFind r ['{']
      let stop := pyRFind r ['}'] + 1
      if start ≠ -1 ∧ stop > start then
        match jsonLoads (pySlice r start.toNat stop.toNat) with
        | some parsed => pyGet parsed ['d','e','t','e','c','t','e','d','_','m','o','d','u','l','e','s'] (.arr [])
        | none => .error (.aiError ['J','S','O','N',' ','i','n','v','a','l','i','d','e'])
      else .error (.aiError ['J','S','O','N',' ','i','n','v','a','l','i','d','e'])

/-! ## Unit-of-work tracker
(`tracking.json`, managed by `JsonRestructuredStorage`,
`JsonCardsStorage` and `JsonOptimizedCardsStorage`, which share the
`update_module_status` / `_update_global_status` logic verbatim). -/

/-- Module/ledger status values (`pending`, `in_progress`,
`completed`, `failed`). -/
inductive Status where
  | pending
  | inProgress
  | completed
  | failed
deriving DecidableEq, Repr

/-- Per-module ledger record: status, unit count
(`items_count` / `cards_count` / the optimizer's pair is collapsed to
one counter because no claim reads the optimizer's split counts),
timestamps and error text. -/
structure ModuleData where
  status : Status
  count : Nat
  startedAt : Option Nat
  completedAt : Option Nat
  error : Option (List Char)
deriving DecidableEq, Repr

/-- Fresh per-module record as inserted by `_init_tracking` and by
`update_module_status` for an unknown module. -/
def freshModuleData : ModuleData :=
  { status := .pending, count := 0, startedAt := none, completedAt := none, error := none }

/-- The tracking ledger. The modules map is an association list in
insertion order (Python dict semantics); identifier fields that no
claim reads (`analysis_id`, `document_id`, `specialist`) are not
carried. Wall-clock timestamps are modelled as `Nat`. -/
structure Tracking where
  status : Status
  startedAt : Nat
  updatedAt : Nat
  sessionId : Option String
  modules : List (String × ModuleData)
deriving DecidableEq, Repr

/-- `_update_global_status`: derive the global ledger status from the
per-module statuses (empty map → `pending`; all `completed` →
`completed`; any `failed` → `failed`; any `in_progress` →
`in_progress`; any `completed` → `in_progress`; else `pending`). -/
def computeGlobalStatus (mods : List (String × ModuleData)) : Status :=
  if mods = [] then .pending
  else
    let statuses := mods.map (fun m => m.2.status)
    if statuses.all (· = .completed) then .completed
    else if statuses.any (· = .failed) then .failed
    else if statuses.any (· = .inProgress) then .inProgress
    else if statuses.any (· = .completed) then .inProgress
    else .pending

/-- Status of one module in the ledger, if present. -/
def Tracking.moduleStatus (t : Tracking) (m : String) : Option Status :=
  (t.modules.find? (fun p => p.1 = m)).map (fun p => p.2.status)

/-- Error text of one module in the ledger, if present. -/
def Tracking.moduleError (t : Tracking) (m : String) : Option (Option (List Char)) :=
  (t.modules.find? (fun p => p.1 = m)).map (fun p => p.2.error)

/-- Update the binding of `k` in an association list in place
(Python dict mutation semantics: keys are unique, order is insertion
order, an absent key is appended at the end with `F dflt`). -/
def setAssoc {β : Type} (k : String) (F : β → β) (dflt : β) :
    List (String × β) → List (String × β)
  | [] => [(k, F dflt)]
  | p :: rest =>
    if p.1 = k then (p.1, F p.2) :: rest else p :: setAssoc k F dflt rest

/-- The per-record mutation of `update_module_status`: overwrite
status/count/error, set `started_at` on the first transition into
`in_progress` and `completed_at` on `completed`/`failed`. -/
def applyStatusChange (s : Status) (count : Nat) (error : Option (List Char)) (now : Nat)
    (d : ModuleData) : ModuleData :=
  let d := { d with status := s, count := count, error := error }
  if s = .inProgress ∧ d.startedAt = none then { d with startedAt := some now }
  else if s = .completed ∨ s = .failed then { d with completedAt := some now }
  else d

/-- `update_module_status` (shared by the three storage adapters): set
`updated_at`, insert a fresh record for an unknown module, apply the
record mutation, then recompute the global status. -/
def updateModuleStatus (t : Tracking) (m : String) (s : Status)
    (count : Nat) (error : Option (List Char)) (now : Nat) : Tracking :=
  let mods := setAssoc m (applyStatusChange s count error now) freshModuleData t.modules
  { t with updatedAt := now, modules := mods, status := computeGlobalStatus mods }

/-- `_init_tracking` (restructurer and generator services): a ledger
with global status `in_progress` and one `pending` record per
requested module. -/
def initTracking (modules : List String) (now : Nat) : Tracking :=
  { status := .inProgress, startedAt := now, updatedAt := now, sessionId := none,
    modules := modules.map (fun m => (m, freshModuleData)) }

/-! ## Rate-limit handling (`GeneratorService`) -/

/-- The keyword list of `GeneratorService._is_rate_limit_error`. -/
def rateLimitKeywords : List (List Char) :=
  [ ['r','a','t','e',' ','l','i','m','i','t']
  , ['r','a','t','e','_','l','i','m','i','t']
  , ['t','o','k','e','n',' ','l','i','m','i','t']
  , ['t','o','k','e','n','s',' ','l','i','m','i','t']
  , ['q','u','o','t','a']
  , ['t','o','o',' ','m','a','n','y',' ','r','e','q','u','e','s','t','s']
  , ['4','2','9']
  , ['l','i','m','i','t',' ','e','x','c','e','e','d','e','d']
  , ['c','a','p','a','c','i','t','y'] ]

/-- `_is_rate_limit_error`, applied to the already-lowercased error
text. -/
def isRateLimitError (errStr : List Char) : Bool :=
  rateLimitKeywords.any (fun k => containsSub errStr k)

/-- Leftmost maximal digit run immediately followed by `c`: model of
`re.search(r"(\d+)X", s)` for a non-digit character `X` (only the full
run can precede a non-digit, so greedy backtracking never shortens the
group). -/
def reNumBefore (c : Char) : Option Nat → List Char → Option Nat
  | _, [] => none
  | acc, x :: rest =>
    if x.isDigit then
      reNumBefore c (some ((acc.getD 0) * 10 + (x.toNat - '0'.toNat))) rest
    else
      match acc with
      | some n => if x = c then some n else reNumBefore c none rest
      | none => reNumBefore c none rest

/-- `GeneratorService._parse_reset_time`: hours, minutes and seconds
scraped from the reset hint. -/
def parseResetTime (resetTime : List Char) : Nat :=
  ((reNumBefore 'h' none resetTime).getD 0) * 3600 +
  ((reNumBefore 'm' none resetTime).getD 0) * 60 +
  ((reNumBefore 's' none resetTime).getD 0)

/-- `GeneratorService._handle_rate_limit`: query `check_usage` (an
exception yields the 300 s default), parse a present truthy
`reset_time` hint, and return the parsed wait plus ten seconds when
positive, otherwise 300 s. -/
def handleRateLimit (checkUsage : Except Unit (Option (List Char))) : Nat :=
  match checkUsage with
  | .error _ => 300
  | .ok usage =>
    match usage with
    | some resetTime =>
      if resetTime ≠ [] then
        let waitSeconds := parseResetTime resetTime
        if waitSeconds > 0 then waitSeconds + 10 else 300
      else 300
    | none => 300

/-! ## Content-type detection (`AtomizerService._detect_content_type`) -/

/-- One card's serialized lowercased content, as scored by the
heuristics. -/
def cardContent (card : Json) : List Char := pyLower (pyDumps card)

/-- LaTeX heuristic: `[$]`, `[$$]` or `\frac`. -/
def cardHasLatex (card : Json) : Bool :=
  let c := cardContent card
  containsSub c ['[','$',']'] || containsSub c ['[','$','$',']'] ||
    containsSub c ['\\','f','r','a','c']

/-- Code heuristic: triple backtick, `def ` or `function`. -/
def cardHasCode (card : Json) : Bool :=
  let c := cardContent card
  containsSub c ['`','`','`'] || containsSub c ['d','e','f',' '] ||
    containsSub c ['f','u','n','c','t','i','o','n']

/-- Table heuristic: both `|` and `---` present. -/
def cardHasTable (card : Json) : Bool :=
  let c := cardContent card
  containsSub c ['|'] && containsSub c ['-','-','-']

/-- Image heuristic: `image`, `figure` or `schéma`. -/
def cardHasImage (card : Json) : Bool :=
  let c := cardContent card
  containsSub c ['i','m','a','g','e'] || containsSub c ['f','i','g','u','r','e'] ||
    containsSub c ['s','c','h','é','m','a']

/-- `count > total * 0.3` on natural counts.  Exact arithmetic stands
in for the float comparison: for card counts far below `2^50` the
rounded double `total * 0.3` lies strictly between the integers
`⌊3·total/10⌋` and `⌈3·total/10⌉` exactly when `10 ∤ 3·total`, and
equals `3·total/10` otherwise, so the two comparisons agree. -/
def aboveThreshold (count total : Nat) : Bool :=
  10 * count > 3 * total

/-- `AtomizerService._detect_content_type`: a caller-specified
singleton content-type list is returned unchanged; otherwise the four
heuristics are scored per card and the first of `math_formulas`,
`code`, `tables`, `images` whose count clears the 30 % threshold wins,
defaulting to `general`. -/
def detectContentType (cards : List Json) (specifiedTypes : Option (List (List Char))) :
    List Char :=
  match specifiedTypes with
  | some (t :: ts) =>
    if ts = [] then t else detectContentTypeAuto cards
  | _ => detectContentTypeAuto cards
where
  detectContentTypeAuto (cards : List Json) : List Char :=
    let latexCount := (cards.filter cardHasLatex).length
    let codeCount := (cards.filter cardHasCode).length
    let tableCount := (cards.filter cardHasTable).length
    let imageCount := (cards.filter cardHasImage).length
    let total := cards.length
    if aboveThreshold latexCount total then ['m','a','t','h','_','f','o','r','m','u','l','a','s']
    else if aboveThreshold codeCount total then ['c','o','d','e']
    else if aboveThreshold tableCount total then ['t','a','b','l','e','s']
    else if aboveThreshold imageCount total then ['i','m','a','g','e','s']
    else ['g','e','n','e','r','a','l']

/-! ## Formatter (`FormatterService._extract_formatted_content`,
`FormatterService._count_cards_in_file`)

`format_cards` persists the return value of
`_extract_formatted_content` verbatim
(`save_formatted_file(content=formatted_content)`), so statements
about the function are statements about the persisted artifact. -/

/-- One alternative of the fence regex
`` ```(?:txt|text|anki)?\s*\n(.*?)``` `` at a fixed start: match the
given tag, then a whitespace run whose greedy `\s*` ends at its last
newline, then the shortest capture up to a closing triple backtick. -/
def tryFenceTag (tag : List Char) (after : List Char) : Option (List Char) :=
  if tag.isPrefixOf after then
    let r := after.drop tag.length
    let run := r.takeWhile pyWs
    match lastMatch ['\n'] run with
    | some j =>
      let body := r.drop (j + 1)
      match firstMatch ['`','`','`'] body with
      | some k => some (body.take k)
      | none => none
    | none => none
  else none

/-- All tag alternatives of the fence regex at a fixed start, in the
regex's preference order (`txt`, `text`, `anki`, empty). -/
def fenceSearchAt (after : List Char) : Option (List Char) :=
  match tryFenceTag ['t','x','t'] after with
  | some m => some m
  | none =>
    match tryFenceTag ['t','e','x','t'] after with
    | some m => some m
    | none =>
      match tryFenceTag ['a','n','k','i'] after with
      | some m => some m
      | none => tryFenceTag [] after

/-- Model of
`re.search(r"```(?:txt|text|anki)?\s*\n(.*?)```", response, re.DOTALL)`:
the leftmost start position admitting a match, with the capture
group. -/
def reFenceSearch : List Char → Option (List Char)
  | [] => none
  | x :: rest =>
    if ['`','`','`'].isPrefixOf (x :: rest) then
      match fenceSearchAt ((x :: rest).drop 3) with
      | some m => some m
      | none => reFenceSearch rest
    else reFenceSearch rest

/-- The two unconditional header directives injected by the
formatter, plus the cloze notetype. -/
def ankiHeaders (cardType : List Char) : List (List Char) :=
  [ ['#','s','e','p','a','r','a','t','o','r',':',';']
  , ['#','h','t','m','l',':','t','r','u','e'] ] ++
  (if cardType = ['c','l','o','z','e']
   then [['#','n','o','t','e','t','y','p','e',':','C','l','o','z','e']] else [])

/-- A `#separator` directive within the first three lines. -/
def hasSeparatorDirective (lines : List (List Char)) : Bool :=
  (lines.take 3).any (fun line =>
    pyStartsWith (pyStrip line) ['#','s','e','p','a','r','a','t','o','r'])

/-- A `#html` directive within the first three lines. -/
def hasHtmlDirective (lines : List (List Char)) : Bool :=
  (lines.take 3).any (fun line => pyStartsWith (pyStrip line) ['#','h','t','m','l'])

/-- The code-fence stripping stage of `_extract_formatted_content`
(applied to the already-stripped response): when a triple backtick is
present, prefer the regex capture, falling back to the span between
the first fence's end-of-line and the last triple backtick. -/
def formatterFenceStrip (r : List Char) : List Char :=
  if containsSub r ['`','`','`'] then
    match reFenceSearch r with
    | some m => pyStrip m
    | none =>
      let start := (pyFind r ['`','`','`'] + 3).toNat
      let start := (pyFindFrom r ['\n'] start + 1).toNat
      let stop := pyRFind r ['`','`','`']
      if stop > (start : Int) then pyStrip (pySlice r start stop.toNat) else r
  else r

/-- `FormatterService._extract_formatted_content`: strip, fail on
empty, strip code fences, then enforce the `#separator` / `#html`
directives in the first three lines, prepending the defaults (and the
cloze notetype) when either is missing. -/
def extractFormattedContent (response : List Char) (cardType : List Char) :
    Except Err (List Char) :=
  let r := pyStrip response
  if r = [] then
    .error (.aiError ['R','é','p','o','n','s','e',' ','v','i','d','e'])
  else
    let r := formatterFenceStrip r
    let lines := pySplitNl r
    if lines = [] then
      .error (.aiError ['C','o','n','t','e','n','u',' ','v','i','d','e'])
    else
      if ¬ hasSeparatorDirective lines ∨ ¬ hasHtmlDirective lines then
        .ok (pyJoinNl (ankiHeaders cardType) ++ '\n' :: r)
      else .ok r

/-- `FormatterService._count_cards_in_file`: non-empty,
non-`#`-prefixed lines of the stripped content (the `card_type`
parameter is unused by the source as well). -/
def countCardsInFile (content : List Char) (_cardType : List Char) : Nat :=
  ((pySplitNl (pyStrip content)).filter (fun line =>
    pyStrip line ≠ [] ∧ ¬ pyStartsWith (pyStrip line) ['#'])).length

/-! ## Content-addressed output store for stage 2
(`JsonRestructuredStorage`)

The store is modelled per document: a latest pointer
(`latest.json`) and one directory per analysis run holding
`restructuration.json`, `tracking.json` and the module item files.
Every service-side call passes `analysis_id=None`, so the adapter
resolves the latest pointer on each operation. -/

/-- `ContentModule.all_modules()`. -/
def allModules : List String :=
  [r"themes", r"vocabulary", r"images_list", r"images_descriptions",
   r"tables", r"math_formulas", r"code"]

/-- The analysis record, as read back by
`AnalysisStoragePort.find_by_id` (fields the restructurer uses). -/
structure AnalysisRec where
  documentId : String
  detectedModules : List String
deriving DecidableEq, Repr

/-- The document record, as read back by
`DocumentRepositoryPort.find_by_id` (fields the restructurer uses). -/
structure DocRec where
  path : String
  name : String
deriving DecidableEq, Repr

/-- `restructuration.json`: the stage-2 metadata record.
`analysisId`/`outputPath` are the fields injected by
`save_restructuration_metadata` (the output path is identified with
the run id it names). -/
structure RMeta where
  id : String
  documentId : String
  documentName : String
  modulesProcessed : List String
  itemsCount : List (String × Nat)
  restructuredAt : Nat
  analysisId : String
  outputPath : String
deriving DecidableEq, Repr

/-- One `{document}/{analysisRunId}/` directory.  `items` holds the
per-module artifacts as `(module, item_id, content)` triples in write
order (the `id`/`module` fields injected into the stored dict are
redundant with the key and not re-modelled). -/
structure RunDir where
  meta : Option RMeta
  tracking : Option Tracking
  items : List (String × String × Json)
deriving DecidableEq, Repr

/-- An absent directory reads as empty. -/
def emptyRunDir : RunDir := { meta := none, tracking := none, items := [] }

/-- The per-document slice of the outputs tree: the latest pointer
plus the named run directories. -/
structure DocStore where
  latest : Option String
  runs : List (String × RunDir)
deriving DecidableEq, Repr

/-- Directory view of one run (missing directories read empty). -/
def DocStore.run (st : DocStore) (rid : String) : RunDir :=
  ((st.runs.find? (fun p => p.1 = rid)).map (fun p => p.2)).getD emptyRunDir

/-- Rewrite one run directory (creating it if absent). -/
def DocStore.setRun (st : DocStore) (rid : String) (d : RunDir) : DocStore :=
  { st with runs := setAssoc rid (fun _ => d) emptyRunDir st.runs }

/-- `_get_analysis_path`: an explicit run id wins, otherwise the
latest pointer; `ValueError` when neither names a run. -/
def resolveRun (st : DocStore) (analysisId : Option String) : Except Err String :=
  match analysisId with
  | some rid => .ok rid
  | none =>
    match st.latest with
    | some rid => .ok rid
    | none => .error .valueError

/-- `get_tracking` (the `ValueError` of path resolution is caught and
read as "no tracking"). -/
def getTracking (st : DocStore) (analysisId : Option String) : Option Tracking :=
  match resolveRun st analysisId with
  | .ok rid => (st.run rid).tracking
  | .error _ => none

/-- `save_tracking` (always resolves the latest pointer; a missing
pointer propagates `ValueError`). -/
def saveTracking (st : DocStore) (t : Tracking) : Except Err DocStore :=
  match resolveRun st none with
  | .ok rid => .ok (st.setRun rid { st.run rid with tracking := some t })
  | .error e => .error e

/-- `get_restructuration_metadata`. -/
def getRMeta (st : DocStore) (analysisId : Option String) : Option RMeta :=
  match resolveRun st analysisId with
  | .ok rid => (st.run rid).meta
  | .error _ => none

/-- `exists_for_document`: metadata presence in the latest run. -/
def existsForDocument (st : DocStore) : Bool :=
  (getRMeta st none).isSome

/-- `save_restructuration_metadata`: always writes into the latest
run's directory and stamps `analysis_id`/`output_path` into the
record; `ValueError` when the latest pointer is missing. -/
def saveRMeta (st : DocStore) (meta : RMeta) : Except Err (DocStore × RMeta) :=
  match st.latest with
  | none => .error .valueError
  | some rid =>
    let meta := { meta with analysisId := rid, outputPath := rid }
    .ok (st.setRun rid { st.run rid with meta := some meta }, meta)

/-- `save_module_item`: appends the artifact in the latest run's
directory; `ValueError` when the latest pointer is missing. -/
def saveModuleItem (st : DocStore) (module itemId : String) (content : Json) :
    Except Err DocStore :=
  match resolveRun st none with
  | .ok rid =>
    .ok (st.setRun rid { st.run rid with
      items := (st.run rid).items ++ [(module, itemId, content)] })
  | .error e => .error e

/-- `JsonRestructuredStorage.delete` with no explicit run id:
resolves the latest pointer (`False` when missing), removes the
metadata file and the module directories, and keeps `tracking.json`
(a file, not a directory). -/
def deleteRestructuration (st : DocStore) : Bool × DocStore :=
  match resolveRun st none with
  | .ok rid => (true, st.setRun rid { st.run rid with meta := none, items := [] })
  | .error _ => (false, st)

/-! ## Stage orchestrator events and oracles -/

/-- Externally visible effects of one stage invocation, in order. -/
inductive Event where
  | gatewayCall (module : String)
  | artifactWrite (module itemId : String)
  | ledgerUpdate (module : String) (s : Status)
  | ledgerInit
  | ledgerDelete
  | metadataWrite
  | sleepFor (seconds : Nat)
deriving DecidableEq, Repr

/-- Outcome of processing one module through the gateway and the
extractor (`_extract_module_content` for stage 2,
`_generate_module_cards` for stage 3, `_optimize_module_cards` for
stage 4): the produced records, a raised `AIError`, or any other
raised exception. -/
inductive ModuleOutcome where
  | success (records : List Json)
  | aiFailure (msg : List Char)
  | otherFailure (msg : List Char)
deriving DecidableEq, Repr

/-! ## Stage 2: `RestructurerService.restructure_document` -/

/-- Loop accumulator for the per-module loop of stage 2. -/
structure RLoopState where
  store : DocStore
  processed : List String
  counts : List (String × Nat)
  trace : List Event
deriving Repr

/-- Result of a stage invocation: the Python return value (or raised
exception), the final store, and the effect trace. -/
structure StageResult (σ : Type) (μ : Type) where
  result : Except Err (Option μ)
  store : σ
  trace : List Event
deriving Repr

/-- Ledger transition helper for the loop: `update_module_status`
against the run directory `rid` (which the service reaches through
the latest pointer; a missing tracking file is recreated empty by
`_create_empty_tracking`). -/
def storeUpdateModule (st : DocStore) (rid : String) (m : String) (s : Status)
    (count : Nat) (error : Option (List Char)) (now : Nat) : DocStore :=
  let t := ((st.run rid).tracking).getD
    { status := .pending, startedAt := now, updatedAt := now, sessionId := none, modules := [] }
  st.setRun rid { st.run rid with tracking := some (updateModuleStatus t m s count error now) }

/-- `item_id = f"{module.replace('_', '-')}-{idx}"`. -/
def itemIdFor (module : String) (idx : Nat) : String :=
  String.mk ((module.data.map (fun c => if c = '_' then '-' else c)) ++ '-' :: (toString idx).data)

/-- Save the extracted items of one module with sequential 1-based
ids, recording the artifact writes. -/
def saveItems (st : DocStore) (rid : String) (module : String) (items : List Json) :
    DocStore × List Event :=
  let ids := (List.range items.length).map (fun i => itemIdFor module (i + 1))
  ((ids.zip items).foldl (fun acc p =>
      acc.setRun rid { acc.run rid with
        items := (acc.run rid).items ++ [(module, p.1, p.2)] }) st,
   (ids.zip items).map (fun p => Event.artifactWrite module p.1))

/-- The per-module loop of `restructure_document` (lines 199–253):
mark `in_progress`, call the gateway and extractor, save every item
and mark `completed` on success; on `AIError` mark `failed` and
re-raise (aborting the loop); on any other exception mark `failed`
and continue. -/
def restructLoop (oracle : String → ModuleOutcome) (now : Nat) (rid : String) :
    List String → RLoopState → RLoopState × Option (List Char)
  | [], s => (s, none)
  | m :: rest, s =>
    let st := storeUpdateModule s.store rid m .inProgress 0 none now
    let s := { s with store := st, trace := s.trace ++ [Event.ledgerUpdate m Status.inProgress] }
    match oracle m with
    | .success items =>
      let writes := (saveItems s.store rid m items).2
      let st := storeUpdateModule (saveItems s.store rid m items).1 rid m .completed items.length none now
      restructLoop oracle now rid rest
        { store := st,
          processed := s.processed ++ [m],
          counts := s.counts ++ [(m, items.length)],
          trace := s.trace ++ [Event.gatewayCall m] ++ writes ++ [Event.ledgerUpdate m Status.completed] }
    | .aiFailure e =>
      let st := storeUpdateModule s.store rid m .failed 0 (some e) now
      ({ s with
           store := st,
           trace := s.trace ++ [Event.gatewayCall m, Event.ledgerUpdate m Status.failed] }, some e)
    | .otherFailure e =>
      let st := storeUpdateModule s.store rid m .failed 0 (some e) now
      restructLoop oracle now rid rest
        { s with
            store := st,
            trace := s.trace ++ [Event.gatewayCall m, Event.ledgerUpdate m Status.failed] }

/-- `RestructurerService.restructure_document`.

Inputs beyond the Python signature are the injected collaborators and
the ambient nondeterminism, made explicit: `analyses` and `docs` are
the lookup ports, `oracle` is the gateway+extractor outcome per
module (prompt retrieval is treated as succeeding — no claim
concerns `PromptNotFoundError` on the system prompt), `newId` is the
value of `str(uuid.uuid4())[:12]` and `now` the wall clock. -/
def restructureDocument (analyses : String → Option AnalysisRec)
    (docs : String → Option DocRec) (oracle : String → ModuleOutcome)
    (newId : String) (now : Nat) (st : DocStore)
    (analysisId : String) (force : Bool) : StageResult DocStore RMeta :=
  if pyStrip analysisId.data = [] then
    ⟨.error (.validation [('a' : Char)]), st, []⟩
  else
    match analyses analysisId with
    | none => ⟨.error .analysisNotFound, st, []⟩
    | some analysis =>
      let detectedModules := analysis.detectedModules
      if detectedModules = [] then ⟨.error (.validation [('d' : Char)]), st, []⟩
      else
        let selectedModules := detectedModules.filter (fun m => m ∈ allModules)
        if selectedModules = [] then ⟨.error (.validation [('v' : Char)]), st, []⟩
        else
          match docs analysis.documentId with
          | none => ⟨.error .documentNotFound, st, []⟩
          | some doc =>
            let tracking := getTracking st none
            -- resume / initialize branch
            let branch : Except Err (List String × DocStore × List Event ×
                Option (StageResult DocStore RMeta)) :=
              match tracking, force with
              | some t, false =>
                let completedModules :=
                  (t.modules.filter (fun p => p.2.status = .completed)).map (fun p => p.1)
                let modulesToProcess :=
                  selectedModules.filter (fun m => m ∉ completedModules)
                if modulesToProcess = [] then
                  .ok ([], st, [], some ⟨.ok (getRMeta st none), st, []⟩)
                else .ok (modulesToProcess, st, [], none)
              | _, _ =>
                if ¬ force ∧ existsForDocument st then
                  .error .alreadyExists
                else
                  let (_, st) := if force then deleteRestructuration st else (true, st)
                  let t := initTracking selectedModules now
                  match saveTracking st t with
                  | .ok st =>
                    .ok (selectedModules, st,
                      (if force then [Event.ledgerDelete] else []) ++ [Event.ledgerInit], none)
                  | .error e => .error e
            match branch with
            | .error e => ⟨.error e, st, []⟩
            | .ok (_, _, _, some early) => early
            | .ok (todo, st, preTrace, none) =>
              match st.latest with
              | none => ⟨.error .valueError, st, preTrace⟩
              | some rid =>
                let (ls, aborted) := restructLoop oracle now rid todo
                  { store := st, processed := [], counts := [], trace := preTrace }
                match aborted with
                | some e => ⟨.error (.aiError e), ls.store, ls.trace⟩
                | none =>
                  let meta : RMeta :=
                    { id := newId, documentId := analysis.documentId,
                      documentName := doc.name,
                      modulesProcessed := ls.processed, itemsCount := ls.counts,
                      restructuredAt := now, analysisId := r"", outputPath := r"" }
                  match saveRMeta ls.store meta with
                  | .ok (st, saved) =>
                    ⟨.ok (some saved), st, ls.trace ++ [.metadataWrite]⟩
                  | .error e => ⟨.error e, ls.store, ls.trace⟩

/-! ## Stage 3: `GeneratorService.generate_cards`

The cards store (`JsonCardsStorage`) is modelled at the resolved
latest-run `cards/` directory for the invocation's
`(document, card_type)` pair: every storage call of the generator
passes `analysis_id=None`, so all of them resolve the same directory,
and no claim about stage 3 crosses runs or card types. -/

/-- The restructuration record as read back by
`RestructuredStoragePort.find_by_id` (fields the generator uses). -/
structure RestructRec where
  documentId : String
  documentName : String
  modulesProcessed : List String
deriving DecidableEq, Repr

/-- `generation-{card_type}.json`: the stage-3 metadata record (the
`analysis_id`/`card_type`/`output_path` fields injected by
`save_generation_metadata` carry no information beyond the modelled
slice). -/
structure GMeta where
  id : String
  restructurationId : String
  documentId : String
  documentName : String
  cardType : String
  modulesProcessed : List String
  cardsCount : List (String × Nat)
  totalCards : Nat
  generatedAt : Nat
deriving DecidableEq, Repr

/-- The `(document, card_type)` slice of the cards store:
`tracking-{ct}.json`, `generation-{ct}.json` and the saved cards as
`(module, card_id, content)` triples. -/
structure GenStore where
  tracking : Option Tracking
  meta : Option GMeta
  cards : List (String × String × Json)
deriving DecidableEq

/-- `JsonCardsStorage.update_module_status` on the modelled slice
(a missing tracking file is recreated empty by
`_create_empty_tracking`). -/
def genUpdateModule (st : GenStore) (m : String) (s : Status)
    (count : Nat) (error : Option (List Char)) (now : Nat) : GenStore :=
  let t := st.tracking.getD
    { status := .pending, startedAt := now, updatedAt := now, sessionId := none, modules := [] }
  { st with tracking := some (updateModuleStatus t m s count error now) }

/-- `JsonCardsStorage.update_session_id` on the modelled slice. -/
def genUpdateSession (st : GenStore) (sid : String) (now : Nat) : GenStore :=
  let t := st.tracking.getD
    { status := .pending, startedAt := now, updatedAt := now, sessionId := none, modules := [] }
  { st with tracking := some { t with sessionId := some sid, updatedAt := now } }

/-- The post-module session persistence block of `generate_cards`
(lines 271–281): when the gateway adapter exposes a session id that
differs from the one already saved, write it into the tracking
file. -/
def applySessionSave (st : GenStore) (aiSession saved : Option String) (now : Nat) : GenStore :=
  match aiSession with
  | some sid => if saved ≠ some sid then genUpdateSession st sid now else st
  | none => st

/-- The session id remembered after the persistence block. -/
def nextSessionSaved (aiSession saved : Option String) : Option String :=
  match aiSession with
  | some sid => if saved ≠ some sid then some sid else saved
  | none => saved

/-- `card_id = f"card-{idx}"`. -/
def cardIdFor (idx : Nat) : String :=
  String.mk (['c','a','r','d','-'] ++ (toString idx).data)

/-- Save the generated cards of one module with sequential 1-based
ids, recording the artifact writes. -/
def saveCards (st : GenStore) (module : String) (cards : List Json) :
    GenStore × List Event :=
  let ids := (List.range cards.length).map (fun i => cardIdFor (i + 1))
  ((ids.zip cards).foldl (fun acc p =>
      { acc with cards := acc.cards ++ [(module, p.1, p.2)] }) st,
   (ids.zip cards).map (fun p => Event.artifactWrite module p.1))

/-- `GeneratorService.EXCLUDED_MODULES_DEFAULT`. -/
def excludedModulesDefault : List String := [r"images_list", r"images_descriptions"]

/-- Loop accumulator for the per-module loop of stage 3. -/
structure GLoopState where
  store : GenStore
  sessionSaved : Option String
  processed : List String
  counts : List (String × Nat)
  total : Nat
  trace : List Event

/-- The per-module loop of `generate_cards` (lines 226–353): mark
`in_progress`; empty module input completes with zero cards; on
success save the cards, mark `completed`, and persist a fresh gateway
session id; on a rate-limit-shaped `AIError` sleep for the
`_handle_rate_limit` backoff and retry exactly once, a failed retry
(or a non-rate-limit `AIError`) marking the module `failed` with the
original error text and re-raising it; any other exception marks the
module `failed` and the loop continues.  A non-`AIError` exception
raised by the retry itself escapes uncaught. -/
def genLoop (getItems : String → List Json) (attempt1 attempt2 : String → ModuleOutcome)
    (checkUsage : Except Unit (Option (List Char))) (aiSession : Option String) (now : Nat) :
    List String → GLoopState → GLoopState × Option Err
  | [], s => (s, none)
  | m :: rest, s =>
    let st := genUpdateModule s.store m .inProgress 0 none now
    let s := { s with store := st, trace := s.trace ++ [Event.ledgerUpdate m Status.inProgress] }
    let items := getItems m
    if items = [] then
      let st := genUpdateModule s.store m .completed 0 none now
      genLoop getItems attempt1 attempt2 checkUsage aiSession now rest
        { s with
            store := st,
            trace := s.trace ++ [Event.ledgerUpdate m Status.completed] }
    else
      let s := { s with trace := s.trace ++ [Event.gatewayCall m] }
      match attempt1 m with
      | .success cards =>
        let writes := (saveCards s.store m cards).2
        let st := genUpdateModule (saveCards s.store m cards).1 m .completed cards.length none now
        genLoop getItems attempt1 attempt2 checkUsage aiSession now rest
          { store := applySessionSave st aiSession s.sessionSaved now,
            sessionSaved := nextSessionSaved aiSession s.sessionSaved,
            processed := s.processed ++ [m],
            counts := s.counts ++ [(m, cards.length)],
            total := s.total + cards.length,
            trace := s.trace ++ writes ++ [Event.ledgerUpdate m Status.completed] }
      | .aiFailure e =>
        if isRateLimitError (pyLower e) then
          let w := handleRateLimit checkUsage
          if w > 0 then
            let s := { s with trace := s.trace ++ [Event.sleepFor w, Event.gatewayCall m] }
            match attempt2 m with
            | .success cards =>
              let writes := (saveCards s.store m cards).2
              let st := genUpdateModule (saveCards s.store m cards).1 m .completed cards.length none now
              genLoop getItems attempt1 attempt2 checkUsage aiSession now rest
                { s with
                    store := st,
                    processed := s.processed ++ [m],
                    counts := s.counts ++ [(m, cards.length)],
                    total := s.total + cards.length,
                    trace := s.trace ++ writes ++ [Event.ledgerUpdate m Status.completed] }
            | .aiFailure _ =>
              let st := genUpdateModule s.store m .failed 0 (some e) now
              ({ s with
                   store := st,
                   trace := s.trace ++ [Event.ledgerUpdate m Status.failed] },
               some (.aiError e))
            | .otherFailure e2 => (s, some (.pyOther e2))
          else
            let st := genUpdateModule s.store m .failed 0 (some e) now
            ({ s with
                 store := st,
                 trace := s.trace ++ [Event.ledgerUpdate m Status.failed] },
             some (.aiError e))
        else
          let st := genUpdateModule s.store m .failed 0 (some e) now
          ({ s with
               store := st,
               trace := s.trace ++ [Event.ledgerUpdate m Status.failed] },
           some (.aiError e))
      | .otherFailure e =>
        let st := genUpdateModule s.store m .failed 0 (some e) now
        genLoop getItems attempt1 attempt2 checkUsage aiSession now rest
          { s with
              store := st,
              trace := s.trace ++ [Event.ledgerUpdate m Status.failed] }

/-- `GeneratorService.generate_cards`.  `attempt1`/`attempt2` are the
gateway+extractor outcomes of the first and of the retried call to
`_generate_module_cards` per module, `checkUsage` the
usage-introspection result, `aiSession` the session id exposed by the
gateway adapter, `newId` the value of `str(uuid.uuid4())[:12]` and
`now` the wall clock. -/
def generateCards (restructs : String → Option RestructRec) (getItems : String → List Json)
    (attempt1 attempt2 : String → ModuleOutcome)
    (checkUsage : Except Unit (Option (List Char))) (aiSession : Option String)
    (newId : String) (now : Nat) (st : GenStore) (restructurationId : String)
    (cardType : String) (modules : Option (List String)) (force : Bool) :
    StageResult GenStore GMeta :=
  if pyStrip restructurationId.data = [] then
    ⟨.error (.validation [('r' : Char)]), st, []⟩
  else if cardType ≠ r"basic" ∧ cardType ≠ r"cloze" then
    ⟨.error (.validation [('t' : Char)]), st, []⟩
  else
    match restructs restructurationId with
    | none => ⟨.error .restructurationNotFound, st, []⟩
    | some restructuration =>
      let availableModules := restructuration.modulesProcessed
      let explicit : Bool := match modules with
        | some ms => ms ≠ []
        | none => false
      let selection : Except Err (List String) :=
        if explicit then
          let sel := (modules.getD []).filter (fun m => m ∈ availableModules)
          if sel = [] then .error (.validation [('m' : Char)]) else .ok sel
        else
          .ok (availableModules.filter (fun m => m ∉ excludedModulesDefault))
      match selection with
      | .error e => ⟨.error e, st, []⟩
      | .ok selectedModules =>
        if selectedModules = [] then ⟨.error (.validation [('e' : Char)]), st, []⟩
        else
          let branch : Except Err (List String × Tracking × GenStore × List Event ×
              Option (StageResult GenStore GMeta)) :=
            match st.tracking, force with
            | some t, false =>
              let completedModules :=
                (t.modules.filter (fun p => p.2.status = .completed)).map (fun p => p.1)
              let modulesToProcess :=
                selectedModules.filter (fun m => m ∉ completedModules)
              if modulesToProcess = [] then
                .ok ([], t, st, [], some ⟨.ok st.meta, st, []⟩)
              else .ok (modulesToProcess, t, st, [], none)
            | _, _ =>
              if ¬ force ∧ st.meta.isSome then .error .alreadyExists
              else
                let st := if force then
                    { tracking := none, meta := none, cards := [] } else st
                let t := initTracking selectedModules now
                let st := { st with tracking := some t }
                .ok (selectedModules, t, st,
                  (if force then [Event.ledgerDelete] else []) ++ [Event.ledgerInit], none)
          match branch with
          | .error e => ⟨.error e, st, []⟩
          | .ok (_, _, _, _, some early) => early
          | .ok (todo, tracking, st, preTrace, none) =>
            let savedSession := tracking.sessionId
            let (ls, aborted) := genLoop getItems attempt1 attempt2 checkUsage aiSession now todo
              { store := st, sessionSaved := savedSession, processed := [], counts := [],
                total := 0, trace := preTrace }
            match aborted with
            | some e => ⟨.error e, ls.store, ls.trace⟩
            | none =>
              let meta : GMeta :=
                { id := newId, restructurationId := restructurationId,
                  documentId := restructuration.documentId,
                  documentName := restructuration.documentName,
                  cardType := cardType, modulesProcessed := ls.processed,
                  cardsCount := ls.counts, totalCards := ls.total, generatedAt := now }
              ⟨.ok (some meta), { ls.store with meta := some meta },
               ls.trace ++ [Event.metadataWrite]⟩

/-! ## Stage 4: `AtomizerService.optimize_cards`

The optimized-cards store (`JsonOptimizedCardsStorage`) is modelled
at the resolved latest-run slice for the invocation's
`(document, card_type)` pair, as for stage 3. -/

/-- The generation record as read back by
`CardsStoragePort.find_by_id` (fields the atomizer uses). -/
structure GenerationRec where
  documentId : String
  documentName : String
  cardType : String
  modulesProcessed : List String
deriving DecidableEq, Repr

/-- Per-module optimization stats
(`{input, output, content_type}`). -/
structure ModuleStat where
  input : Nat
  output : Nat
  contentType : List Char
deriving DecidableEq, Repr

/-- `optimization-{card_type}.json`: the stage-4 metadata record (the
`optimization_ratio` float, read by no claim settled here, is not
carried). -/
structure OMeta where
  id : String
  generationId : String
  documentId : String
  documentName : String
  cardType : String
  modulesProcessed : List String
  modulesStats : List (String × ModuleStat)
  cardsInput : Nat
  cardsOutput : Nat
  optimizedAt : Nat
deriving DecidableEq, Repr

/-- The `(document, card_type)` slice of the optimized-cards store. -/
structure OptStore where
  tracking : Option Tracking
  meta : Option OMeta
  cards : List (String × String × Json)
deriving DecidableEq

/-- `JsonOptimizedCardsStorage.update_module_status` on the modelled
slice (verbatim the same logic as the other storage adapters). -/
def optUpdateModule (st : OptStore) (m : String) (s : Status)
    (count : Nat) (error : Option (List Char)) (now : Nat) : OptStore :=
  let t := st.tracking.getD
    { status := .pending, startedAt := now, updatedAt := now, sessionId := none, modules := [] }
  { st with tracking := some (updateModuleStatus t m s count error now) }

/-- Save the optimized cards of one module with sequential 1-based
ids. -/
def saveOptCards (st : OptStore) (module : String) (cards : List Json) :
    OptStore × List Event :=
  let ids := (List.range cards.length).map (fun i => cardIdFor (i + 1))
  ((ids.zip cards).foldl (fun acc p =>
      { acc with cards := acc.cards ++ [(module, p.1, p.2)] }) st,
   (ids.zip cards).map (fun p => Event.artifactWrite module p.1))

/-- Loop accumulator for the per-module loop of stage 4. -/
structure OLoopState where
  store : OptStore
  stats : List (String × ModuleStat)
  totalIn : Nat
  totalOut : Nat
  trace : List Event

/-- The per-module loop of `optimize_cards` (lines 161–246): mark
`in_progress`; a module without cards completes with zero counts;
otherwise detect the content type, optimize through the gateway, save
the results and mark `completed`; `AIError` marks the module `failed`
and re-raises, any other exception marks it `failed` and the loop
continues. -/
def optLoop (getCards : String → List Json) (oracle : String → ModuleOutcome)
    (contentTypes : Option (List (List Char))) (now : Nat) :
    List String → OLoopState → OLoopState × Option (List Char)
  | [], s => (s, none)
  | m :: rest, s =>
    let st := optUpdateModule s.store m .inProgress 0 none now
    let s := { s with store := st, trace := s.trace ++ [Event.ledgerUpdate m Status.inProgress] }
    let cards := getCards m
    if cards = [] then
      let st := optUpdateModule s.store m .completed 0 none now
      optLoop getCards oracle contentTypes now rest
        { s with
            store := st,
            trace := s.trace ++ [Event.ledgerUpdate m Status.completed] }
    else
      let detected := detectContentType cards contentTypes
      let s := { s with trace := s.trace ++ [Event.gatewayCall m] }
      match oracle m with
      | .success ocards =>
        let writes := (saveOptCards s.store m ocards).2
        let st := optUpdateModule (saveOptCards s.store m ocards).1 m .completed ocards.length none now
        optLoop getCards oracle contentTypes now rest
          { store := st,
            stats := s.stats ++
              [(m, { input := cards.length, output := ocards.length, contentType := detected })],
            totalIn := s.totalIn + cards.length,
            totalOut := s.totalOut + ocards.length,
            trace := s.trace ++ writes ++ [Event.ledgerUpdate m Status.completed] }
      | .aiFailure e =>
        let st := optUpdateModule s.store m .failed 0 (some e) now
        ({ s with
             store := st,
             trace := s.trace ++ [Event.ledgerUpdate m Status.failed] }, some e)
      | .otherFailure e =>
        let st := optUpdateModule s.store m .failed 0 (some e) now
        optLoop getCards oracle contentTypes now rest
          { s with
              store := st,
              trace := s.trace ++ [Event.ledgerUpdate m Status.failed] }

/-- `AtomizerService.optimize_cards`. -/
def optimizeCards (generations : String → Option GenerationRec)
    (getCards : String → List Json) (oracle : String → ModuleOutcome)
    (newId : String) (now : Nat) (st : OptStore) (generationId : String)
    (contentTypes : Option (List (List Char))) (force : Bool) :
    StageResult OptStore OMeta :=
  if pyStrip generationId.data = [] then
    ⟨.error (.validation [('g' : Char)]), st, []⟩
  else
    match generations generationId with
    | none => ⟨.error .generationNotFound, st, []⟩
    | some generation =>
      if ¬ force ∧ st.meta.isSome then ⟨.error .alreadyExists, st, []⟩
      else
        let (st, preTrace) : OptStore × List Event :=
          if force then ({ tracking := none, meta := none, cards := [] }, [Event.ledgerDelete])
          else (st, [])
        let (ls, aborted) := optLoop getCards oracle contentTypes now
          generation.modulesProcessed
          { store := st, stats := [], totalIn := 0, totalOut := 0, trace := preTrace }
        match aborted with
        | some e => ⟨.error (.aiError e), ls.store, ls.trace⟩
        | none =>
          let meta : OMeta :=
            { id := newId, generationId := generationId,
              documentId := generation.documentId,
              documentName := generation.documentName,
              cardType := generation.cardType,
              modulesProcessed := ls.stats.map (fun p => p.1),
              modulesStats := ls.stats,
              cardsInput := ls.totalIn, cardsOutput := ls.totalOut, optimizedAt := now }
          ⟨.ok (some meta), { ls.store with meta := some meta },
           ls.trace ++ [Event.metadataWrite]⟩

/-! ## Example inputs used by the claim theorems -/

/-- The spec's extractor-permissiveness example response. -/
def exPermissiveResponse : List Char :=
  ['H', 'e', 'r', 'e', ' ', 'y', 'o', 'u', ' ', 'g', 'o', ':', '\n', '`', '`', '`', 'j', 's', 'o', 'n', '\n', '\x7b', '"', 'c', 'a', 'r', 'd', 's', '"', ':', '[', '\x7b', '"', 'f', 'r', 'o', 'n', 't', '"', ':', '"', 'a', '"', ',', '"', 'b', 'a', 'c', 'k', '"', ':', '"', 'b', '"', '\x7d', ',', '\x7b', '"', 'b', 'o', 'g', 'u', 's', '"', ':', '1', '\x7d', ']', '\x7d', '\n', '`', '`', '`', '\n', 'T', 'h', 'a', 'n', 'k', 's', '!']

/-- A response whose only card has empty `front`/`back` fields. -/
def exEmptyFieldsResponse : List Char :=
  ['\x7b', '"', 'c', 'a', 'r', 'd', 's', '"', ':', '[', '\x7b', '"', 'f', 'r', 'o', 'n', 't', '"', ':', '"', '"', ',', '"', 'b', 'a', 'c', 'k', '"', ':', '"', '"', '\x7d', ']', '\x7d']

/-- A response whose only cloze card has an empty `text` field
without cloze markup. -/
def exEmptyClozeResponse : List Char :=
  ['\x7b', '"', 'c', 'a', 'r', 'd', 's', '"', ':', '[', '\x7b', '"', 't', 'e', 'x', 't', '"', ':', '"', '"', '\x7d', ']', '\x7d']

/-- A response decoding to a top-level JSON array: no fenced block
and no `\x7b...\x7d` span. -/
def exTopLevelArrayResponse : List Char :=
  ['[', '1', ',', ' ', '2', ']']

/-- A response with no recoverable JSON at all. -/
def exGarbageResponse : List Char :=
  ['n', 'o', ' ', 'j', 's', 'o', 'n', ' ', 'h', 'e', 'r', 'e']

/-- A formatter gateway response without any header directive. -/
def exHeaderlessResponse : List Char :=
  ['f', 'r', 'o', 'n', 't', '1', ';', 'b', 'a', 'c', 'k', '1', '\n', 'f', 'r', 'o', 'n', 't', '2', ';', 'b', 'a', 'c', 'k', '2']

/-! ## Observations over stage invocations -/

/-- The modules that received an `in_progress` ledger transition
during an invocation, in order: the modules the invocation set out to
process. -/
def startedModules (tr : List Event) : List String :=
  tr.filterMap (fun e => match e with
    | .ledgerUpdate m Status.inProgress => some m
    | _ => none)

/-- Successful module outcome. -/
def ModuleOutcome.isSuccess : ModuleOutcome -> Bool
  | .success _ => true
  | _ => false

/-- Gateway-error module outcome (`AIError`). -/
def ModuleOutcome.isAIFailure : ModuleOutcome -> Bool
  | .aiFailure _ => true
  | _ => false

/-- The modules recorded `completed` in a ledger, in ledger order
(the resume filter of stage entry). -/
def completedModulesOf (t : Tracking) : List String :=
  (t.modules.filter (fun p => p.2.status = Status.completed)).map (fun p => p.1)

/-- Ledger status of one module within a stage-2 run directory. -/
def runModuleStatus (st : DocStore) (rid : String) (m : String) : Option Status :=
  ((st.run rid).tracking).bind (fun t => t.moduleStatus m)

/-- Ledger error text of one module within a stage-2 run directory. -/
def runModuleError (st : DocStore) (rid : String) (m : String) : Option (Option (List Char)) :=
  ((st.run rid).tracking).bind (fun t => t.moduleError m)

/-- Ledger error text of one module in the stage-3 slice. -/
def GenStore.modError (st : GenStore) (m : String) : Option (Option (List Char)) :=
  st.tracking.bind (fun t => t.moduleError m)

/-- Ledger error text of one module in the stage-4 slice. -/
def OptStore.modError (st : OptStore) (m : String) : Option (Option (List Char)) :=
  st.tracking.bind (fun t => t.moduleError m)

/-- Ledger status of one module in the stage-3 slice. -/
def GenStore.modStatus (st : GenStore) (m : String) : Option Status :=
  st.tracking.bind (fun t => t.moduleStatus m)

/-- Ledger status of one module in the stage-4 slice. -/
def OptStore.modStatus (st : OptStore) (m : String) : Option Status :=
  st.tracking.bind (fun t => t.moduleStatus m)

/-- Whether one module of stage 3 aborts the whole invocation: a
gateway error on non-empty input that is not repaired by the single
rate-limit retry. -/
def genAbortsAt (getItems : String -> List Json) (attempt1 attempt2 : String -> ModuleOutcome)
    (checkUsage : Except Unit (Option (List Char))) (m : String) : Bool :=
  decide (getItems m ≠ []) &&
  match attempt1 m with
  | .aiFailure e => !(isRateLimitError (pyLower e) &&
      decide (0 < handleRateLimit checkUsage) && (attempt2 m).isSuccess)
  | _ => false

/-- Whether one module of stage 3 ends up listed in the metadata:
non-empty input items and a successful generation, possibly through
the single rate-limit retry. -/
def genSucceeds (getItems : String -> List Json) (attempt1 attempt2 : String -> ModuleOutcome)
    (checkUsage : Except Unit (Option (List Char))) (m : String) : Bool :=
  decide (getItems m ≠ []) &&
  match attempt1 m with
  | .success _ => true
  | .aiFailure e => isRateLimitError (pyLower e) &&
      decide (handleRateLimit checkUsage > 0) && (attempt2 m).isSuccess
  | .otherFailure _ => false

/-! ## Concrete scenarios used by witnesses and counterexamples -/

/-- An analysis store with two runs `R1`, `R2` of the same document. -/
def twoRunAnalyses : String → Option AnalysisRec := fun aid =>
  if aid = r"R1" ∨ aid = r"R2" then
    some { documentId := r"doc", detectedModules := [r"themes"] }
  else none

/-- A one-document repository. -/
def oneDocRepo : String → Option DocRec := fun did =>
  if did = r"doc" then some { path := r"doc.pdf", name := r"doc" } else none

/-- A gateway oracle that extracts one item for every module. -/
def alwaysOneItem : String → ModuleOutcome := fun _ =>
  .success [Json.obj [([('k' : Char)], Json.num 1)]]

/-- Stage-2 store after the two analyses: both run directories exist
and the latest pointer names `R2`. -/
def twoRunStore : DocStore :=
  { latest := some r"R2", runs := [(r"R1", emptyRunDir), (r"R2", emptyRunDir)] }

/-- A ledger holding `themes: completed`, `vocabulary: failed`,
`tables: pending` (the spec's resume example, over real module
names). -/
def resumeLedger : Tracking :=
  { status := .failed, startedAt := 0, updatedAt := 0, sessionId := none,
    modules := [(r"themes", { freshModuleData with status := .completed }),
                (r"vocabulary", { freshModuleData with status := .failed }),
                (r"tables", { freshModuleData with status := .pending })] }

/-- A ledger with every module `completed`. -/
def allDoneLedger : Tracking :=
  { status := .completed, startedAt := 0, updatedAt := 0, sessionId := none,
    modules := [(r"themes", { freshModuleData with status := .completed }),
                (r"vocabulary", { freshModuleData with status := .completed }),
                (r"tables", { freshModuleData with status := .completed })] }

/-- An analysis that detected `themes`, `vocabulary` and `tables`. -/
def threeModuleAnalyses : String → Option AnalysisRec := fun aid =>
  if aid = r"A" then
    some { documentId := r"doc", detectedModules := [r"themes", r"vocabulary", r"tables"] }
  else none

/-- Stage-2 store of one run `R` carrying the resume ledger. -/
def resumeStore : DocStore :=
  { latest := some r"R", runs := [(r"R", { emptyRunDir with tracking := some resumeLedger })] }

/-- A persisted stage-2 metadata record from an earlier invocation. -/
def priorRMeta : RMeta :=
  { id := r"oldid", documentId := r"doc", documentName := r"doc",
    modulesProcessed := [r"themes"], itemsCount := [(r"themes", 1)],
    restructuredAt := 1, analysisId := r"R", outputPath := r"R" }

/-- Stage-2 store of one run `R` where every module is completed and
the metadata of the earlier invocation is persisted. -/
def allDoneStore : DocStore :=
  { latest := some r"R",
    runs := [(r"R", { emptyRunDir with
                        tracking := some allDoneLedger,
                        meta := some priorRMeta })] }

/-- A restructuration record over the three modules. -/
def threeModuleRestructs : String → Option RestructRec := fun rid =>
  if rid = r"B" then
    some { documentId := r"doc", documentName := r"doc",
           modulesProcessed := [r"themes", r"vocabulary", r"tables"] }
  else none

/-- One restructured item per module, as stage-3 input. -/
def oneItemPerModule : String → List Json := fun _ =>
  [Json.obj [([('k' : Char)], Json.num 1)]]

/-- A stage-3 gateway oracle generating one fixed card per module. -/
def alwaysOneCard : String → ModuleOutcome := fun _ =>
  .success [Json.obj [([('f' : Char), 'r', 'o', 'n', 't'], Json.str [('a' : Char)]),
                      ([('b' : Char), 'a', 'c', 'k'], Json.str [('b' : Char)])]]

/-- A rate-limit-shaped gateway error message. -/
def rateLimitMsg : List Char :=
  [('r' : Char), 'a', 't', 'e', ' ', 'l', 'i', 'm', 'i', 't', ' ', 'h', 'i', 't']

/-- A gateway oracle failing `vocabulary` with a rate-limit error. -/
def vocabRateLimited : String → ModuleOutcome := fun m =>
  if m = r"vocabulary" then .aiFailure rateLimitMsg else alwaysOneCard m

/-- An oracle failing `vocabulary` with a non-gateway exception. -/
def vocabBroken : String → ModuleOutcome := fun m =>
  if m = r"vocabulary" then .otherFailure [('b' : Char), 'o', 'o', 'm']
  else alwaysOneItem m

/-- A gateway error message that is not rate-limit shaped. -/
def plainGatewayMsg : List Char := [('b' : Char), 'r', 'o', 'k', 'e', 'n']

/-- A stage-3/4 oracle failing `vocabulary` with a plain gateway
error. -/
def vocabGatewayDown : String → ModuleOutcome := fun m =>
  if m = r"vocabulary" then .aiFailure plainGatewayMsg else alwaysOneCard m

/-- A stage-3 slice holding the resume ledger and a prior metadata
record. -/
def genResumeStore : GenStore :=
  { tracking := some resumeLedger,
    meta := some { id := r"oldgen", restructurationId := r"B", documentId := r"doc",
                   documentName := r"doc", cardType := r"basic",
                   modulesProcessed := [r"themes"], cardsCount := [(r"themes", 1)],
                   totalCards := 1, generatedAt := 1 },
    cards := [] }

/-- A stage-3 slice where every module is completed. -/
def genAllDoneStore : GenStore :=
  { genResumeStore with tracking := some allDoneLedger }

/-- A generation record over two modules, as stage-4 input. -/
def twoModuleGenerations : String → Option GenerationRec := fun gid =>
  if gid = r"G" then
    some { documentId := r"doc", documentName := r"doc", cardType := r"basic",
           modulesProcessed := [r"themes", r"vocabulary"] }
  else none

/-- The empty stage-3 slice. -/
def genEmptyStore : GenStore := { tracking := none, meta := none, cards := [] }

/-- The empty stage-4 slice. -/
def optEmptyStore : OptStore := { tracking := none, meta := none, cards := [] }

/-- The `basic` card type. -/
def ctBasic : List Char := ['b','a','s','i','c']

/-- The `cloze` card type. -/
def ctCloze : List Char := ['c','l','o','z','e']

/-- The `front` key. -/
def keyFront : List Char := ['f','r','o','n','t']

/-- The `back` key. -/
def keyBack : List Char := ['b','a','c','k']

/-- The `text` key. -/
def keyText : List Char := ['t','e','x','t']

/-- A module name for the parsers' error messages. -/
def aModule : List Char := ['t','h','e','m','e','s']

/-- The one well-shaped card of the spec's permissiveness example. -/
def exCardAB : Json :=
  Json.obj [(keyFront, Json.str [('a' : Char)]), (keyBack, Json.str [('b' : Char)])]

/-- The kept `basic` card with empty `front`/`back` fields. -/
def exCardEmptyFields : Json :=
  Json.obj [(keyFront, Json.str []), (keyBack, Json.str [])]

/-- A raised gateway error, as a result kind. -/
def isAIErrorResult {α : Type} : Except Err α → Bool
  | .error (.aiError _) => true
  | _ => false

/-- The `math_formulas` content type. -/
def ctMath : List Char := ['m','a','t','h','_','f','o','r','m','u','l','a','s']

/-- The `code` content type. -/
def ctCode : List Char := ['c','o','d','e']

/-- The `tables` content type. -/
def ctTables : List Char := ['t','a','b','l','e','s']

/-- The `images` content type. -/
def ctImages : List Char := ['i','m','a','g','e','s']

/-- The `general` content type. -/
def ctGeneral : List Char := ['g','e','n','e','r','a','l']

/-- The `#notetype:Cloze` directive line. -/
def notetypeLine : List Char := ['#','n','o','t','e','t','y','p','e',':','C','l','o','z','e']

/-- The content persisted by the formatter when it injects the
missing header directives: the defaults (plus the cloze notetype) on
top of the fence-stripped response, otherwise unchanged. -/
def injectedContent (response ct : List Char) : List Char :=
  pyJoinNl (ankiHeaders ct) ++ '\n' :: formatterFenceStrip (pyStrip response)

/-! ## Theorems -/

/-- **C3** — Global ledger status derivation.  After every
`update_module_status` call (the logic is verbatim-identical in
`JsonRestructuredStorage`, `JsonCardsStorage` and
`JsonOptimizedCardsStorage`, and `updateModuleStatus` embeds it), the
ledger's global status equals the claimed precedence over the
resulting per-module statuses: all `completed` → `completed`; else
any `failed` → `failed`; else any `in_progress` → `in_progress`;
else any `completed` → `in_progress`; otherwise `pending`, the empty
module map reading `pending`. -/
theorem c3_global_status_derivation (t : Tracking) (m : String) (s : Status)
    (count : Nat) (error : Option (List Char)) (now : Nat) :
    (updateModuleStatus t m s count error now).status =
      (let mods := (updateModuleStatus t m s count error now).modules
       let statuses := mods.map (fun p => p.2.status)
       if mods = [] then Status.pending
       else if statuses.all (· = Status.completed) then Status.completed
       else if statuses.any (· = Status.failed) then Status.failed
       else if statuses.any (· = Status.inProgress) then Status.inProgress
       else if statuses.any (· = Status.completed) then Status.inProgress
       else Status.pending) := by
  rfl

/-- **C8** — Content-type detection in the optimize stage
(`AtomizerService._detect_content_type`): a caller-specified
singleton content-type list is returned unchanged regardless of the
cards; in every other case (`None`, empty list, two or more entries)
the result is the first of `math_formulas`, `code`, `tables`,
`images` whose per-card match count strictly exceeds 30 % of the
card count, and `general` when none does. -/
theorem c8_content_type_detection :
    (∀ (cards : List Json) (t : List Char),
      detectContentType cards (some [t]) = t)
  ∧ (∀ (cards : List Json),
      detectContentType cards none =
        (if 10 * cards.countP cardHasLatex > 3 * cards.length then ctMath
         else if 10 * cards.countP cardHasCode > 3 * cards.length then ctCode
         else if 10 * cards.countP cardHasTable > 3 * cards.length then ctTables
         else if 10 * cards.countP cardHasImage > 3 * cards.length then ctImages
         else ctGeneral))
  ∧ (∀ (cards : List Json),
      detectContentType cards (some []) = detectContentType cards none)
  ∧ (∀ (cards : List Json) (t t' : List Char) (ts : List (List Char)),
      detectContentType cards (some (t :: t' :: ts)) = detectContentType cards none) := by
  refine ⟨fun cards t => rfl, fun cards => ?_, fun cards => rfl, fun cards t t' ts => rfl⟩
  simp [detectContentType, detectContentType.detectContentTypeAuto, aboveThreshold,
    ctMath, ctCode, ctTables, ctImages, ctGeneral, List.countP_eq_length_filter]

/-- **C6** — Extractor failure mode, checked at the failing input.
The response `[1, 2]` (no fenced block and no `{...}` span) is
decoded by `json.loads` into a top-level list, and the subsequent
`parsed.get("cards", [])` / `parsed.get("detected_modules", [])`
raises `AttributeError` — not the gateway error kind `AIError` that
the extractor contract (and the methods' own docstrings) promise for
unparseable responses.  Empty and garbage responses do raise
`AIError` as specified. -/
theorem c6_extractor_failure_kind :
    parseCardsResponse exTopLevelArrayResponse aModule ctBasic = .error .attributeError
  ∧ Err.isAIError .attributeError = false
  ∧ parseDetectedModules exTopLevelArrayResponse = .error .attributeError
  ∧ isAIErrorResult (parseCardsResponse [] aModule ctBasic) = true
  ∧ isAIErrorResult (parseCardsResponse exGarbageResponse aModule ctBasic) = true
  ∧ isAIErrorResult (parseDetectedModules []) = true
  ∧ isAIErrorResult (parseDetectedModules exGarbageResponse) = true := by
  exact ⟨rfl, rfl, rfl, by decide, by decide, by decide, by decide⟩

/-- Every card kept by the validation loop of `_parse_cards` /
`_parse_optimized_cards` passes the shape check. -/
theorem filterValidCards_sound (cs : List Json) (ct : List Char) (out : List Json)
    (h : filterValidCards cs ct = .ok out) :
    ∀ c ∈ out, validateCardStructure c ct = .ok true := by
  induction cs generalizing out with
  | nil =>
    simp only [filterValidCards, Except.ok.injEq] at h
    subst h
    simp
  | cons c rest ih =>
    simp only [filterValidCards] at h
    cases hv : validateCardStructure c ct with
    | error e => rw [hv] at h; simp only [bind, Except.bind] at h; cases h
    | ok b =>
      rw [hv] at h
      simp only [bind, Except.bind] at h
      cases ht : filterValidCards rest ct with
      | error e => rw [ht] at h; cases h
      | ok tail =>
        rw [ht] at h
        cases b with
        | true =>
          simp only [if_true, pure, Except.pure, Except.ok.injEq] at h
          subst h
          intro x hx
          rcases List.mem_cons.mp hx with hx | hx
          · subst hx; exact hv
          · exact ih tail ht x hx
        | false =>
          simp only [Bool.false_eq_true, if_false, pure, Except.pure, Except.ok.injEq] at h
          exact h ▸ ih tail ht

/-- **C5** — counterexample.  The response
`{"cards":[{"front":"","back":""}]}` is parsed into a card whose
`front` and `back` fields are both the empty string, and that card is
kept and returned (the shape check of `_validate_card_structure`
tests key presence only), contradicting the claim that every
returned card has a non-empty `front`/`back`; likewise a cloze card
with an empty `text` field and no cloze-deletion markup is kept. -/
theorem c5_counterexample :
    parseCardsResponse exEmptyFieldsResponse aModule ctBasic = .ok [exCardEmptyFields]
  ∧ pyGet exCardEmptyFields keyFront Json.null = .ok (Json.str [])
  ∧ pyGet exCardEmptyFields keyBack Json.null = .ok (Json.str [])
  ∧ validateCardStructure exCardEmptyFields ctBasic = .ok true
  ∧ parseCardsResponse exEmptyClozeResponse aModule ctCloze =
      .ok [Json.obj [(keyText, Json.str [])]] := by
  exact ⟨rfl, rfl, rfl, rfl, rfl⟩

/-- **C5** — amended.  Whenever `_parse_cards` (generate stage) or
the verbatim-identical `_parse_optimized_cards` (optimize stage)
returns a card list, every record that failed the type-specific
shape check was silently dropped rather than failing the batch, and
every returned card passes that check — but the check is key
presence only (`front` and `back` present for `basic`, `text`
present for `cloze`), with no non-emptiness and no cloze-markup
requirement. -/
theorem c5_card_shape_invariant (response module ct : List Char) (cards : List Json)
    (h : parseCardsResponse response module ct = .ok cards) :
    ∀ c ∈ cards, validateCardStructure c ct = .ok true := by
  simp only [parseCardsResponse] at h
  split at h
  · cases h
  · split at h
    · cases h
    · rename_i parsed _
      revert h
      cases hg : pyGet parsed [('c' : Char),'a','r','d','s'] (Json.arr []) with
      | error e => intro h; simp only [bind, Except.bind] at h; cases h
      | ok cf =>
        intro h
        simp only [bind, Except.bind] at h
        cases hi : pyIter cf with
        | error e => rw [hi] at h; cases h
        | ok cs =>
          rw [hi] at h
          exact filterValidCards_sound cs ct cards h

/-- **C5** — witness: the spec's permissiveness example yields
exactly the one well-shaped card, and that card passes the shape
check by the amended theorem. -/
theorem c5_card_shape_witness :
    parseCardsResponse exPermissiveResponse aModule ctBasic = .ok [exCardAB]
  ∧ validateCardStructure exCardAB ctBasic = .ok true := by
  refine ⟨rfl, ?_⟩
  exact c5_card_shape_invariant exPermissiveResponse aModule ctBasic [exCardAB] rfl
    exCardAB (List.mem_singleton.mpr rfl)

/-- Splitting on newlines never yields the empty list of lines. -/
theorem pySplitNl_ne_nil (l : List Char) : pySplitNl l ≠ [] := by
  cases l with
  | nil => simp [pySplitNl]
  | cons c rest =>
    simp only [pySplitNl]
    split
    · simp
    · split <;> simp

/-- Splitting the injected header block off the content: the header
lines come first, the fence-stripped content's lines follow
unchanged. -/
theorem pySplitNl_inject (ct : List Char) (c : List Char) :
    pySplitNl (pyJoinNl (ankiHeaders ct) ++ '\n' :: c) =
      ankiHeaders ct ++ pySplitNl c := by
  by_cases hct : ct = ctCloze
  · subst hct
    simp [ankiHeaders, ctCloze, pyJoinNl, pySplitNl]
  · rw [ankiHeaders, if_neg (by simpa [ctCloze] using hct)]
    simp [pyJoinNl, pySplitNl]

/-- A satisfied head survives `take (n+1)` and `any`. -/
theorem any_take_cons_head {α : Type} (p : α → Bool) (a : α) (l : List α) (n : Nat)
    (h : p a = true) : ((a :: l).take (n + 1)).any p = true := by
  simp [List.take_succ_cons, List.any_cons, h]

/-- A satisfied second element survives `take (n+2)` and `any`. -/
theorem any_take_cons_second {α : Type} (p : α → Bool) (a b : α) (l : List α) (n : Nat)
    (h : p b = true) : ((a :: b :: l).take (n + 2)).any p = true := by
  simp [List.take_succ_cons, List.any_cons, h]

/-- **C9** — Format header injection
(`FormatterService._extract_formatted_content`, whose return value
`format_cards` persists verbatim): when the fence-stripped gateway
response lacks the `#separator` or the `#html` directive in its
first three lines, the persisted content is the default directives
prepended to the otherwise-unchanged content; both directives are
then present in the first lines, and for `card_type="cloze"` the
`#notetype:Cloze` directive is present as well. -/
theorem c9_format_header_injection (response ct : List Char)
    (h0 : pyStrip response ≠ [])
    (hmiss : ¬ hasSeparatorDirective (pySplitNl (formatterFenceStrip (pyStrip response)))
           ∨ ¬ hasHtmlDirective (pySplitNl (formatterFenceStrip (pyStrip response)))) :
    extractFormattedContent response ct = .ok (injectedContent response ct)
  ∧ pySplitNl (injectedContent response ct) =
      ankiHeaders ct ++ pySplitNl (formatterFenceStrip (pyStrip response))
  ∧ hasSeparatorDirective (pySplitNl (injectedContent response ct)) = true
  ∧ hasHtmlDirective (pySplitNl (injectedContent response ct)) = true
  ∧ (ct = ctCloze → notetypeLine ∈ pySplitNl (injectedContent response ct)) := by
  have hsplit := pySplitNl_inject ct (formatterFenceStrip (pyStrip response))
  have hmain : extractFormattedContent response ct = .ok (injectedContent response ct) := by
    rw [extractFormattedContent]
    rw [if_neg h0]
    rw [if_neg (pySplitNl_ne_nil _)]
    rw [if_pos hmiss]
    rfl
  refine ⟨hmain, hsplit, ?_, ?_, ?_⟩
  · rw [injectedContent, hsplit]
    by_cases hct : ct = ctCloze
    · subst hct
      exact any_take_cons_head _ _ _ 2 (by decide)
    · rw [ankiHeaders, if_neg (by simpa [ctCloze] using hct)]
      exact any_take_cons_head _ _ _ 2 (by decide)
  · rw [injectedContent, hsplit]
    by_cases hct : ct = ctCloze
    · subst hct
      exact any_take_cons_second _ _ _ _ 1 (by decide)
    · rw [ankiHeaders, if_neg (by simpa [ctCloze] using hct)]
      exact any_take_cons_second _ _ _ _ 1 (by decide)
  · intro hct
    subst hct
    rw [injectedContent, hsplit]
    simp [ankiHeaders, ctCloze, notetypeLine]

/-- **C9** — witness: a headerless two-card response for a cloze
deck is persisted with the directives injected on top. -/
theorem c9_format_header_witness :
    extractFormattedContent exHeaderlessResponse ctCloze =
      .ok (injectedContent exHeaderlessResponse ctCloze)
  ∧ notetypeLine ∈ pySplitNl (injectedContent exHeaderlessResponse ctCloze) := by
  have h := c9_format_header_injection exHeaderlessResponse ctCloze (by decide)
    (Or.inl (by decide))
  exact ⟨h.1, h.2.2.2.2 rfl⟩

/-! ### Association-list and ledger update lemmas -/

/-- Looking up the updated key finds the transformed value. -/
theorem find?_setAssoc_self {β : Type} (k : String) (F : β → β) (dflt : β)
    (l : List (String × β)) :
    ((setAssoc k F dflt l).find? (fun p => p.1 = k)).map (fun p => p.2) =
      some (F (((l.find? (fun p => p.1 = k)).map (fun p => p.2)).getD dflt)) := by
  induction l with
  | nil => simp [setAssoc]
  | cons p rest ih =>
    by_cases hp : p.1 = k
    · simp [setAssoc, hp, List.find?_cons]
    · simp only [setAssoc, if_neg hp, List.find?_cons]
      have hb : (decide (p.1 = k)) = false := by simp [hp]
      simp only [hb]
      exact ih

/-- Looking up a different key is unaffected by the update. -/
theorem find?_setAssoc_ne {β : Type} (k k' : String) (F : β → β) (dflt : β)
    (l : List (String × β)) (h : k' ≠ k) :
    (setAssoc k F dflt l).find? (fun p => p.1 = k') =
      l.find? (fun p => p.1 = k') := by
  induction l with
  | nil => simp [setAssoc, Ne.symm h]
  | cons p rest ih =>
    by_cases hp : p.1 = k
    · have hk : (decide (k = k')) = false := by simp [Ne.symm h]
      simp [setAssoc, hp, List.find?_cons, hk]
    · simp only [setAssoc, if_neg hp, List.find?_cons]
      split
      · rfl
      · exact ih

/-- The record mutation always installs the requested status. -/
theorem applyStatusChange_status (s : Status) (count : Nat) (error : Option (List Char))
    (now : Nat) (d : ModuleData) :
    (applyStatusChange s count error now d).status = s := by
  simp only [applyStatusChange]
  split
  · rfl
  · split <;> rfl

/-- The record mutation always installs the passed error text. -/
theorem applyStatusChange_error (s : Status) (count : Nat) (error : Option (List Char))
    (now : Nat) (d : ModuleData) :
    (applyStatusChange s count error now d).error = error := by
  simp only [applyStatusChange]
  split
  · rfl
  · split <;> rfl

/-- After `update_module_status`, the targeted module carries the new
status. -/
theorem moduleStatus_update_self (t : Tracking) (m : String) (s : Status)
    (count : Nat) (error : Option (List Char)) (now : Nat) :
    (updateModuleStatus t m s count error now).moduleStatus m = some s := by
  unfold updateModuleStatus Tracking.moduleStatus
  have h := find?_setAssoc_self m (applyStatusChange s count error now) freshModuleData t.modules
  simp only []
  rw [show ((setAssoc m (applyStatusChange s count error now) freshModuleData t.modules).find?
      (fun p => p.1 = m)).map (fun p => p.2.status) =
    (((setAssoc m (applyStatusChange s count error now) freshModuleData t.modules).find?
      (fun p => p.1 = m)).map (fun p => p.2)).map (fun d => d.status) from by
      cases (setAssoc m (applyStatusChange s count error now) freshModuleData t.modules).find?
        (fun p => p.1 = m) <;> rfl]
  rw [h]
  simp [applyStatusChange_status]

/-- After `update_module_status`, the targeted module carries the new
error text. -/
theorem moduleError_update_self (t : Tracking) (m : String) (s : Status)
    (count : Nat) (error : Option (List Char)) (now : Nat) :
    (updateModuleStatus t m s count error now).moduleError m = some error := by
  unfold updateModuleStatus Tracking.moduleError
  have h := find?_setAssoc_self m (applyStatusChange s count error now) freshModuleData t.modules
  simp only []
  rw [show ((setAssoc m (applyStatusChange s count error now) freshModuleData t.modules).find?
      (fun p => p.1 = m)).map (fun p => p.2.error) =
    (((setAssoc m (applyStatusChange s count error now) freshModuleData t.modules).find?
      (fun p => p.1 = m)).map (fun p => p.2)).map (fun d => d.error) from by
      cases (setAssoc m (applyStatusChange s count error now) freshModuleData t.modules).find?
        (fun p => p.1 = m) <;> rfl]
  rw [h]
  simp [applyStatusChange_error]

/-- `update_module_status` does not touch other modules' statuses. -/
theorem moduleStatus_update_ne (t : Tracking) (m m' : String) (s : Status)
    (count : Nat) (error : Option (List Char)) (now : Nat) (h : m' ≠ m) :
    (updateModuleStatus t m s count error now).moduleStatus m' = t.moduleStatus m' := by
  unfold updateModuleStatus Tracking.moduleStatus
  rw [find?_setAssoc_ne m m' (applyStatusChange s count error now) freshModuleData t.modules h]

/-- `update_module_status` does not touch other modules' error
texts. -/
theorem moduleError_update_ne (t : Tracking) (m m' : String) (s : Status)
    (count : Nat) (error : Option (List Char)) (now : Nat) (h : m' ≠ m) :
    (updateModuleStatus t m s count error now).moduleError m' = t.moduleError m' := by
  unfold updateModuleStatus Tracking.moduleError
  rw [find?_setAssoc_ne m m' (applyStatusChange s count error now) freshModuleData t.modules h]

/-! ### Stage-2 store lemmas -/

/-- `setRun` never touches the latest pointer. -/
theorem latest_setRun (st : DocStore) (rid : String) (d : RunDir) :
    (st.setRun rid d).latest = st.latest := rfl

/-- Reading back the rewritten run directory. -/
theorem run_setRun_self (st : DocStore) (rid : String) (d : RunDir) :
    (st.setRun rid d).run rid = d := by
  unfold DocStore.setRun DocStore.run
  have h := find?_setAssoc_self rid (fun _ => d) emptyRunDir st.runs
  simp only []
  rw [h]
  rfl

/-- `setRun` leaves other run directories unchanged. -/
theorem run_setRun_ne (st : DocStore) (rid r : String) (d : RunDir) (h : r ≠ rid) :
    (st.setRun rid d).run r = st.run r := by
  unfold DocStore.setRun DocStore.run
  rw [find?_setAssoc_ne rid r (fun _ => d) emptyRunDir st.runs h]

/-- A ledger transition only writes the targeted run directory. -/
theorem storeUpdateModule_latest (st : DocStore) (rid m : String) (s : Status)
    (count : Nat) (error : Option (List Char)) (now : Nat) :
    (storeUpdateModule st rid m s count error now).latest = st.latest := rfl

/-- A ledger transition leaves other run directories unchanged. -/
theorem storeUpdateModule_run_ne (st : DocStore) (rid m r : String) (s : Status)
    (count : Nat) (error : Option (List Char)) (now : Nat) (h : r ≠ rid) :
    (storeUpdateModule st rid m s count error now).run r = st.run r :=
  run_setRun_ne _ _ _ _ h

/-- A ledger transition installs the new status for its module. -/
theorem storeUpdateModule_status_self (st : DocStore) (rid m : String) (s : Status)
    (count : Nat) (error : Option (List Char)) (now : Nat) :
    runModuleStatus (storeUpdateModule st rid m s count error now) rid m = some s := by
  unfold runModuleStatus storeUpdateModule
  rw [run_setRun_self]
  simp [moduleStatus_update_self]

/-- A ledger transition installs the new error text for its module. -/
theorem storeUpdateModule_error_self (st : DocStore) (rid m : String) (s : Status)
    (count : Nat) (error : Option (List Char)) (now : Nat) :
    runModuleError (storeUpdateModule st rid m s count error now) rid m = some error := by
  unfold runModuleError storeUpdateModule
  rw [run_setRun_self]
  simp [moduleError_update_self]

/-- A ledger transition leaves other modules' statuses unchanged. -/
theorem storeUpdateModule_status_ne (st : DocStore) (rid m m' : String) (s : Status)
    (count : Nat) (error : Option (List Char)) (now : Nat) (h : m' ≠ m) :
    runModuleStatus (storeUpdateModule st rid m s count error now) rid m' =
      runModuleStatus st rid m' := by
  unfold runModuleStatus storeUpdateModule
  rw [run_setRun_self]
  simp only [Option.bind]
  rw [moduleStatus_update_ne _ _ _ _ _ _ _ h]
  cases hT : (st.run rid).tracking with
  | none => simp [hT, Tracking.moduleStatus]
  | some t0 => simp [hT]

/-- Artifact writes leave the latest pointer unchanged. -/
theorem saveItems_latest (st : DocStore) (rid module : String) (items : List Json) :
    (saveItems st rid module items).1.latest = st.latest := by
  unfold saveItems
  simp only []
  generalize (((List.range items.length).map (fun i => itemIdFor module (i + 1))).zip items) = l
  induction l generalizing st with
  | nil => rfl
  | cons p rest ih => simp only [List.foldl_cons]; rw [ih]; rfl

/-- Artifact writes leave other run directories unchanged. -/
theorem saveItems_run_ne (st : DocStore) (rid module r : String) (items : List Json)
    (h : r ≠ rid) :
    (saveItems st rid module items).1.run r = st.run r := by
  unfold saveItems
  simp only []
  generalize (((List.range items.length).map (fun i => itemIdFor module (i + 1))).zip items) = l
  induction l generalizing st with
  | nil => rfl
  | cons p rest ih =>
    simp only [List.foldl_cons]
    rw [ih]
    exact run_setRun_ne _ _ _ _ h

/-- Artifact writes leave the run's tracking file unchanged. -/
theorem saveItems_tracking (st : DocStore) (rid module : String) (items : List Json) :
    ((saveItems st rid module items).1.run rid).tracking = (st.run rid).tracking := by
  unfold saveItems
  simp only []
  generalize (((List.range items.length).map (fun i => itemIdFor module (i + 1))).zip items) = l
  induction l generalizing st with
  | nil => rfl
  | cons p rest ih =>
    simp only [List.foldl_cons]
    rw [ih, run_setRun_self]

/-- Artifact-write traces hold no ledger transitions. -/
theorem startedModules_saveItems (st : DocStore) (rid module : String) (items : List Json) :
    startedModules (saveItems st rid module items).2 = [] := by
  unfold saveItems startedModules
  simp only []
  generalize (((List.range items.length).map (fun i => itemIdFor module (i + 1))).zip items) = l
  induction l with
  | nil => rfl
  | cons p rest ih => simp only [List.map_cons, List.filterMap_cons]; exact ih

/-! ### Stage-3 and stage-4 slice lemmas -/

/-- Stage-3 ledger transition: the module's new status. -/
theorem genUpdateModule_status_self (st : GenStore) (m : String) (s : Status)
    (count : Nat) (error : Option (List Char)) (now : Nat) :
    (genUpdateModule st m s count error now).modStatus m = some s := by
  unfold genUpdateModule GenStore.modStatus
  simp [moduleStatus_update_self]

/-- Stage-3 ledger transition: the module's new error text. -/
theorem genUpdateModule_error_self (st : GenStore) (m : String) (s : Status)
    (count : Nat) (error : Option (List Char)) (now : Nat) :
    (genUpdateModule st m s count error now).modError m = some error := by
  unfold genUpdateModule GenStore.modError
  simp [moduleError_update_self]

/-- Stage-3 ledger transition: other modules unchanged. -/
theorem genUpdateModule_status_ne (st : GenStore) (m m' : String) (s : Status)
    (count : Nat) (error : Option (List Char)) (now : Nat) (h : m' ≠ m) :
    (genUpdateModule st m s count error now).modStatus m' = st.modStatus m' := by
  unfold genUpdateModule GenStore.modStatus
  simp only [Option.bind]
  rw [moduleStatus_update_ne _ _ _ _ _ _ _ h]
  cases hT : st.tracking with
  | none => simp [hT, Tracking.moduleStatus]
  | some t0 => simp [hT]

/-- Stage-3 ledger transition: metadata file untouched. -/
theorem genUpdateModule_meta (st : GenStore) (m : String) (s : Status)
    (count : Nat) (error : Option (List Char)) (now : Nat) :
    (genUpdateModule st m s count error now).meta = st.meta := rfl

/-- Session-id persistence leaves module statuses unchanged. -/
theorem genUpdateSession_status (st : GenStore) (sid : String) (now : Nat) (m : String) :
    (genUpdateSession st sid now).modStatus m = st.modStatus m := by
  unfold genUpdateSession GenStore.modStatus
  cases hT : st.tracking with
  | none => simp [hT, Tracking.moduleStatus]
  | some t0 => simp [hT, Tracking.moduleStatus]

/-- Session-id persistence leaves the metadata file untouched. -/
theorem genUpdateSession_meta (st : GenStore) (sid : String) (now : Nat) :
    (genUpdateSession st sid now).meta = st.meta := rfl

/-- Stage-3 card writes leave tracking and metadata untouched. -/
theorem saveCards_tracking (st : GenStore) (module : String) (cards : List Json) :
    (saveCards st module cards).1.tracking = st.tracking
  ∧ (saveCards st module cards).1.meta = st.meta := by
  unfold saveCards
  simp only []
  generalize (((List.range cards.length).map (fun i => cardIdFor (i + 1))).zip cards) = l
  induction l generalizing st with
  | nil => exact ⟨rfl, rfl⟩
  | cons p rest ih => simp only [List.foldl_cons]; exact ih _

/-- Stage-3 card writes leave module statuses untouched. -/
theorem saveCards_modStatus (st : GenStore) (module : String) (cards : List Json)
    (m' : String) :
    (saveCards st module cards).1.modStatus m' = st.modStatus m' := by
  unfold GenStore.modStatus
  rw [(saveCards_tracking st module cards).1]

/-- The session persistence block leaves module statuses untouched. -/
theorem applySessionSave_status (st : GenStore) (a saved : Option String) (now : Nat)
    (m' : String) :
    (applySessionSave st a saved now).modStatus m' = st.modStatus m' := by
  unfold applySessionSave
  cases a with
  | none => rfl
  | some sid =>
    simp only []
    by_cases hs : saved ≠ some sid
    · rw [if_pos hs]
      exact genUpdateSession_status st sid now m'
    · rw [if_neg hs]

/-- Stage-3 card-write traces hold no ledger transitions. -/
theorem startedModules_saveCards (st : GenStore) (module : String) (cards : List Json) :
    startedModules (saveCards st module cards).2 = [] := by
  unfold saveCards startedModules
  simp only []
  generalize (((List.range cards.length).map (fun i => cardIdFor (i + 1))).zip cards) = l
  induction l with
  | nil => rfl
  | cons p rest ih => simp only [List.map_cons, List.filterMap_cons]; exact ih

/-- Stage-4 ledger transition: the module's new status. -/
theorem optUpdateModule_status_self (st : OptStore) (m : String) (s : Status)
    (count : Nat) (error : Option (List Char)) (now : Nat) :
    (optUpdateModule st m s count error now).modStatus m = some s := by
  unfold optUpdateModule OptStore.modStatus
  simp [moduleStatus_update_self]

/-- Stage-4 ledger transition: the module's new error text. -/
theorem optUpdateModule_error_self (st : OptStore) (m : String) (s : Status)
    (count : Nat) (error : Option (List Char)) (now : Nat) :
    (optUpdateModule st m s count error now).modError m = some error := by
  unfold optUpdateModule OptStore.modError
  simp [moduleError_update_self]

/-- Stage-4 ledger transition: other modules unchanged. -/
theorem optUpdateModule_status_ne (st : OptStore) (m m' : String) (s : Status)
    (count : Nat) (error : Option (List Char)) (now : Nat) (h : m' ≠ m) :
    (optUpdateModule st m s count error now).modStatus m' = st.modStatus m' := by
  unfold optUpdateModule OptStore.modStatus
  simp only [Option.bind]
  rw [moduleStatus_update_ne _ _ _ _ _ _ _ h]
  cases hT : st.tracking with
  | none => simp [hT, Tracking.moduleStatus]
  | some t0 => simp [hT]

/-- Stage-4 card writes leave the tracking file untouched. -/
theorem saveOptCards_tracking (st : OptStore) (module : String) (cards : List Json) :
    (saveOptCards st module cards).1.tracking = st.tracking := by
  unfold saveOptCards
  simp only []
  generalize (((List.range cards.length).map (fun i => cardIdFor (i + 1))).zip cards) = l
  induction l generalizing st with
  | nil => rfl
  | cons p rest ih => simp only [List.foldl_cons]; exact ih _

/-! ### Stage-2 loop lemmas -/

/-- `startedModules` distributes over trace concatenation. -/
theorem startedModules_append (a b : List Event) :
    startedModules (a ++ b) = startedModules a ++ startedModules b := by
  unfold startedModules
  exact List.filterMap_append a b _

/-- The `in_progress` transition is the start marker. -/
theorem startedModules_inProgress (m : String) (tr : List Event) :
    startedModules (Event.ledgerUpdate m Status.inProgress :: tr) = m :: startedModules tr := rfl

/-- A gateway call starts no module. -/
theorem startedModules_gateway (m : String) (tr : List Event) :
    startedModules (Event.gatewayCall m :: tr) = startedModules tr := rfl

/-- A `completed` transition starts no module. -/
theorem startedModules_completedEv (m : String) (tr : List Event) :
    startedModules (Event.ledgerUpdate m Status.completed :: tr) = startedModules tr := rfl

/-- A `failed` transition starts no module. -/
theorem startedModules_failedEv (m : String) (tr : List Event) :
    startedModules (Event.ledgerUpdate m Status.failed :: tr) = startedModules tr := rfl

/-- An artifact write starts no module. -/
theorem startedModules_artifact (m i : String) (tr : List Event) :
    startedModules (Event.artifactWrite m i :: tr) = startedModules tr := rfl

/-- A backoff sleep starts no module. -/
theorem startedModules_sleep (n : Nat) (tr : List Event) :
    startedModules (Event.sleepFor n :: tr) = startedModules tr := rfl

/-- The empty trace starts no module. -/
theorem startedModules_nil : startedModules [] = [] := rfl

/-- A metadata write starts no module. -/
theorem startedModules_metadata (tr : List Event) :
    startedModules (Event.metadataWrite :: tr) = startedModules tr := rfl

/-- A ledger initialization starts no module. -/
theorem startedModules_init (tr : List Event) :
    startedModules (Event.ledgerInit :: tr) = startedModules tr := rfl

/-- A ledger deletion starts no module. -/
theorem startedModules_delete (tr : List Event) :
    startedModules (Event.ledgerDelete :: tr) = startedModules tr := rfl

/-- The stage-2 loop finishes without re-raising exactly when no
module's outcome is a gateway error. -/
theorem restructLoop_none_iff (o : String → ModuleOutcome) (now : Nat) (rid : String)
    (mods : List String) (s : RLoopState) :
    (restructLoop o now rid mods s).2 = none ↔
      ∀ m ∈ mods, (o m).isAIFailure = false := by
  induction mods generalizing s with
  | nil => simp [restructLoop]
  | cons m rest ih =>
    simp only [restructLoop]
    cases ho : o m with
    | success items =>
      simp only []
      rw [ih]
      simp [ho, ModuleOutcome.isAIFailure]
    | aiFailure e =>
      simp [ho, ModuleOutcome.isAIFailure]
    | otherFailure e =>
      simp only []
      rw [ih]
      simp [ho, ModuleOutcome.isAIFailure]

/-- The stage-2 loop never touches the latest pointer. -/
theorem restructLoop_latest (o : String → ModuleOutcome) (now : Nat) (rid : String)
    (mods : List String) (s : RLoopState) :
    (restructLoop o now rid mods s).1.store.latest = s.store.latest := by
  induction mods generalizing s with
  | nil => rfl
  | cons m rest ih =>
    simp only [restructLoop]
    cases ho : o m with
    | success items =>
      simp only []
      rw [ih]
      simp [storeUpdateModule_latest, saveItems_latest]
    | aiFailure e => simp [storeUpdateModule_latest]
    | otherFailure e =>
      simp only []
      rw [ih]
      simp [storeUpdateModule_latest]

/-- The stage-2 loop never touches other run directories. -/
theorem restructLoop_run_ne (o : String → ModuleOutcome) (now : Nat) (rid : String)
    (mods : List String) (s : RLoopState) (r : String) (h : r ≠ rid) :
    (restructLoop o now rid mods s).1.store.run r = s.store.run r := by
  induction mods generalizing s with
  | nil => rfl
  | cons m rest ih =>
    simp only [restructLoop]
    cases ho : o m with
    | success items =>
      simp only []
      rw [ih]
      simp [storeUpdateModule_run_ne _ _ _ _ _ _ _ _ h, saveItems_run_ne _ _ _ _ _ h]
    | aiFailure e =>
      simp [storeUpdateModule_run_ne _ _ _ _ _ _ _ _ h]
    | otherFailure e =>
      simp only []
      rw [ih]
      simp [storeUpdateModule_run_ne _ _ _ _ _ _ _ _ h]

/-- The stage-2 loop never touches modules outside its list. -/
theorem restructLoop_status_other (o : String → ModuleOutcome) (now : Nat) (rid : String)
    (mods : List String) (s : RLoopState) (m' : String) (h : m' ∉ mods) :
    runModuleStatus (restructLoop o now rid mods s).1.store rid m' =
      runModuleStatus s.store rid m' := by
  induction mods generalizing s with
  | nil => rfl
  | cons m rest ih =>
    have hm : m' ≠ m := fun he => h (he ▸ List.mem_cons_self m rest)
    have hrest : m' ∉ rest := fun he => h (List.mem_cons_of_mem m he)
    simp only [restructLoop]
    cases ho : o m with
    | success items =>
      simp only []
      rw [ih _ hrest]
      rw [storeUpdateModule_status_ne _ _ _ _ _ _ _ _ hm]
      unfold runModuleStatus
      rw [saveItems_tracking]
      rw [show ((storeUpdateModule s.store rid m Status.inProgress 0 none now).run rid).tracking.bind
            (fun t => t.moduleStatus m') =
          runModuleStatus (storeUpdateModule s.store rid m Status.inProgress 0 none now) rid m'
          from rfl]
      rw [storeUpdateModule_status_ne _ _ _ _ _ _ _ _ hm]
      rfl
    | aiFailure e =>
      simp only []
      rw [storeUpdateModule_status_ne _ _ _ _ _ _ _ _ hm,
          storeUpdateModule_status_ne _ _ _ _ _ _ _ _ hm]
    | otherFailure e =>
      simp only []
      rw [ih _ hrest]
      rw [storeUpdateModule_status_ne _ _ _ _ _ _ _ _ hm,
          storeUpdateModule_status_ne _ _ _ _ _ _ _ _ hm]

/-- Under no gateway error, the stage-2 loop starts exactly the
modules of its list, in order. -/
theorem restructLoop_started (o : String → ModuleOutcome) (now : Nat) (rid : String)
    (mods : List String) (s : RLoopState)
    (h : ∀ m ∈ mods, (o m).isAIFailure = false) :
    startedModules (restructLoop o now rid mods s).1.trace =
      startedModules s.trace ++ mods := by
  induction mods generalizing s with
  | nil => simp [restructLoop]
  | cons m rest ih =>
    have hm := h m (List.mem_cons_self m rest)
    have hrest : ∀ x ∈ rest, (o x).isAIFailure = false :=
      fun x hx => h x (List.mem_cons_of_mem m hx)
    simp only [restructLoop]
    cases ho : o m with
    | success items =>
      simp only []
      rw [ih _ hrest]
      simp [startedModules_append, startedModules_saveItems, startedModules_inProgress,
        startedModules_gateway, startedModules_completedEv, startedModules_nil]
    | aiFailure e => rw [ho] at hm; simp [ModuleOutcome.isAIFailure] at hm
    | otherFailure e =>
      simp only []
      rw [ih _ hrest]
      simp [startedModules_append, startedModules_inProgress, startedModules_gateway,
        startedModules_failedEv, startedModules_nil]

/-- Under no gateway error, the stage-2 loop records exactly the
successful modules (and their counts) in order. -/
theorem restructLoop_processed (o : String → ModuleOutcome) (now : Nat) (rid : String)
    (mods : List String) (s : RLoopState)
    (h : ∀ m ∈ mods, (o m).isAIFailure = false) :
    (restructLoop o now rid mods s).1.processed =
      s.processed ++ mods.filter (fun m => (o m).isSuccess)
  ∧ (restructLoop o now rid mods s).1.counts.map (fun p => p.1) =
      s.counts.map (fun p => p.1) ++ mods.filter (fun m => (o m).isSuccess) := by
  induction mods generalizing s with
  | nil => simp [restructLoop]
  | cons m rest ih =>
    have hm := h m (List.mem_cons_self m rest)
    have hrest : ∀ x ∈ rest, (o x).isAIFailure = false :=
      fun x hx => h x (List.mem_cons_of_mem m hx)
    simp only [restructLoop]
    cases ho : o m with
    | success items =>
      simp only []
      constructor
      · rw [(ih _ hrest).1]
        simp [ho, ModuleOutcome.isSuccess]
      · rw [(ih _ hrest).2]
        simp [ho, ModuleOutcome.isSuccess]
    | aiFailure e => rw [ho] at hm; simp [ModuleOutcome.isAIFailure] at hm
    | otherFailure e =>
      simp only []
      constructor
      · rw [(ih _ hrest).1]
        simp [ho, ModuleOutcome.isSuccess]
      · rw [(ih _ hrest).2]
        simp [ho, ModuleOutcome.isSuccess]

/-! ### Stage-3 loop lemmas -/

/-- The stage-3 loop finishes without re-raising exactly when no
module's outcome is an unrepaired gateway error. -/
theorem genLoop_none_iff (getItems : String → List Json)
    (attempt1 attempt2 : String → ModuleOutcome)
    (checkUsage : Except Unit (Option (List Char))) (aiSession : Option String) (now : Nat)
    (mods : List String) (s : GLoopState) :
    (genLoop getItems attempt1 attempt2 checkUsage aiSession now mods s).2 = none ↔
      ∀ m ∈ mods, genAbortsAt getItems attempt1 attempt2 checkUsage m = false := by
  induction mods generalizing s with
  | nil => simp [genLoop]
  | cons m rest ih =>
    simp only [genLoop]
    by_cases hi : getItems m = []
    · rw [if_pos hi]
      rw [ih]
      simp [genAbortsAt, hi]
    · rw [if_neg hi]
      cases h1 : attempt1 m with
      | success cards =>
        simp only []
        rw [ih]
        simp [genAbortsAt, hi, h1]
      | aiFailure e =>
        simp only []
        by_cases hr : isRateLimitError (pyLower e)
        · rw [if_pos hr]
          by_cases hw : 0 < handleRateLimit checkUsage
          · rw [if_pos hw]
            cases h2 : attempt2 m with
            | success cards =>
              simp only []
              rw [ih]
              simp [genAbortsAt, hi, h1, h2, hr, hw, ModuleOutcome.isSuccess]
            | aiFailure e2 =>
              simp [genAbortsAt, hi, h1, h2, hr, hw, ModuleOutcome.isSuccess]
            | otherFailure e2 =>
              simp [genAbortsAt, hi, h1, h2, hr, hw, ModuleOutcome.isSuccess]
          · rw [if_neg hw]
            simp [genAbortsAt, hi, h1, hr, hw]
        · rw [if_neg hr]
          simp [genAbortsAt, hi, h1, hr]
      | otherFailure e =>
        simp only []
        rw [ih]
        simp [genAbortsAt, hi, h1]

/-- Under no unrepaired gateway error, the stage-3 loop starts
exactly the modules of its list, in order. -/
theorem genLoop_started (getItems : String → List Json)
    (attempt1 attempt2 : String → ModuleOutcome)
    (checkUsage : Except Unit (Option (List Char))) (aiSession : Option String) (now : Nat)
    (mods : List String) (s : GLoopState)
    (h : ∀ m ∈ mods, genAbortsAt getItems attempt1 attempt2 checkUsage m = false) :
    startedModules (genLoop getItems attempt1 attempt2 checkUsage aiSession now mods s).1.trace =
      startedModules s.trace ++ mods := by
  induction mods generalizing s with
  | nil => simp [genLoop, startedModules_nil]
  | cons m rest ih =>
    have hm := h m (List.mem_cons_self m rest)
    have hrest : ∀ x ∈ rest, genAbortsAt getItems attempt1 attempt2 checkUsage x = false :=
      fun x hx => h x (List.mem_cons_of_mem m hx)
    simp only [genLoop]
    by_cases hi : getItems m = []
    · rw [if_pos hi]
      rw [ih _ hrest]
      simp [startedModules_append, startedModules_inProgress, startedModules_completedEv,
        startedModules_nil]
    · rw [if_neg hi]
      cases h1 : attempt1 m with
      | success cards =>
        simp only []
        rw [ih _ hrest]
        simp [startedModules_append, startedModules_saveCards, startedModules_inProgress,
          startedModules_gateway, startedModules_completedEv, startedModules_nil]
      | aiFailure e =>
        have : isRateLimitError (pyLower e) = true ∧ 0 < handleRateLimit checkUsage ∧
            (attempt2 m).isSuccess = true := by
          rw [genAbortsAt, h1] at hm
          simp [hi] at hm
          tauto
        obtain ⟨hr, hw, h2s⟩ := this
        simp only []
        rw [if_pos hr, if_pos hw]
        cases h2 : attempt2 m with
        | success cards =>
          simp only []
          rw [ih _ hrest]
          simp [startedModules_append, startedModules_saveCards, startedModules_inProgress,
            startedModules_gateway, startedModules_completedEv, startedModules_sleep,
            startedModules_nil]
        | aiFailure e2 => rw [h2] at h2s; simp [ModuleOutcome.isSuccess] at h2s
        | otherFailure e2 => rw [h2] at h2s; simp [ModuleOutcome.isSuccess] at h2s
      | otherFailure e =>
        simp only []
        rw [ih _ hrest]
        simp [startedModules_append, startedModules_inProgress, startedModules_gateway,
          startedModules_failedEv, startedModules_nil]

/-- Under no unrepaired gateway error, the stage-3 loop records
exactly the modules that produced cards (non-empty input, successful
generation, possibly through the retry), in order. -/
theorem genLoop_processed (getItems : String → List Json)
    (attempt1 attempt2 : String → ModuleOutcome)
    (checkUsage : Except Unit (Option (List Char))) (aiSession : Option String) (now : Nat)
    (mods : List String) (s : GLoopState)
    (h : ∀ m ∈ mods, genAbortsAt getItems attempt1 attempt2 checkUsage m = false) :
    (genLoop getItems attempt1 attempt2 checkUsage aiSession now mods s).1.processed =
      s.processed ++ mods.filter (fun m => genSucceeds getItems attempt1 attempt2 checkUsage m)
  ∧ (genLoop getItems attempt1 attempt2 checkUsage aiSession now mods s).1.counts.map
        (fun p => p.1) =
      s.counts.map (fun p => p.1) ++
        mods.filter (fun m => genSucceeds getItems attempt1 attempt2 checkUsage m) := by
  induction mods generalizing s with
  | nil => simp [genLoop]
  | cons m rest ih =>
    have hm := h m (List.mem_cons_self m rest)
    have hrest : ∀ x ∈ rest, genAbortsAt getItems attempt1 attempt2 checkUsage x = false :=
      fun x hx => h x (List.mem_cons_of_mem m hx)
    simp only [genLoop]
    by_cases hi : getItems m = []
    · rw [if_pos hi]
      refine ⟨?_, ?_⟩
      · rw [(ih _ hrest).1]
        simp [genSucceeds, hi]
      · rw [(ih _ hrest).2]
        simp [genSucceeds, hi]
    · rw [if_neg hi]
      cases h1 : attempt1 m with
      | success cards =>
        simp only []
        refine ⟨?_, ?_⟩
        · rw [(ih _ hrest).1]
          simp [genSucceeds, hi, h1]
        · rw [(ih _ hrest).2]
          simp [genSucceeds, hi, h1]
      | aiFailure e =>
        have habort : isRateLimitError (pyLower e) = true ∧ 0 < handleRateLimit checkUsage ∧
            (attempt2 m).isSuccess = true := by
          rw [genAbortsAt, h1] at hm
          simp [hi] at hm
          tauto
        obtain ⟨hr, hw, h2s⟩ := habort
        simp only []
        rw [if_pos hr, if_pos hw]
        cases h2 : attempt2 m with
        | success cards =>
          simp only []
          refine ⟨?_, ?_⟩
          · rw [(ih _ hrest).1]
            simp [genSucceeds, hi, h1, hr, hw, h2, ModuleOutcome.isSuccess]
          · rw [(ih _ hrest).2]
            simp [genSucceeds, hi, h1, hr, hw, h2, ModuleOutcome.isSuccess]
        | aiFailure e2 => rw [h2] at h2s; simp [ModuleOutcome.isSuccess] at h2s
        | otherFailure e2 => rw [h2] at h2s; simp [ModuleOutcome.isSuccess] at h2s
      | otherFailure e =>
        simp only []
        refine ⟨?_, ?_⟩
        · rw [(ih _ hrest).1]
          simp [genSucceeds, hi, h1]
        · rw [(ih _ hrest).2]
          simp [genSucceeds, hi, h1]

/-- The stage-3 loop never touches modules outside its list. -/
theorem genLoop_status_other (getItems : String → List Json)
    (attempt1 attempt2 : String → ModuleOutcome)
    (checkUsage : Except Unit (Option (List Char))) (aiSession : Option String) (now : Nat)
    (mods : List String) (s : GLoopState) (m' : String) (h : m' ∉ mods) :
    (genLoop getItems attempt1 attempt2 checkUsage aiSession now mods s).1.store.modStatus m' =
      s.store.modStatus m' := by
  induction mods generalizing s with
  | nil => rfl
  | cons m rest ih =>
    have hm : m' ≠ m := fun he => h (he ▸ List.mem_cons_self m rest)
    have hrest : m' ∉ rest := fun he => h (List.mem_cons_of_mem m he)
    simp only [genLoop]
    by_cases hi : getItems m = []
    · rw [if_pos hi]
      rw [ih _ hrest]
      rw [genUpdateModule_status_ne _ _ _ _ _ _ _ hm,
          genUpdateModule_status_ne _ _ _ _ _ _ _ hm]
    · rw [if_neg hi]
      cases h1 : attempt1 m with
      | success cards =>
        simp only []
        rw [ih _ hrest]
        rw [applySessionSave_status, genUpdateModule_status_ne _ _ _ _ _ _ _ hm,
            saveCards_modStatus, genUpdateModule_status_ne _ _ _ _ _ _ _ hm]
      | aiFailure e =>
        simp only []
        by_cases hr : isRateLimitError (pyLower e)
        · rw [if_pos hr]
          by_cases hw : 0 < handleRateLimit checkUsage
          · rw [if_pos hw]
            cases h2 : attempt2 m with
            | success cards =>
              simp only []
              rw [ih _ hrest]
              rw [genUpdateModule_status_ne _ _ _ _ _ _ _ hm,
                  saveCards_modStatus, genUpdateModule_status_ne _ _ _ _ _ _ _ hm]
            | aiFailure e2 =>
              simp only []
              rw [genUpdateModule_status_ne _ _ _ _ _ _ _ hm,
                  genUpdateModule_status_ne _ _ _ _ _ _ _ hm]
            | otherFailure e2 =>
              simp only []
              rw [genUpdateModule_status_ne _ _ _ _ _ _ _ hm]
          · rw [if_neg hw]
            simp only []
            rw [genUpdateModule_status_ne _ _ _ _ _ _ _ hm,
                genUpdateModule_status_ne _ _ _ _ _ _ _ hm]
        · rw [if_neg hr]
          simp only []
          rw [genUpdateModule_status_ne _ _ _ _ _ _ _ hm,
              genUpdateModule_status_ne _ _ _ _ _ _ _ hm]
      | otherFailure e =>
        simp only []
        rw [ih _ hrest]
        rw [genUpdateModule_status_ne _ _ _ _ _ _ _ hm,
            genUpdateModule_status_ne _ _ _ _ _ _ _ hm]

/-- **C1** — Idempotent resume for the restructure and generate
stages.  With an existing tracking ledger and `force=False`, the
modules this invocation sets out to process (those receiving an
`in_progress` transition, provided the invocation returns rather
than re-raising a gateway error) are exactly the requested module
set minus the ledger's `completed` modules, in order; and when that
remaining set is empty, the invocation returns the already-persisted
stage metadata with the store untouched and an empty effect trace
(no gateway call, no artifact write, no ledger transition). -/
theorem c1_idempotent_resume :
    (∀ (analyses : String → Option AnalysisRec) (docs : String → Option DocRec)
       (oracle : String → ModuleOutcome) (newId : String) (now : Nat) (st : DocStore)
       (aid : String) (A : AnalysisRec) (doc : DocRec) (t : Tracking),
       analyses aid = some A →
       docs A.documentId = some doc →
       pyStrip aid.data ≠ [] →
       A.detectedModules ≠ [] →
       A.detectedModules.filter (fun m => m ∈ allModules) ≠ [] →
       getTracking st none = some t →
       ((∃ md, (restructureDocument analyses docs oracle newId now st aid false).result =
            .ok md) →
          startedModules (restructureDocument analyses docs oracle newId now st aid
              false).trace =
            (A.detectedModules.filter (fun m => m ∈ allModules)).filter
              (fun m => m ∉ completedModulesOf t))
       ∧ ((A.detectedModules.filter (fun m => m ∈ allModules)).filter
              (fun m => m ∉ completedModulesOf t) = [] →
          (restructureDocument analyses docs oracle newId now st aid false).result =
              .ok (getRMeta st none)
          ∧ (restructureDocument analyses docs oracle newId now st aid false).store = st
          ∧ (restructureDocument analyses docs oracle newId now st aid false).trace = []))
  ∧ (∀ (restructs : String → Option RestructRec) (getItems : String → List Json)
       (attempt1 attempt2 : String → ModuleOutcome)
       (checkUsage : Except Unit (Option (List Char))) (aiSession : Option String)
       (newId : String) (now : Nat) (st : GenStore) (rid : String) (ct : String)
       (modules : Option (List String)) (R : RestructRec) (t : Tracking),
       restructs rid = some R →
       pyStrip rid.data ≠ [] →
       (ct = r"basic" ∨ ct = r"cloze") →
       st.tracking = some t →
       (match modules with
          | some ms =>
            if ms ≠ [] then ms.filter (fun m => m ∈ R.modulesProcessed)
            else R.modulesProcessed.filter (fun m => m ∉ excludedModulesDefault)
          | none => R.modulesProcessed.filter (fun m => m ∉ excludedModulesDefault)) ≠ [] →
       ((∃ md, (generateCards restructs getItems attempt1 attempt2 checkUsage aiSession
             newId now st rid ct modules false).result = .ok md) →
          startedModules (generateCards restructs getItems attempt1 attempt2 checkUsage
              aiSession newId now st rid ct modules false).trace =
            (match modules with
              | some ms =>
                if ms ≠ [] then ms.filter (fun m => m ∈ R.modulesProcessed)
                else R.modulesProcessed.filter (fun m => m ∉ excludedModulesDefault)
              | none => R.modulesProcessed.filter
                  (fun m => m ∉ excludedModulesDefault)).filter
              (fun m => m ∉ completedModulesOf t))
       ∧ ((match modules with
            | some ms =>
              if ms ≠ [] then ms.filter (fun m => m ∈ R.modulesProcessed)
              else R.modulesProcessed.filter (fun m => m ∉ excludedModulesDefault)
            | none => R.modulesProcessed.filter
                (fun m => m ∉ excludedModulesDefault)).filter
              (fun m => m ∉ completedModulesOf t) = [] →
          (generateCards restructs getItems attempt1 attempt2 checkUsage aiSession
              newId now st rid ct modules false).result = .ok st.meta
          ∧ (generateCards restructs getItems attempt1 attempt2 checkUsage aiSession
              newId now st rid ct modules false).store = st
          ∧ (generateCards restructs getItems attempt1 attempt2 checkUsage aiSession
              newId now st rid ct modules false).trace = [])) := by
  constructor
  · intro analyses docs oracle newId now st aid A doc t hA hdoc hval hdet hsel ht
    have hbody : restructureDocument analyses docs oracle newId now st aid false =
        (if (List.filter (fun m => m ∉ List.map (fun p => p.1)
            (List.filter (fun p => p.2.status = Status.completed) t.modules))
          (List.filter (fun m => m ∈ allModules) A.detectedModules)) = [] then
          { result := Except.ok (getRMeta st none), store := st, trace := [] }
         else
          match st.latest with
          | none => { result := Except.error Err.valueError, store := st, trace := [] }
          | some rid0 =>
            match (restructLoop oracle now rid0 (List.filter (fun m => m ∉ List.map (fun p => p.1)
            (List.filter (fun p => p.2.status = Status.completed) t.modules))
          (List.filter (fun m => m ∈ allModules) A.detectedModules))
            { store := st, processed := [], counts := [], trace := [] }).2 with
            | some e =>
              { result := Except.error (Err.aiError e),
                store := (restructLoop oracle now rid0 (List.filter (fun m => m ∉ List.map (fun p => p.1)
            (List.filter (fun p => p.2.status = Status.completed) t.modules))
          (List.filter (fun m => m ∈ allModules) A.detectedModules))
            { store := st, processed := [], counts := [], trace := [] }).1.store,
                trace := (restructLoop oracle now rid0 (List.filter (fun m => m ∉ List.map (fun p => p.1)
            (List.filter (fun p => p.2.status = Status.completed) t.modules))
          (List.filter (fun m => m ∈ allModules) A.detectedModules))
            { store := st, processed := [], counts := [], trace := [] }).1.trace }
            | none =>
              match saveRMeta (restructLoop oracle now rid0 (List.filter (fun m => m ∉ List.map (fun p => p.1)
            (List.filter (fun p => p.2.status = Status.completed) t.modules))
          (List.filter (fun m => m ∈ allModules) A.detectedModules))
            { store := st, processed := [], counts := [], trace := [] }).1.store
                { id := newId, documentId := A.documentId, documentName := doc.name,
                  modulesProcessed := (restructLoop oracle now rid0 (List.filter (fun m => m ∉ List.map (fun p => p.1)
            (List.filter (fun p => p.2.status = Status.completed) t.modules))
          (List.filter (fun m => m ∈ allModules) A.detectedModules))
            { store := st, processed := [], counts := [], trace := [] }).1.processed,
                  itemsCount := (restructLoop oracle now rid0 (List.filter (fun m => m ∉ List.map (fun p => p.1)
            (List.filter (fun p => p.2.status = Status.completed) t.modules))
          (List.filter (fun m => m ∈ allModules) A.detectedModules))
            { store := st, processed := [], counts := [], trace := [] }).1.counts,
                  restructuredAt := now, analysisId := r"", outputPath := r"" } with
              | .ok (st2, saved) =>
                { result := Except.ok (some saved), store := st2,
                  trace := (restructLoop oracle now rid0 (List.filter (fun m => m ∉ List.map (fun p => p.1)
            (List.filter (fun p => p.2.status = Status.completed) t.modules))
          (List.filter (fun m => m ∈ allModules) A.detectedModules))
            { store := st, processed := [], counts := [], trace := [] }).1.trace ++ [Event.metadataWrite] }
              | .error e =>
                { result := Except.error e,
                  store := (restructLoop oracle now rid0 (List.filter (fun m => m ∉ List.map (fun p => p.1)
            (List.filter (fun p => p.2.status = Status.completed) t.modules))
          (List.filter (fun m => m ∈ allModules) A.detectedModules))
            { store := st, processed := [], counts := [], trace := [] }).1.store,
                  trace := (restructLoop oracle now rid0 (List.filter (fun m => m ∉ List.map (fun p => p.1)
            (List.filter (fun p => p.2.status = Status.completed) t.modules))
          (List.filter (fun m => m ∈ allModules) A.detectedModules))
            { store := st, processed := [], counts := [], trace := [] }).1.trace }) := by
      rw [restructureDocument]
      rw [if_neg hval]
      rw [hA]
      simp only []
      rw [if_neg hdet, if_neg hsel, hdoc]
      simp only [ht]
      by_cases htodo : (List.filter (fun m => m ∉ List.map (fun p => p.1)
            (List.filter (fun p => p.2.status = Status.completed) t.modules))
          (List.filter (fun m => m ∈ allModules) A.detectedModules)) = []
      · rw [if_pos htodo, if_pos htodo]
      · rw [if_neg htodo, if_neg htodo]
    constructor
    · intro hok
      obtain ⟨md, hok⟩ := hok
      simp only [completedModulesOf]
      rw [hbody] at hok ⊢
      by_cases htodo : (List.filter (fun m => m ∉ List.map (fun p => p.1)
            (List.filter (fun p => p.2.status = Status.completed) t.modules))
          (List.filter (fun m => m ∈ allModules) A.detectedModules)) = []
      · rw [if_pos htodo] at hok ⊢
        rw [htodo, startedModules_nil]
      · rw [if_neg htodo] at hok ⊢
        revert hok
        cases hl : st.latest with
        | none => intro hok; cases hok
        | some rid0 =>
          simp only []
          cases habort : (restructLoop oracle now rid0 (List.filter (fun m => m ∉ List.map (fun p => p.1)
            (List.filter (fun p => p.2.status = Status.completed) t.modules))
          (List.filter (fun m => m ∈ allModules) A.detectedModules))
              { store := st, processed := [], counts := [], trace := [] }).2 with
          | some e => intro hok; cases hok
          | none =>
            intro hok
            have hnoai := (restructLoop_none_iff oracle now rid0 (List.filter (fun m => m ∉ List.map (fun p => p.1)
            (List.filter (fun p => p.2.status = Status.completed) t.modules))
          (List.filter (fun m => m ∈ allModules) A.detectedModules))
              { store := st, processed := [], counts := [], trace := [] }).mp habort
            have hlat : (restructLoop oracle now rid0 (List.filter (fun m => m ∉ List.map (fun p => p.1)
            (List.filter (fun p => p.2.status = Status.completed) t.modules))
          (List.filter (fun m => m ∈ allModules) A.detectedModules))
                { store := st, processed := [], counts := [], trace := [] }).1.store.latest =
                some rid0 := by
              rw [restructLoop_latest]; exact hl
            simp only [saveRMeta, hlat]
            rw [startedModules_append, startedModules_metadata, startedModules_nil,
              List.append_nil]
            rw [restructLoop_started oracle now rid0 _ _ hnoai]
            rw [startedModules_nil, List.nil_append]
    · intro htodo
      simp only [completedModulesOf] at htodo
      rw [hbody, if_pos htodo]
      exact ⟨rfl, rfl, rfl⟩
  · intro restructs getItems attempt1 attempt2 checkUsage aiSession newId now st rid ct
      modules R t hR hval hct ht hselne
    have hctne : ¬ (ct ≠ r"basic" ∧ ct ≠ r"cloze") := by
      rcases hct with h | h <;> simp [h]
    rcases modules with _ | ms
    · simp only [] at hselne ⊢
      have gbody : generateCards restructs getItems attempt1 attempt2 checkUsage aiSession newId now st rid ct none false =
          (if (List.filter (fun m => m ∉ List.map (fun p => p.1) (List.filter (fun p => p.2.status = Status.completed) t.modules)) (List.filter (fun m => m ∉ excludedModulesDefault) R.modulesProcessed)) = [] then { result := Except.ok st.meta, store := st, trace := [] }
           else
            match (genLoop getItems attempt1 attempt2 checkUsage aiSession now (List.filter (fun m => m ∉ List.map (fun p => p.1) (List.filter (fun p => p.2.status = Status.completed) t.modules)) (List.filter (fun m => m ∉ excludedModulesDefault) R.modulesProcessed)) { store := st, sessionSaved := t.sessionId, processed := [], counts := [], total := 0, trace := [] }).2 with
            | some e => { result := Except.error e, store := (genLoop getItems attempt1 attempt2 checkUsage aiSession now (List.filter (fun m => m ∉ List.map (fun p => p.1) (List.filter (fun p => p.2.status = Status.completed) t.modules)) (List.filter (fun m => m ∉ excludedModulesDefault) R.modulesProcessed)) { store := st, sessionSaved := t.sessionId, processed := [], counts := [], total := 0, trace := [] }).1.store, trace := (genLoop getItems attempt1 attempt2 checkUsage aiSession now (List.filter (fun m => m ∉ List.map (fun p => p.1) (List.filter (fun p => p.2.status = Status.completed) t.modules)) (List.filter (fun m => m ∉ excludedModulesDefault) R.modulesProcessed)) { store := st, sessionSaved := t.sessionId, processed := [], counts := [], total := 0, trace := [] }).1.trace }
            | none => { result := Except.ok (some { id := newId, restructurationId := rid, documentId := R.documentId, documentName := R.documentName, cardType := ct, modulesProcessed := (genLoop getItems attempt1 attempt2 checkUsage aiSession now (List.filter (fun m => m ∉ List.map (fun p => p.1) (List.filter (fun p => p.2.status = Status.completed) t.modules)) (List.filter (fun m => m ∉ excludedModulesDefault) R.modulesProcessed)) { store := st, sessionSaved := t.sessionId, processed := [], counts := [], total := 0, trace := [] }).1.processed, cardsCount := (genLoop getItems attempt1 attempt2 checkUsage aiSession now (List.filter (fun m => m ∉ List.map (fun p => p.1) (List.filter (fun p => p.2.status = Status.completed) t.modules)) (List.filter (fun m => m ∉ excludedModulesDefault) R.modulesProcessed)) { store := st, sessionSaved := t.sessionId, processed := [], counts := [], total := 0, trace := [] }).1.counts, totalCards := (genLoop getItems attempt1 attempt2 checkUsage aiSession now (List.filter (fun m => m ∉ List.map (fun p => p.1) (List.filter (fun p => p.2.status = Status.completed) t.modules)) (List.filter (fun m => m ∉ excludedModulesDefault) R.modulesProcessed)) { store := st, sessionSaved := t.sessionId, processed := [], counts := [], total := 0, trace := [] }).1.total, generatedAt := now }), store := { (genLoop getItems attempt1 attempt2 checkUsage aiSession now (List.filter (fun m => m ∉ List.map (fun p => p.1) (List.filter (fun p => p.2.status = Status.completed) t.modules)) (List.filter (fun m => m ∉ excludedModulesDefault) R.modulesProcessed)) { store := st, sessionSaved := t.sessionId, processed := [], counts := [], total := 0, trace := [] }).1.store with meta := some { id := newId, restructurationId := rid, documentId := R.documentId, documentName := R.documentName, cardType := ct, modulesProcessed := (genLoop getItems attempt1 attempt2 checkUsage aiSession now (List.filter (fun m => m ∉ List.map (fun p => p.1) (List.filter (fun p => p.2.status = Status.completed) t.modules)) (List.filter (fun m => m ∉ excludedModulesDefault) R.modulesProcessed)) { store := st, sessionSaved := t.sessionId, processed := [], counts := [], total := 0, trace := [] }).1.processed, cardsCount := (genLoop getItems attempt1 attempt2 checkUsage aiSession now (List.filter (fun m => m ∉ List.map (fun p => p.1) (List.filter (fun p => p.2.status = Status.completed) t.modules)) (List.filter (fun m => m ∉ excludedModulesDefault) R.modulesProcessed)) { store := st, sessionSaved := t.sessionId, processed := [], counts := [], total := 0, trace := [] }).1.counts, totalCards := (genLoop getItems attempt1 attempt2 checkUsage aiSession now (List.filter (fun m => m ∉ List.map (fun p => p.1) (List.filter (fun p => p.2.status = Status.completed) t.modules)) (List.filter (fun m => m ∉ excludedModulesDefault) R.modulesProcessed)) { store := st, sessionSaved := t.sessionId, processed := [], counts := [], total := 0, trace := [] }).1.total, generatedAt := now } }, trace := (genLoop getItems attempt1 attempt2 checkUsage aiSession now (List.filter (fun m => m ∉ List.map (fun p => p.1) (List.filter (fun p => p.2.status = Status.completed) t.modules)) (List.filter (fun m => m ∉ excludedModulesDefault) R.modulesProcessed)) { store := st, sessionSaved := t.sessionId, processed := [], counts := [], total := 0, trace := [] }).1.trace ++ [Event.metadataWrite] }) := by
        rw [generateCards]
        rw [if_neg hval, if_neg hctne, hR]
        simp only [ht]
        rw [if_neg (by decide : ¬ ((false : Bool) = true))]
        simp only []
        rw [if_neg hselne]
        by_cases htodo : (List.filter (fun m => m ∉ List.map (fun p => p.1) (List.filter (fun p => p.2.status = Status.completed) t.modules)) (List.filter (fun m => m ∉ excludedModulesDefault) R.modulesProcessed)) = []
        · rw [if_pos htodo, if_pos htodo]
        · rw [if_neg htodo, if_neg htodo]
      constructor
      · intro hok
        obtain ⟨md, hok⟩ := hok
        simp only [completedModulesOf]
        rw [gbody] at hok ⊢
        by_cases htodo : (List.filter (fun m => m ∉ List.map (fun p => p.1) (List.filter (fun p => p.2.status = Status.completed) t.modules)) (List.filter (fun m => m ∉ excludedModulesDefault) R.modulesProcessed)) = []
        · rw [if_pos htodo] at hok ⊢
          rw [htodo, startedModules_nil]
        · rw [if_neg htodo] at hok ⊢
          revert hok
          cases habort : (genLoop getItems attempt1 attempt2 checkUsage aiSession now (List.filter (fun m => m ∉ List.map (fun p => p.1) (List.filter (fun p => p.2.status = Status.completed) t.modules)) (List.filter (fun m => m ∉ excludedModulesDefault) R.modulesProcessed)) { store := st, sessionSaved := t.sessionId, processed := [], counts := [], total := 0, trace := [] }).2 with
          | some e => intro hok; cases hok
          | none =>
            intro hok
            have hnoai := (genLoop_none_iff getItems attempt1 attempt2 checkUsage aiSession now (List.filter (fun m => m ∉ List.map (fun p => p.1) (List.filter (fun p => p.2.status = Status.completed) t.modules)) (List.filter (fun m => m ∉ excludedModulesDefault) R.modulesProcessed)) { store := st, sessionSaved := t.sessionId, processed := [], counts := [], total := 0, trace := [] }).mp habort
            rw [startedModules_append, startedModules_metadata, startedModules_nil, List.append_nil]
            rw [genLoop_started getItems attempt1 attempt2 checkUsage aiSession now _ _ hnoai]
            rw [startedModules_nil, List.nil_append]
      · intro htodo
        simp only [completedModulesOf] at htodo
        rw [gbody, if_pos htodo]
        exact ⟨rfl, rfl, rfl⟩
    · by_cases hms : ms = []
      · subst hms
        simp only [] at hselne ⊢
        rw [if_neg (by simp)] at hselne ⊢
        have gbody : generateCards restructs getItems attempt1 attempt2 checkUsage aiSession newId now st rid ct (some []) false =
            (if (List.filter (fun m => m ∉ List.map (fun p => p.1) (List.filter (fun p => p.2.status = Status.completed) t.modules)) (List.filter (fun m => m ∉ excludedModulesDefault) R.modulesProcessed)) = [] then { result := Except.ok st.meta, store := st, trace := [] }
             else
              match (genLoop getItems attempt1 attempt2 checkUsage aiSession now (List.filter (fun m => m ∉ List.map (fun p => p.1) (List.filter (fun p => p.2.status = Status.completed) t.modules)) (List.filter (fun m => m ∉ excludedModulesDefault) R.modulesProcessed)) { store := st, sessionSaved := t.sessionId, processed := [], counts := [], total := 0, trace := [] }).2 with
              | some e => { result := Except.error e, store := (genLoop getItems attempt1 attempt2 checkUsage aiSession now (List.filter (fun m => m ∉ List.map (fun p => p.1) (List.filter (fun p => p.2.status = Status.completed) t.modules)) (List.filter (fun m => m ∉ excludedModulesDefault) R.modulesProcessed)) { store := st, sessionSaved := t.sessionId, processed := [], counts := [], total := 0, trace := [] }).1.store, trace := (genLoop getItems attempt1 attempt2 checkUsage aiSession now (List.filter (fun m => m ∉ List.map (fun p => p.1) (List.filter (fun p => p.2.status = Status.completed) t.modules)) (List.filter (fun m => m ∉ excludedModulesDefault) R.modulesProcessed)) { store := st, sessionSaved := t.sessionId, processed := [], counts := [], total := 0, trace := [] }).1.trace }
              | none => { result := Except.ok (some { id := newId, restructurationId := rid, documentId := R.documentId, documentName := R.documentName, cardType := ct, modulesProcessed := (genLoop getItems attempt1 attempt2 checkUsage aiSession now (List.filter (fun m => m ∉ List.map (fun p => p.1) (List.filter (fun p => p.2.status = Status.completed) t.modules)) (List.filter (fun m => m ∉ excludedModulesDefault) R.modulesProcessed)) { store := st, sessionSaved := t.sessionId, processed := [], counts := [], total := 0, trace := [] }).1.processed, cardsCount := (genLoop getItems attempt1 attempt2 checkUsage aiSession now (List.filter (fun m => m ∉ List.map (fun p => p.1) (List.filter (fun p => p.2.status = Status.completed) t.modules)) (List.filter (fun m => m ∉ excludedModulesDefault) R.modulesProcessed)) { store := st, sessionSaved := t.sessionId, processed := [], counts := [], total := 0, trace := [] }).1.counts, totalCards := (genLoop getItems attempt1 attempt2 checkUsage aiSession now (List.filter (fun m => m ∉ List.map (fun p => p.1) (List.filter (fun p => p.2.status = Status.completed) t.modules)) (List.filter (fun m => m ∉ excludedModulesDefault) R.modulesProcessed)) { store := st, sessionSaved := t.sessionId, processed := [], counts := [], total := 0, trace := [] }).1.total, generatedAt := now }), store := { (genLoop getItems attempt1 attempt2 checkUsage aiSession now (List.filter (fun m => m ∉ List.map (fun p => p.1) (List.filter (fun p => p.2.status = Status.completed) t.modules)) (List.filter (fun m => m ∉ excludedModulesDefault) R.modulesProcessed)) { store := st, sessionSaved := t.sessionId, processed := [], counts := [], total := 0, trace := [] }).1.store with meta := some { id := newId, restructurationId := rid, documentId := R.documentId, documentName := R.documentName, cardType := ct, modulesProcessed := (genLoop getItems attempt1 attempt2 checkUsage aiSession now (List.filter (fun m => m ∉ List.map (fun p => p.1) (List.filter (fun p => p.2.status = Status.completed) t.modules)) (List.filter (fun m => m ∉ excludedModulesDefault) R.modulesProcessed)) { store := st, sessionSaved := t.sessionId, processed := [], counts := [], total := 0, trace := [] }).1.processed, cardsCount := (genLoop getItems attempt1 attempt2 checkUsage aiSession now (List.filter (fun m => m ∉ List.map (fun p => p.1) (List.filter (fun p => p.2.status = Status.completed) t.modules)) (List.filter (fun m => m ∉ excludedModulesDefault) R.modulesProcessed)) { store := st, sessionSaved := t.sessionId, processed := [], counts := [], total := 0, trace := [] }).1.counts, totalCards := (genLoop getItems attempt1 attempt2 checkUsage aiSession now (List.filter (fun m => m ∉ List.map (fun p => p.1) (List.filter (fun p => p.2.status = Status.completed) t.modules)) (List.filter (fun m => m ∉ excludedModulesDefault) R.modulesProcessed)) { store := st, sessionSaved := t.sessionId, processed := [], counts := [], total := 0, trace := [] }).1.total, generatedAt := now } }, trace := (genLoop getItems attempt1 attempt2 checkUsage aiSession now (List.filter (fun m => m ∉ List.map (fun p => p.1) (List.filter (fun p => p.2.status = Status.completed) t.modules)) (List.filter (fun m => m ∉ excludedModulesDefault) R.modulesProcessed)) { store := st, sessionSaved := t.sessionId, processed := [], counts := [], total := 0, trace := [] }).1.trace ++ [Event.metadataWrite] }) := by
          rw [generateCards]
          rw [if_neg hval, if_neg hctne, hR]
          simp only [ht]
          rw [if_neg (by decide : ¬ ((decide (([] : List String) ≠ [])) = true))]
          simp only []
          rw [if_neg hselne]
          by_cases htodo : (List.filter (fun m => m ∉ List.map (fun p => p.1) (List.filter (fun p => p.2.status = Status.completed) t.modules)) (List.filter (fun m => m ∉ excludedModulesDefault) R.modulesProcessed)) = []
          · rw [if_pos htodo, if_pos htodo]
          · rw [if_neg htodo, if_neg htodo]
        constructor
        · intro hok
          obtain ⟨md, hok⟩ := hok
          simp only [completedModulesOf]
          rw [gbody] at hok ⊢
          by_cases htodo : (List.filter (fun m => m ∉ List.map (fun p => p.1) (List.filter (fun p => p.2.status = Status.completed) t.modules)) (List.filter (fun m => m ∉ excludedModulesDefault) R.modulesProcessed)) = []
          · rw [if_pos htodo] at hok ⊢
            rw [htodo, startedModules_nil]
          · rw [if_neg htodo] at hok ⊢
            revert hok
            cases habort : (genLoop getItems attempt1 attempt2 checkUsage aiSession now (List.filter (fun m => m ∉ List.map (fun p => p.1) (List.filter (fun p => p.2.status = Status.completed) t.modules)) (List.filter (fun m => m ∉ excludedModulesDefault) R.modulesProcessed)) { store := st, sessionSaved := t.sessionId, processed := [], counts := [], total := 0, trace := [] }).2 with
            | some e => intro hok; cases hok
            | none =>
              intro hok
              have hnoai := (genLoop_none_iff getItems attempt1 attempt2 checkUsage aiSession now (List.filter (fun m => m ∉ List.map (fun p => p.1) (List.filter (fun p => p.2.status = Status.completed) t.modules)) (List.filter (fun m => m ∉ excludedModulesDefault) R.modulesProcessed)) { store := st, sessionSaved := t.sessionId, processed := [], counts := [], total := 0, trace := [] }).mp habort
              rw [startedModules_append, startedModules_metadata, startedModules_nil, List.append_nil]
              rw [genLoop_started getItems attempt1 attempt2 checkUsage aiSession now _ _ hnoai]
              rw [startedModules_nil, List.nil_append]
        · intro htodo
          simp only [completedModulesOf] at htodo
          rw [gbody, if_pos htodo]
          exact ⟨rfl, rfl, rfl⟩
      · simp only [] at hselne ⊢
        rw [if_pos hms] at hselne ⊢
        have gbody : generateCards restructs getItems attempt1 attempt2 checkUsage aiSession newId now st rid ct (some ms) false =
            (if (List.filter (fun m => m ∉ List.map (fun p => p.1) (List.filter (fun p => p.2.status = Status.completed) t.modules)) (List.filter (fun m => m ∈ R.modulesProcessed) ms)) = [] then { result := Except.ok st.meta, store := st, trace := [] }
             else
              match (genLoop getItems attempt1 attempt2 checkUsage aiSession now (List.filter (fun m => m ∉ List.map (fun p => p.1) (List.filter (fun p => p.2.status = Status.completed) t.modules)) (List.filter (fun m => m ∈ R.modulesProcessed) ms)) { store := st, sessionSaved := t.sessionId, processed := [], counts := [], total := 0, trace := [] }).2 with
              | some e => { result := Except.error e, store := (genLoop getItems attempt1 attempt2 checkUsage aiSession now (List.filter (fun m => m ∉ List.map (fun p => p.1) (List.filter (fun p => p.2.status = Status.completed) t.modules)) (List.filter (fun m => m ∈ R.modulesProcessed) ms)) { store := st, sessionSaved := t.sessionId, processed := [], counts := [], total := 0, trace := [] }).1.store, trace := (genLoop getItems attempt1 attempt2 checkUsage aiSession now (List.filter (fun m => m ∉ List.map (fun p => p.1) (List.filter (fun p => p.2.status = Status.completed) t.modules)) (List.filter (fun m => m ∈ R.modulesProcessed) ms)) { store := st, sessionSaved := t.sessionId, processed := [], counts := [], total := 0, trace := [] }).1.trace }
              | none => { result := Except.ok (some { id := newId, restructurationId := rid, documentId := R.documentId, documentName := R.documentName, cardType := ct, modulesProcessed := (genLoop getItems attempt1 attempt2 checkUsage aiSession now (List.filter (fun m => m ∉ List.map (fun p => p.1) (List.filter (fun p => p.2.status = Status.completed) t.modules)) (List.filter (fun m => m ∈ R.modulesProcessed) ms)) { store := st, sessionSaved := t.sessionId, processed := [], counts := [], total := 0, trace := [] }).1.processed, cardsCount := (genLoop getItems attempt1 attempt2 checkUsage aiSession now (List.filter (fun m => m ∉ List.map (fun p => p.1) (List.filter (fun p => p.2.status = Status.completed) t.modules)) (List.filter (fun m => m ∈ R.modulesProcessed) ms)) { store := st, sessionSaved := t.sessionId, processed := [], counts := [], total := 0, trace := [] }).1.counts, totalCards := (genLoop getItems attempt1 attempt2 checkUsage aiSession now (List.filter (fun m => m ∉ List.map (fun p => p.1) (List.filter (fun p => p.2.status = Status.completed) t.modules)) (List.filter (fun m => m ∈ R.modulesProcessed) ms)) { store := st, sessionSaved := t.sessionId, processed := [], counts := [], total := 0, trace := [] }).1.total, generatedAt := now }), store := { (genLoop getItems attempt1 attempt2 checkUsage aiSession now (List.filter (fun m => m ∉ List.map (fun p => p.1) (List.filter (fun p => p.2.status = Status.completed) t.modules)) (List.filter (fun m => m ∈ R.modulesProcessed) ms)) { store := st, sessionSaved := t.sessionId, processed := [], counts := [], total := 0, trace := [] }).1.store with meta := some { id := newId, restructurationId := rid, documentId := R.documentId, documentName := R.documentName, cardType := ct, modulesProcessed := (genLoop getItems attempt1 attempt2 checkUsage aiSession now (List.filter (fun m => m ∉ List.map (fun p => p.1) (List.filter (fun p => p.2.status = Status.completed) t.modules)) (List.filter (fun m => m ∈ R.modulesProcessed) ms)) { store := st, sessionSaved := t.sessionId, processed := [], counts := [], total := 0, trace := [] }).1.processed, cardsCount := (genLoop getItems attempt1 attempt2 checkUsage aiSession now (List.filter (fun m => m ∉ List.map (fun p => p.1) (List.filter (fun p => p.2.status = Status.completed) t.modules)) (List.filter (fun m => m ∈ R.modulesProcessed) ms)) { store := st, sessionSaved := t.sessionId, processed := [], counts := [], total := 0, trace := [] }).1.counts, totalCards := (genLoop getItems attempt1 attempt2 checkUsage aiSession now (List.filter (fun m => m ∉ List.map (fun p => p.1) (List.filter (fun p => p.2.status = Status.completed) t.modules)) (List.filter (fun m => m ∈ R.modulesProcessed) ms)) { store := st, sessionSaved := t.sessionId, processed := [], counts := [], total := 0, trace := [] }).1.total, generatedAt := now } }, trace := (genLoop getItems attempt1 attempt2 checkUsage aiSession now (List.filter (fun m => m ∉ List.map (fun p => p.1) (List.filter (fun p => p.2.status = Status.completed) t.modules)) (List.filter (fun m => m ∈ R.modulesProcessed) ms)) { store := st, sessionSaved := t.sessionId, processed := [], counts := [], total := 0, trace := [] }).1.trace ++ [Event.metadataWrite] }) := by
          rw [generateCards]
          rw [if_neg hval, if_neg hctne, hR]
          simp only [ht]
          rw [if_pos (show (decide (ms ≠ [])) = true from decide_eq_true hms)]
          simp only [Option.getD]
          rw [if_neg hselne]
          simp only []
          rw [if_neg hselne]
          by_cases htodo : (List.filter (fun m => m ∉ List.map (fun p => p.1) (List.filter (fun p => p.2.status = Status.completed) t.modules)) (List.filter (fun m => m ∈ R.modulesProcessed) ms)) = []
          · rw [if_pos htodo, if_pos htodo]
          · rw [if_neg htodo, if_neg htodo]
        constructor
        · intro hok
          obtain ⟨md, hok⟩ := hok
          simp only [completedModulesOf]
          rw [gbody] at hok ⊢
          by_cases htodo : (List.filter (fun m => m ∉ List.map (fun p => p.1) (List.filter (fun p => p.2.status = Status.completed) t.modules)) (List.filter (fun m => m ∈ R.modulesProcessed) ms)) = []
          · rw [if_pos htodo] at hok ⊢
            rw [htodo, startedModules_nil]
          · rw [if_neg htodo] at hok ⊢
            revert hok
            cases habort : (genLoop getItems attempt1 attempt2 checkUsage aiSession now (List.filter (fun m => m ∉ List.map (fun p => p.1) (List.filter (fun p => p.2.status = Status.completed) t.modules)) (List.filter (fun m => m ∈ R.modulesProcessed) ms)) { store := st, sessionSaved := t.sessionId, processed := [], counts := [], total := 0, trace := [] }).2 with
            | some e => intro hok; cases hok
            | none =>
              intro hok
              have hnoai := (genLoop_none_iff getItems attempt1 attempt2 checkUsage aiSession now (List.filter (fun m => m ∉ List.map (fun p => p.1) (List.filter (fun p => p.2.status = Status.completed) t.modules)) (List.filter (fun m => m ∈ R.modulesProcessed) ms)) { store := st, sessionSaved := t.sessionId, processed := [], counts := [], total := 0, trace := [] }).mp habort
              rw [startedModules_append, startedModules_metadata, startedModules_nil, List.append_nil]
              rw [genLoop_started getItems attempt1 attempt2 checkUsage aiSession now _ _ hnoai]
              rw [startedModules_nil, List.nil_append]
        · intro htodo
          simp only [completedModulesOf] at htodo
          rw [gbody, if_pos htodo]
          exact ⟨rfl, rfl, rfl⟩


/-- Witness for `c1_idempotent_resume`: on the spec's resume ledger
(`themes` completed, `vocabulary` failed, `tables` pending) the
restructure stage starts exactly `vocabulary` and `tables`; on an
all-completed ledger the generate stage returns the persisted
metadata, leaves the store untouched and emits no event. -/
theorem c1_idempotent_resume_witness :
    startedModules (restructureDocument threeModuleAnalyses oneDocRepo alwaysOneItem
        r"new" 2 resumeStore r"A" false).trace = [r"vocabulary", r"tables"]
  ∧ (generateCards threeModuleRestructs oneItemPerModule alwaysOneCard alwaysOneCard
        (Except.ok none) none r"newg" 2 genAllDoneStore r"B" r"basic" none false).result =
      Except.ok genAllDoneStore.meta
  ∧ (generateCards threeModuleRestructs oneItemPerModule alwaysOneCard alwaysOneCard
        (Except.ok none) none r"newg" 2 genAllDoneStore r"B" r"basic" none false).store =
      genAllDoneStore
  ∧ (generateCards threeModuleRestructs oneItemPerModule alwaysOneCard alwaysOneCard
        (Except.ok none) none r"newg" 2 genAllDoneStore r"B" r"basic" none false).trace = [] := by
  have h1 := (c1_idempotent_resume.1 threeModuleAnalyses oneDocRepo alwaysOneItem
      r"new" 2 resumeStore r"A" _ _ resumeLedger rfl rfl (by decide) (by decide)
      (by decide) rfl).1 ⟨_, rfl⟩
  have h2 := (c1_idempotent_resume.2 threeModuleRestructs oneItemPerModule alwaysOneCard
      alwaysOneCard (Except.ok none) none r"newg" 2 genAllDoneStore r"B" r"basic" none _
      allDoneLedger rfl (by decide) (Or.inl rfl) rfl (by decide)).2 (by decide)
  exact ⟨h1.trans (by decide), h2.1, h2.2.1, h2.2.2⟩


/-- `save_tracking` resolves the latest pointer: a non-latest run
directory and the pointer itself are preserved. -/
theorem saveTracking_preserve (st : DocStore) (t : Tracking) (st' : DocStore)
    (r : String) (h : saveTracking st t = .ok st') (hr : st.latest ≠ some r) :
    st'.run r = st.run r ∧ st'.latest = st.latest := by
  revert h
  unfold saveTracking
  cases hl : st.latest with
  | none =>
    have hres : resolveRun st none = .error .valueError := by
      unfold resolveRun
      rw [hl]
    rw [hres]
    intro h
    cases h
  | some rid =>
    have hres : resolveRun st none = .ok rid := by
      unfold resolveRun
      rw [hl]
    rw [hres]
    intro h
    simp only [Except.ok.injEq] at h
    subst h
    have hne : r ≠ rid := fun hc => hr (by rw [hc]; exact hl)
    exact ⟨run_setRun_ne _ _ _ _ hne, (latest_setRun _ _ _).trans hl⟩

/-- Tail of the stage-2 orchestration (pointer resolution, module
loop, metadata save): a non-latest run directory and the latest
pointer are preserved. -/
theorem restructFinish_preserve (oracle : String → ModuleOutcome) (newId : String)
    (now : Nat) (st2 : DocStore) (todo : List String) (pre : List Event)
    (A : AnalysisRec) (doc : DocRec) (r : String) (hr : st2.latest ≠ some r) :
    ∀ x : StageResult DocStore RMeta,
      x = (match st2.latest with
           | none => { result := Except.error Err.valueError, store := st2, trace := pre }
           | some rid =>
             match (restructLoop oracle now rid todo
                 { store := st2, processed := [], counts := [], trace := pre }).2 with
             | some e =>
               { result := Except.error (Err.aiError e),
                 store := (restructLoop oracle now rid todo
                   { store := st2, processed := [], counts := [], trace := pre }).1.store,
                 trace := (restructLoop oracle now rid todo
                   { store := st2, processed := [], counts := [], trace := pre }).1.trace }
             | none =>
               match saveRMeta (restructLoop oracle now rid todo
                   { store := st2, processed := [], counts := [], trace := pre }).1.store
                   { id := newId, documentId := A.documentId, documentName := doc.name,
                     modulesProcessed := (restructLoop oracle now rid todo
                       { store := st2, processed := [], counts := [], trace := pre }).1.processed,
                     itemsCount := (restructLoop oracle now rid todo
                       { store := st2, processed := [], counts := [], trace := pre }).1.counts,
                     restructuredAt := now, analysisId := r"", outputPath := r"" } with
               | Except.ok (st3, saved) =>
                 { result := Except.ok (some saved), store := st3,
                   trace := (restructLoop oracle now rid todo
                     { store := st2, processed := [], counts := [], trace := pre }).1.trace ++
                       [Event.metadataWrite] }
               | Except.error e =>
                 { result := Except.error e,
                   store := (restructLoop oracle now rid todo
                     { store := st2, processed := [], counts := [], trace := pre }).1.store,
                   trace := (restructLoop oracle now rid todo
                     { store := st2, processed := [], counts := [], trace := pre }).1.trace }) →
      x.store.run r = st2.run r ∧ x.store.latest = st2.latest := by
  intro x hx
  cases hl : st2.latest with
  | none =>
    rw [hl] at hx
    simp only [] at hx
    subst hx
    exact ⟨rfl, hl⟩
  | some rid =>
    have hne : r ≠ rid := fun hc => hr (by rw [hc]; exact hl)
    rw [hl] at hx
    simp only [] at hx
    revert hx
    cases habort : (restructLoop oracle now rid todo
        { store := st2, processed := [], counts := [], trace := pre }).2 with
    | some e =>
      intro hx
      subst hx
      exact ⟨restructLoop_run_ne oracle now rid todo _ r hne,
             (restructLoop_latest oracle now rid todo _).trans hl⟩
    | none =>
      intro hx
      have hlsl : (restructLoop oracle now rid todo
          { store := st2, processed := [], counts := [], trace := pre }).1.store.latest =
          some rid := by
        rw [restructLoop_latest]
        exact hl
      simp only [saveRMeta, hlsl] at hx
      subst hx
      constructor
      · rw [run_setRun_ne _ _ _ _ hne]
        exact restructLoop_run_ne oracle now rid todo _ r hne
      · rw [latest_setRun]
        exact hlsl

/-- **C4** — counterexample.  After the two analyses `R1` then `R2`
(latest pointer on `R2`), a stage-2 call explicitly targeting
`R1` succeeds — but every write lands in `R2`'s directory: `R1`'s
directory is untouched (no metadata, no items, no tracking) while
`R2`'s directory receives the metadata, contradicting the claim that
the explicit call writes under `R1` and leaves `R2` unaffected. -/
theorem c4_counterexample :
    (restructureDocument twoRunAnalyses oneDocRepo alwaysOneItem r"nid" 3 twoRunStore
        r"R1" false).result.isOk = true
  ∧ (restructureDocument twoRunAnalyses oneDocRepo alwaysOneItem r"nid" 3 twoRunStore
        r"R1" false).store.run r"R1" = emptyRunDir
  ∧ ((restructureDocument twoRunAnalyses oneDocRepo alwaysOneItem r"nid" 3 twoRunStore
        r"R1" false).store.run r"R2").meta.isSome = true
  ∧ ((restructureDocument twoRunAnalyses oneDocRepo alwaysOneItem r"nid" 3 twoRunStore
        r"R1" false).store.run r"R2").items ≠ [] := by
  refine ⟨rfl, rfl, rfl, ?_⟩
  decide

/-- **C4** — amended.  The explicit run id selects only the analysis
record; every storage access of the stage-2 call (`get_tracking`,
`save_tracking`, per-module writes, metadata save) resolves the
latest pointer, so the call reads and writes under the latest run's
directory: any run directory not named by the latest pointer is left
unchanged, and the latest pointer itself is never moved. -/
theorem c4_latest_pointer_indirection
    (analyses : String → Option AnalysisRec) (docs : String → Option DocRec)
    (oracle : String → ModuleOutcome) (newId : String) (now : Nat) (st : DocStore)
    (aid r : String) (hr : st.latest ≠ some r) :
    (restructureDocument analyses docs oracle newId now st aid false).store.run r =
        st.run r
    ∧ (restructureDocument analyses docs oracle newId now st aid false).store.latest =
        st.latest := by
  simp only [restructureDocument]
  split
  · exact ⟨rfl, rfl⟩
  · split
    · exact ⟨rfl, rfl⟩
    · split
      · exact ⟨rfl, rfl⟩
      · split
        · exact ⟨rfl, rfl⟩
        · split
          · exact ⟨rfl, rfl⟩
          · split
            next e hbr => exact ⟨rfl, rfl⟩
            next a b c early hbr =>
              split at hbr
              · split at hbr
                · simp only [Except.ok.injEq, Prod.mk.injEq, Option.some.injEq] at hbr
                  obtain ⟨-, -, -, he⟩ := hbr
                  rw [← he]
                  exact ⟨rfl, rfl⟩
                · simp at hbr
              · split at hbr
                · simp at hbr
                · rw [if_neg (by decide : ¬ ((false : Bool) = true))] at hbr
                  simp only [] at hbr
                  split at hbr
                  · simp at hbr
                  · simp at hbr
            next todo st2 pre hbr =>
              split at hbr
              · split at hbr
                · simp at hbr
                · simp only [Except.ok.injEq, Prod.mk.injEq] at hbr
                  obtain ⟨-, hst2, -, -⟩ := hbr
                  subst hst2
                  exact restructFinish_preserve oracle newId now st todo pre _ _ r hr _ rfl
              · split at hbr
                · simp at hbr
                · rw [if_neg (by decide : ¬ ((false : Bool) = true))] at hbr
                  simp only [] at hbr
                  split at hbr
                  · rename_i st3 heqSave
                    simp only [Except.ok.injEq, Prod.mk.injEq] at hbr
                    obtain ⟨-, hst2, -, -⟩ := hbr
                    subst hst2
                    have hpres := saveTracking_preserve st _ st3 r heqSave hr
                    have hr2 : st3.latest ≠ some r := by rw [hpres.2]; exact hr
                    exact ⟨(restructFinish_preserve oracle newId now st3 todo pre
                        _ _ r hr2 _ rfl).1.trans hpres.1,
                      (restructFinish_preserve oracle newId now st3 todo pre
                        _ _ r hr2 _ rfl).2.trans hpres.2⟩
                  · simp at hbr

/-- Witness for `c4_latest_pointer_indirection`: the counterexample
scenario targeting `R1` leaves the non-latest directory `R1`
unchanged and keeps the latest pointer on `R2`. -/
theorem c4_latest_pointer_indirection_witness :
    twoRunStore.latest ≠ some r"R1"
  ∧ (restructureDocument twoRunAnalyses oneDocRepo alwaysOneItem r"nid" 3 twoRunStore
        r"R1" false).store.run r"R1" = twoRunStore.run r"R1"
  ∧ (restructureDocument twoRunAnalyses oneDocRepo alwaysOneItem r"nid" 3 twoRunStore
        r"R1" false).store.latest = twoRunStore.latest := by
  have h := c4_latest_pointer_indirection twoRunAnalyses oneDocRepo alwaysOneItem
    r"nid" 3 twoRunStore r"R1" r"R1" (by decide)
  exact ⟨by decide, h.1, h.2⟩


/-- `_handle_rate_limit` never returns a non-positive wait. -/
theorem handleRateLimit_pos (cu : Except Unit (Option (List Char))) :
    0 < handleRateLimit cu := by
  rcases cu with a | usage
  · simp [handleRateLimit]
  · rcases usage with _ | hint
    · simp [handleRateLimit]
    · simp only [handleRateLimit]
      split
      · split <;> omega
      · omega

/-- **C7** — Rate-limit retry (stage 3 only).  The backoff is the
parsed usage reset hint plus ten seconds when the hint is present and
parseable to a positive duration, and the fixed 300 s default when
the usage call fails, the hint is absent, empty or unparseable; the
backoff is always positive, so on a rate-limit-shaped gateway error
the loop always sleeps for it and retries the module exactly once
(one extra gateway call): a successful retry completes the module and
the loop continues with the rest, while a second gateway failure
marks the module `failed` with the original error text and returns
the original error, aborting the stage call. -/
theorem c7_rate_limit_retry :
    (∀ (cu : Except Unit (Option (List Char))), 0 < handleRateLimit cu)
  ∧ (∀ (hint : List Char), handleRateLimit (.ok (some hint)) =
      if hint ≠ [] then
        (if parseResetTime hint > 0 then parseResetTime hint + 10 else 300)
      else 300)
  ∧ handleRateLimit (.ok none) = 300
  ∧ handleRateLimit (.error ()) = 300
  ∧ (∀ (getItems : String → List Json) (attempt1 attempt2 : String → ModuleOutcome)
       (checkUsage : Except Unit (Option (List Char))) (aiSession : Option String)
       (now : Nat) (m : String) (rest : List String) (s : GLoopState) (e : List Char),
       getItems m ≠ [] →
       attempt1 m = .aiFailure e →
       isRateLimitError (pyLower e) = true →
       ((∀ e2, attempt2 m = .aiFailure e2 →
           genLoop getItems attempt1 attempt2 checkUsage aiSession now (m :: rest) s =
             ({ s with
                  store := genUpdateModule
                    (genUpdateModule s.store m .inProgress 0 none now) m .failed 0
                    (some e) now,
                  trace := s.trace ++ [Event.ledgerUpdate m Status.inProgress,
                    Event.gatewayCall m, Event.sleepFor (handleRateLimit checkUsage),
                    Event.gatewayCall m, Event.ledgerUpdate m Status.failed] },
              some (.aiError e)))
        ∧ (∀ cards, attempt2 m = .success cards →
           genLoop getItems attempt1 attempt2 checkUsage aiSession now (m :: rest) s =
             genLoop getItems attempt1 attempt2 checkUsage aiSession now rest
               { store := genUpdateModule
                   (saveCards (genUpdateModule s.store m .inProgress 0 none now) m cards).1
                   m .completed cards.length none now,
                 sessionSaved := s.sessionSaved,
                 processed := s.processed ++ [m],
                 counts := s.counts ++ [(m, cards.length)],
                 total := s.total + cards.length,
                 trace := s.trace ++ [Event.ledgerUpdate m Status.inProgress,
                     Event.gatewayCall m, Event.sleepFor (handleRateLimit checkUsage),
                     Event.gatewayCall m] ++
                   (saveCards (genUpdateModule s.store m .inProgress 0 none now) m cards).2 ++
                   [Event.ledgerUpdate m Status.completed] }))) := by
  refine ⟨handleRateLimit_pos, fun hint => rfl, rfl, rfl, ?_⟩
  intro getItems attempt1 attempt2 checkUsage aiSession now m rest s e hitems h1 hrl
  constructor
  · intro e2 h2
    simp only [genLoop]
    rw [if_neg hitems, h1]
    simp only []
    rw [if_pos hrl, if_pos (handleRateLimit_pos checkUsage), h2]
    simp only []
    simp [List.append_assoc]
  · intro cards h2
    simp only [genLoop]
    rw [if_neg hitems, h1]
    simp only []
    rw [if_pos hrl, if_pos (handleRateLimit_pos checkUsage), h2]
    simp only []
    simp [List.append_assoc]


/-- Witness for `c7_rate_limit_retry`: on the rate-limited
`vocabulary` module (usage hint absent, so the default 300 s backoff)
a failing retry returns the original error with the single
sleep-and-retry visible in the trace, and a succeeding retry
completes the module and lets the loop finish. -/
theorem c7_rate_limit_retry_witness :
    (genLoop oneItemPerModule vocabRateLimited vocabRateLimited (Except.ok none) none 5
        [r"vocabulary"] ⟨genEmptyStore, none, [], [], 0, []⟩).2 =
      some (.aiError rateLimitMsg)
  ∧ (genLoop oneItemPerModule vocabRateLimited vocabRateLimited (Except.ok none) none 5
        [r"vocabulary"] ⟨genEmptyStore, none, [], [], 0, []⟩).1.trace =
      [Event.ledgerUpdate r"vocabulary" Status.inProgress,
       Event.gatewayCall r"vocabulary", Event.sleepFor 300,
       Event.gatewayCall r"vocabulary",
       Event.ledgerUpdate r"vocabulary" Status.failed]
  ∧ (genLoop oneItemPerModule vocabRateLimited alwaysOneCard (Except.ok none) none 5
        [r"vocabulary"] ⟨genEmptyStore, none, [], [], 0, []⟩).2 = none
  ∧ (genLoop oneItemPerModule vocabRateLimited alwaysOneCard (Except.ok none) none 5
        [r"vocabulary"] ⟨genEmptyStore, none, [], [], 0, []⟩).1.processed =
      [r"vocabulary"] := by
  have hfail := (c7_rate_limit_retry.2.2.2.2 oneItemPerModule vocabRateLimited
      vocabRateLimited (Except.ok none) none 5 r"vocabulary" []
      ⟨genEmptyStore, none, [], [], 0, []⟩ rateLimitMsg (by decide) rfl (by decide)).1
      rateLimitMsg rfl
  have hok := (c7_rate_limit_retry.2.2.2.2 oneItemPerModule vocabRateLimited
      alwaysOneCard (Except.ok none) none 5 r"vocabulary" []
      ⟨genEmptyStore, none, [], [], 0, []⟩ rateLimitMsg (by decide) rfl (by decide)).2
      _ rfl
  refine ⟨?_, ?_, ?_, ?_⟩
  · rw [hfail]
  · rw [hfail]
    decide
  · rw [hok]
    rfl
  · rw [hok]
    rfl


/-- `get_restructuration_metadata` after a metadata write into the
latest run reads back exactly the written record. -/
theorem getRMeta_setRun_meta (st : DocStore) (rid : String) (d : RunDir)
    (h : st.latest = some rid) :
    getRMeta (st.setRun rid d) none = d.meta := by
  unfold getRMeta resolveRun
  simp only []
  rw [latest_setRun, h]
  simp only []
  rw [run_setRun_self]

/-- **C10** — Fresh metadata on resume.  When the restructure or the
generate stage resumes (ledger present, no force) over a non-empty
remaining module set and returns metadata, the record it persists
carries the freshly generated invocation id `newId`, lists in
`modules_processed` exactly the modules of the remaining set whose
processing succeeded in this invocation (so modules completed in an
earlier invocation are absent), keys the per-module counts by those
same modules, and overwrites the stage's metadata file, which
afterwards reads back this new record. -/
theorem c10_fresh_metadata :
    (∀ (analyses : String → Option AnalysisRec) (docs : String → Option DocRec)
       (oracle : String → ModuleOutcome) (newId : String) (now : Nat) (st : DocStore)
       (aid : String) (A : AnalysisRec) (doc : DocRec) (t : Tracking) (md : RMeta),
       analyses aid = some A →
       docs A.documentId = some doc →
       pyStrip aid.data ≠ [] →
       A.detectedModules ≠ [] →
       A.detectedModules.filter (fun m => m ∈ allModules) ≠ [] →
       getTracking st none = some t →
       (A.detectedModules.filter (fun m => m ∈ allModules)).filter
           (fun m => m ∉ completedModulesOf t) ≠ [] →
       (restructureDocument analyses docs oracle newId now st aid false).result =
           .ok (some md) →
       md.id = newId
       ∧ md.modulesProcessed =
           ((A.detectedModules.filter (fun m => m ∈ allModules)).filter
             (fun m => m ∉ completedModulesOf t)).filter (fun m => (oracle m).isSuccess)
       ∧ md.itemsCount.map (fun p => p.1) = md.modulesProcessed
       ∧ (∀ m ∈ completedModulesOf t, m ∉ md.modulesProcessed)
       ∧ getRMeta (restructureDocument analyses docs oracle newId now st aid false).store
           none = some md)
  ∧ (∀ (restructs : String → Option RestructRec) (getItems : String → List Json)
       (attempt1 attempt2 : String → ModuleOutcome)
       (checkUsage : Except Unit (Option (List Char))) (aiSession : Option String)
       (newId : String) (now : Nat) (st : GenStore) (rid : String) (ct : String)
       (R : RestructRec) (t : Tracking) (md : GMeta),
       restructs rid = some R →
       pyStrip rid.data ≠ [] →
       (ct = r"basic" ∨ ct = r"cloze") →
       st.tracking = some t →
       (R.modulesProcessed.filter (fun m => m ∉ excludedModulesDefault)).filter
           (fun m => m ∉ completedModulesOf t) ≠ [] →
       (generateCards restructs getItems attempt1 attempt2 checkUsage aiSession newId now
           st rid ct none false).result = .ok (some md) →
       md.id = newId
       ∧ md.modulesProcessed =
           ((R.modulesProcessed.filter (fun m => m ∉ excludedModulesDefault)).filter
             (fun m => m ∉ completedModulesOf t)).filter
             (fun m => genSucceeds getItems attempt1 attempt2 checkUsage m)
       ∧ md.cardsCount.map (fun p => p.1) = md.modulesProcessed
       ∧ (∀ m ∈ completedModulesOf t, m ∉ md.modulesProcessed)
       ∧ (generateCards restructs getItems attempt1 attempt2 checkUsage aiSession newId now
           st rid ct none false).store.meta = some md) := by
  constructor
  · intro analyses docs oracle newId now st aid A doc t md hA hdoc hval hdet hsel ht htodo
      hres
    have hbody : restructureDocument analyses docs oracle newId now st aid false =
        (if (List.filter (fun m => m ∉ List.map (fun p => p.1)
            (List.filter (fun p => p.2.status = Status.completed) t.modules))
          (List.filter (fun m => m ∈ allModules) A.detectedModules)) = [] then
          { result := Except.ok (getRMeta st none), store := st, trace := [] }
         else
          match st.latest with
          | none => { result := Except.error Err.valueError, store := st, trace := [] }
          | some rid0 =>
            match (restructLoop oracle now rid0 (List.filter (fun m => m ∉ List.map (fun p => p.1)
            (List.filter (fun p => p.2.status = Status.completed) t.modules))
          (List.filter (fun m => m ∈ allModules) A.detectedModules))
            { store := st, processed := [], counts := [], trace := [] }).2 with
            | some e =>
              { result := Except.error (Err.aiError e),
                store := (restructLoop oracle now rid0 (List.filter (fun m => m ∉ List.map (fun p => p.1)
            (List.filter (fun p => p.2.status = Status.completed) t.modules))
          (List.filter (fun m => m ∈ allModules) A.detectedModules))
            { store := st, processed := [], counts := [], trace := [] }).1.store,
                trace := (restructLoop oracle now rid0 (List.filter (fun m => m ∉ List.map (fun p => p.1)
            (List.filter (fun p => p.2.status = Status.completed) t.modules))
          (List.filter (fun m => m ∈ allModules) A.detectedModules))
            { store := st, processed := [], counts := [], trace := [] }).1.trace }
            | none =>
              match saveRMeta (restructLoop oracle now rid0 (List.filter (fun m => m ∉ List.map (fun p => p.1)
            (List.filter (fun p => p.2.status = Status.completed) t.modules))
          (List.filter (fun m => m ∈ allModules) A.detectedModules))
            { store := st, processed := [], counts := [], trace := [] }).1.store
                { id := newId, documentId := A.documentId, documentName := doc.name,
                  modulesProcessed := (restructLoop oracle now rid0 (List.filter (fun m => m ∉ List.map (fun p => p.1)
            (List.filter (fun p => p.2.status = Status.completed) t.modules))
          (List.filter (fun m => m ∈ allModules) A.detectedModules))
            { store := st, processed := [], counts := [], trace := [] }).1.processed,
                  itemsCount := (restructLoop oracle now rid0 (List.filter (fun m => m ∉ List.map (fun p => p.1)
            (List.filter (fun p => p.2.status = Status.completed) t.modules))
          (List.filter (fun m => m ∈ allModules) A.detectedModules))
            { store := st, processed := [], counts := [], trace := [] }).1.counts,
                  restructuredAt := now, analysisId := r"", outputPath := r"" } with
              | .ok (st2, saved) =>
                { result := Except.ok (some saved), store := st2,
                  trace := (restructLoop oracle now rid0 (List.filter (fun m => m ∉ List.map (fun p => p.1)
            (List.filter (fun p => p.2.status = Status.completed) t.modules))
          (List.filter (fun m => m ∈ allModules) A.detectedModules))
            { store := st, processed := [], counts := [], trace := [] }).1.trace ++ [Event.metadataWrite] }
              | .error e =>
                { result := Except.error e,
                  store := (restructLoop oracle now rid0 (List.filter (fun m => m ∉ List.map (fun p => p.1)
            (List.filter (fun p => p.2.status = Status.completed) t.modules))
          (List.filter (fun m => m ∈ allModules) A.detectedModules))
            { store := st, processed := [], counts := [], trace := [] }).1.store,
                  trace := (restructLoop oracle now rid0 (List.filter (fun m => m ∉ List.map (fun p => p.1)
            (List.filter (fun p => p.2.status = Status.completed) t.modules))
          (List.filter (fun m => m ∈ allModules) A.detectedModules))
            { store := st, processed := [], counts := [], trace := [] }).1.trace }) := by
      rw [restructureDocument]
      rw [if_neg hval]
      rw [hA]
      simp only []
      rw [if_neg hdet, if_neg hsel, hdoc]
      simp only [ht]
      by_cases htodo : (List.filter (fun m => m ∉ List.map (fun p => p.1)
            (List.filter (fun p => p.2.status = Status.completed) t.modules))
          (List.filter (fun m => m ∈ allModules) A.detectedModules)) = []
      · rw [if_pos htodo, if_pos htodo]
      · rw [if_neg htodo, if_neg htodo]
    simp only [completedModulesOf] at htodo ⊢
    rw [hbody, if_neg htodo] at hres ⊢
    revert hres
    cases hl : st.latest with
    | none => intro hres; cases hres
    | some rid0 =>
      simp only []
      cases habort : (restructLoop oracle now rid0 (List.filter (fun m => m ∉ List.map (fun p => p.1) (List.filter (fun p => p.2.status = Status.completed) t.modules)) (List.filter (fun m => m ∈ allModules) A.detectedModules)) { store := st, processed := [], counts := [], trace := [] }).2 with
      | some e => intro hres; cases hres
      | none =>
        intro hres
        have hnoai := (restructLoop_none_iff oracle now rid0 (List.filter (fun m => m ∉ List.map (fun p => p.1) (List.filter (fun p => p.2.status = Status.completed) t.modules)) (List.filter (fun m => m ∈ allModules) A.detectedModules)) { store := st, processed := [], counts := [], trace := [] }).mp habort
        have hlat : (restructLoop oracle now rid0 (List.filter (fun m => m ∉ List.map (fun p => p.1) (List.filter (fun p => p.2.status = Status.completed) t.modules)) (List.filter (fun m => m ∈ allModules) A.detectedModules)) { store := st, processed := [], counts := [], trace := [] }).1.store.latest = some rid0 := by
          rw [restructLoop_latest]
          exact hl
        simp only [saveRMeta, hlat] at hres ⊢
        simp only [Except.ok.injEq, Option.some.injEq] at hres
        subst hres
        refine ⟨rfl, ?_, ?_, ?_, ?_⟩
        · simp only []
          rw [(restructLoop_processed oracle now rid0 (List.filter (fun m => m ∉ List.map (fun p => p.1) (List.filter (fun p => p.2.status = Status.completed) t.modules)) (List.filter (fun m => m ∈ allModules) A.detectedModules)) { store := st, processed := [], counts := [], trace := [] } hnoai).1]
          rfl
        · simp only []
          rw [(restructLoop_processed oracle now rid0 (List.filter (fun m => m ∉ List.map (fun p => p.1) (List.filter (fun p => p.2.status = Status.completed) t.modules)) (List.filter (fun m => m ∈ allModules) A.detectedModules)) { store := st, processed := [], counts := [], trace := [] } hnoai).2,
              (restructLoop_processed oracle now rid0 (List.filter (fun m => m ∉ List.map (fun p => p.1) (List.filter (fun p => p.2.status = Status.completed) t.modules)) (List.filter (fun m => m ∈ allModules) A.detectedModules)) { store := st, processed := [], counts := [], trace := [] } hnoai).1]
          rfl
        · intro m hm hmem
          simp only [] at hmem
          rw [(restructLoop_processed oracle now rid0 (List.filter (fun m => m ∉ List.map (fun p => p.1) (List.filter (fun p => p.2.status = Status.completed) t.modules)) (List.filter (fun m => m ∈ allModules) A.detectedModules)) { store := st, processed := [], counts := [], trace := [] } hnoai).1] at hmem
          simp only [List.nil_append, List.mem_filter, decide_eq_true_eq] at hmem
          exact hmem.1.2 hm
        · exact getRMeta_setRun_meta _ _ _ hlat
  · intro restructs getItems attempt1 attempt2 checkUsage aiSession newId now st rid ct
      R t md hR hval hct ht htodo hres
    have hctne : ¬ (ct ≠ r"basic" ∧ ct ≠ r"cloze") := by
      rcases hct with h | h <;> simp [h]
    have hselne : R.modulesProcessed.filter (fun m => m ∉ excludedModulesDefault) ≠ [] := by
      intro h0
      apply htodo
      rw [h0]
      rfl
    have gbody : generateCards restructs getItems attempt1 attempt2 checkUsage aiSession newId now st rid ct none false =
        (if (List.filter (fun m => m ∉ List.map (fun p => p.1) (List.filter (fun p => p.2.status = Status.completed) t.modules)) (List.filter (fun m => m ∉ excludedModulesDefault) R.modulesProcessed)) = [] then { result := Except.ok st.meta, store := st, trace := [] }
         else
          match (genLoop getItems attempt1 attempt2 checkUsage aiSession now (List.filter (fun m => m ∉ List.map (fun p => p.1) (List.filter (fun p => p.2.status = Status.completed) t.modules)) (List.filter (fun m => m ∉ excludedModulesDefault) R.modulesProcessed)) { store := st, sessionSaved := t.sessionId, processed := [], counts := [], total := 0, trace := [] }).2 with
          | some e => { result := Except.error e, store := (genLoop getItems attempt1 attempt2 checkUsage aiSession now (List.filter (fun m => m ∉ List.map (fun p => p.1) (List.filter (fun p => p.2.status = Status.completed) t.modules)) (List.filter (fun m => m ∉ excludedModulesDefault) R.modulesProcessed)) { store := st, sessionSaved := t.sessionId, processed := [], counts := [], total := 0, trace := [] }).1.store, trace := (genLoop getItems attempt1 attempt2 checkUsage aiSession now (List.filter (fun m => m ∉ List.map (fun p => p.1) (List.filter (fun p => p.2.status = Status.completed) t.modules)) (List.filter (fun m => m ∉ excludedModulesDefault) R.modulesProcessed)) { store := st, sessionSaved := t.sessionId, processed := [], counts := [], total := 0, trace := [] }).1.trace }
          | none => { result := Except.ok (some { id := newId, restructurationId := rid, documentId := R.documentId, documentName := R.documentName, cardType := ct, modulesProcessed := (genLoop getItems attempt1 attempt2 checkUsage aiSession now (List.filter (fun m => m ∉ List.map (fun p => p.1) (List.filter (fun p => p.2.status = Status.completed) t.modules)) (List.filter (fun m => m ∉ excludedModulesDefault) R.modulesProcessed)) { store := st, sessionSaved := t.sessionId, processed := [], counts := [], total := 0, trace := [] }).1.processed, cardsCount := (genLoop getItems attempt1 attempt2 checkUsage aiSession now (List.filter (fun m => m ∉ List.map (fun p => p.1) (List.filter (fun p => p.2.status = Status.completed) t.modules)) (List.filter (fun m => m ∉ excludedModulesDefault) R.modulesProcessed)) { store := st, sessionSaved := t.sessionId, processed := [], counts := [], total := 0, trace := [] }).1.counts, totalCards := (genLoop getItems attempt1 attempt2 checkUsage aiSession now (List.filter (fun m => m ∉ List.map (fun p => p.1) (List.filter (fun p => p.2.status = Status.completed) t.modules)) (List.filter (fun m => m ∉ excludedModulesDefault) R.modulesProcessed)) { store := st, sessionSaved := t.sessionId, processed := [], counts := [], total := 0, trace := [] }).1.total, generatedAt := now }), store := { (genLoop getItems attempt1 attempt2 checkUsage aiSession now (List.filter (fun m => m ∉ List.map (fun p => p.1) (List.filter (fun p => p.2.status = Status.completed) t.modules)) (List.filter (fun m => m ∉ excludedModulesDefault) R.modulesProcessed)) { store := st, sessionSaved := t.sessionId, processed := [], counts := [], total := 0, trace := [] }).1.store with meta := some { id := newId, restructurationId := rid, documentId := R.documentId, documentName := R.documentName, cardType := ct, modulesProcessed := (genLoop getItems attempt1 attempt2 checkUsage aiSession now (List.filter (fun m => m ∉ List.map (fun p => p.1) (List.filter (fun p => p.2.status = Status.completed) t.modules)) (List.filter (fun m => m ∉ excludedModulesDefault) R.modulesProcessed)) { store := st, sessionSaved := t.sessionId, processed := [], counts := [], total := 0, trace := [] }).1.processed, cardsCount := (genLoop getItems attempt1 attempt2 checkUsage aiSession now (List.filter (fun m => m ∉ List.map (fun p => p.1) (List.filter (fun p => p.2.status = Status.completed) t.modules)) (List.filter (fun m => m ∉ excludedModulesDefault) R.modulesProcessed)) { store := st, sessionSaved := t.sessionId, processed := [], counts := [], total := 0, trace := [] }).1.counts, totalCards := (genLoop getItems attempt1 attempt2 checkUsage aiSession now (List.filter (fun m => m ∉ List.map (fun p => p.1) (List.filter (fun p => p.2.status = Status.completed) t.modules)) (List.filter (fun m => m ∉ excludedModulesDefault) R.modulesProcessed)) { store := st, sessionSaved := t.sessionId, processed := [], counts := [], total := 0, trace := [] }).1.total, generatedAt := now } }, trace := (genLoop getItems attempt1 attempt2 checkUsage aiSession now (List.filter (fun m => m ∉ List.map (fun p => p.1) (List.filter (fun p => p.2.status = Status.completed) t.modules)) (List.filter (fun m => m ∉ excludedModulesDefault) R.modulesProcessed)) { store := st, sessionSaved := t.sessionId, processed := [], counts := [], total := 0, trace := [] }).1.trace ++ [Event.metadataWrite] }) := by
      rw [generateCards]
      rw [if_neg hval, if_neg hctne, hR]
      simp only [ht]
      rw [if_neg (by decide : ¬ ((false : Bool) = true))]
      simp only []
      rw [if_neg hselne]
      by_cases htodo : (List.filter (fun m => m ∉ List.map (fun p => p.1) (List.filter (fun p => p.2.status = Status.completed) t.modules)) (List.filter (fun m => m ∉ excludedModulesDefault) R.modulesProcessed)) = []
      · rw [if_pos htodo, if_pos htodo]
      · rw [if_neg htodo, if_neg htodo]
    simp only [completedModulesOf] at htodo ⊢
    rw [gbody, if_neg htodo] at hres ⊢
    revert hres
    cases habort : (genLoop getItems attempt1 attempt2 checkUsage aiSession now (List.filter (fun m => m ∉ List.map (fun p => p.1) (List.filter (fun p => p.2.status = Status.completed) t.modules)) (List.filter (fun m => m ∉ excludedModulesDefault) R.modulesProcessed)) { store := st, sessionSaved := t.sessionId, processed := [], counts := [], total := 0, trace := [] }).2 with
    | some e => intro hres; cases hres
    | none =>
      intro hres
      have hnoai := (genLoop_none_iff getItems attempt1 attempt2 checkUsage aiSession now
        (List.filter (fun m => m ∉ List.map (fun p => p.1) (List.filter (fun p => p.2.status = Status.completed) t.modules)) (List.filter (fun m => m ∉ excludedModulesDefault) R.modulesProcessed)) { store := st, sessionSaved := t.sessionId, processed := [], counts := [], total := 0, trace := [] }).mp habort
      simp only [] at hres ⊢
      simp only [Except.ok.injEq, Option.some.injEq] at hres
      subst hres
      refine ⟨rfl, ?_, ?_, ?_, rfl⟩
      · simp only []
        rw [(genLoop_processed getItems attempt1 attempt2 checkUsage aiSession now
          (List.filter (fun m => m ∉ List.map (fun p => p.1) (List.filter (fun p => p.2.status = Status.completed) t.modules)) (List.filter (fun m => m ∉ excludedModulesDefault) R.modulesProcessed)) { store := st, sessionSaved := t.sessionId, processed := [], counts := [], total := 0, trace := [] } hnoai).1]
        rfl
      · simp only []
        rw [(genLoop_processed getItems attempt1 attempt2 checkUsage aiSession now
          (List.filter (fun m => m ∉ List.map (fun p => p.1) (List.filter (fun p => p.2.status = Status.completed) t.modules)) (List.filter (fun m => m ∉ excludedModulesDefault) R.modulesProcessed)) { store := st, sessionSaved := t.sessionId, processed := [], counts := [], total := 0, trace := [] } hnoai).2,
            (genLoop_processed getItems attempt1 attempt2 checkUsage aiSession now
          (List.filter (fun m => m ∉ List.map (fun p => p.1) (List.filter (fun p => p.2.status = Status.completed) t.modules)) (List.filter (fun m => m ∉ excludedModulesDefault) R.modulesProcessed)) { store := st, sessionSaved := t.sessionId, processed := [], counts := [], total := 0, trace := [] } hnoai).1]
        rfl
      · intro m hm hmem
        simp only [] at hmem
        rw [(genLoop_processed getItems attempt1 attempt2 checkUsage aiSession now
          (List.filter (fun m => m ∉ List.map (fun p => p.1) (List.filter (fun p => p.2.status = Status.completed) t.modules)) (List.filter (fun m => m ∉ excludedModulesDefault) R.modulesProcessed)) { store := st, sessionSaved := t.sessionId, processed := [], counts := [], total := 0, trace := [] } hnoai).1] at hmem
        simp only [List.nil_append, List.mem_filter, decide_eq_true_eq] at hmem
        exact hmem.1.2 hm


/-- Witness for `c10_fresh_metadata`: resuming the three-module
scenario (only `themes` completed earlier) under fresh ids processes
`vocabulary` and `tables`; both stages persist metadata listing
exactly those two modules under the fresh id, with the
earlier-completed `themes` absent, and read it back. -/
theorem c10_fresh_metadata_witness :
    (∃ md : RMeta,
      (restructureDocument threeModuleAnalyses oneDocRepo alwaysOneItem r"fresh" 7
          resumeStore r"A" false).result = Except.ok (some md)
      ∧ md.id = r"fresh"
      ∧ md.modulesProcessed = [r"vocabulary", r"tables"]
      ∧ md.itemsCount.map (fun p => p.1) = [r"vocabulary", r"tables"]
      ∧ r"themes" ∉ md.modulesProcessed
      ∧ getRMeta (restructureDocument threeModuleAnalyses oneDocRepo alwaysOneItem
          r"fresh" 7 resumeStore r"A" false).store none = some md)
  ∧ (∃ md : GMeta,
      (generateCards threeModuleRestructs oneItemPerModule alwaysOneCard alwaysOneCard
          (Except.ok none) none r"freshg" 7 genResumeStore r"B" r"basic" none
          false).result = Except.ok (some md)
      ∧ md.id = r"freshg"
      ∧ md.modulesProcessed = [r"vocabulary", r"tables"]
      ∧ md.cardsCount.map (fun p => p.1) = [r"vocabulary", r"tables"]
      ∧ r"themes" ∉ md.modulesProcessed
      ∧ (generateCards threeModuleRestructs oneItemPerModule alwaysOneCard alwaysOneCard
          (Except.ok none) none r"freshg" 7 genResumeStore r"B" r"basic" none
          false).store.meta = some md) := by
  have h := c10_fresh_metadata.1 threeModuleAnalyses oneDocRepo alwaysOneItem r"fresh" 7
    resumeStore r"A" _ _ resumeLedger _ rfl rfl (by decide) (by decide) (by decide) rfl
    (by decide) rfl
  have h2 := c10_fresh_metadata.2 threeModuleRestructs oneItemPerModule alwaysOneCard
    alwaysOneCard (Except.ok none) none r"freshg" 7 genResumeStore r"B" r"basic" _
    resumeLedger _ rfl (by decide) (Or.inl rfl) rfl (by decide) rfl
  refine ⟨⟨_, rfl, h.1, h.2.1.trans (by decide),
      (h.2.2.1).trans (h.2.1.trans (by decide)),
      fun hmem => h.2.2.2.1 r"themes" (by decide) hmem, h.2.2.2.2⟩,
    ⟨_, rfl, h2.1, h2.2.1.trans (by decide),
      (h2.2.2.1).trans (h2.2.1.trans (by decide)),
      fun hmem => h2.2.2.2.1 r"themes" (by decide) hmem, h2.2.2.2.2⟩⟩


/-- **C2** — Error propagation policy of the per-module loops
(restructure, generate, optimize).  A module failure that is not a
gateway error marks the module `failed` with the error text and the
loop continues with the remaining modules, so the stage still reaches
its metadata step, whose record covers exactly the successes; a
gateway error (outside the stage-3 rate-limit retry path) marks the
module `failed` with its text and is re-raised as the loop's abort
value — which the orchestrators turn into the stage invocation's
error — while every module outside the aborted step, in particular
every already-completed one, keeps its ledger entry. -/
theorem c2_error_propagation :
    (∀ (o : String → ModuleOutcome) (now : Nat) (rid : String) (m : String)
       (rest : List String) (s : RLoopState) (e : List Char),
       o m = .otherFailure e →
       restructLoop o now rid (m :: rest) s =
         restructLoop o now rid rest
           { s with
               store := storeUpdateModule
                 (storeUpdateModule s.store rid m .inProgress 0 none now) rid m .failed 0
                 (some e) now,
               trace := s.trace ++ [Event.ledgerUpdate m Status.inProgress] ++
                 [Event.gatewayCall m, Event.ledgerUpdate m Status.failed] })
  ∧ (∀ (o : String → ModuleOutcome) (now : Nat) (rid : String) (m : String)
       (rest : List String) (s : RLoopState) (e : List Char),
       o m = .aiFailure e →
       (restructLoop o now rid (m :: rest) s).2 = some e
       ∧ runModuleStatus (restructLoop o now rid (m :: rest) s).1.store rid m =
           some .failed
       ∧ runModuleError (restructLoop o now rid (m :: rest) s).1.store rid m =
           some (some e)
       ∧ (∀ m', m' ≠ m →
           runModuleStatus (restructLoop o now rid (m :: rest) s).1.store rid m' =
             runModuleStatus s.store rid m'))
  ∧ (∀ (o : String → ModuleOutcome) (now : Nat) (rid : String) (mods : List String)
       (s : RLoopState),
       (∀ m ∈ mods, (o m).isAIFailure = false) →
       (restructLoop o now rid mods s).2 = none
       ∧ (restructLoop o now rid mods s).1.processed =
           s.processed ++ mods.filter (fun m => (o m).isSuccess))
  ∧ (∀ (o : String → ModuleOutcome) (now : Nat) (rid : String) (mods : List String)
       (s : RLoopState) (m' : String), m' ∉ mods →
       runModuleStatus (restructLoop o now rid mods s).1.store rid m' =
         runModuleStatus s.store rid m')
  ∧ (∀ (getItems : String → List Json) (attempt1 attempt2 : String → ModuleOutcome)
       (checkUsage : Except Unit (Option (List Char))) (aiSession : Option String)
       (now : Nat) (m : String) (rest : List String) (s : GLoopState) (e : List Char),
       getItems m ≠ [] →
       attempt1 m = .otherFailure e →
       genLoop getItems attempt1 attempt2 checkUsage aiSession now (m :: rest) s =
         genLoop getItems attempt1 attempt2 checkUsage aiSession now rest
           { s with
               store := genUpdateModule
                 (genUpdateModule s.store m .inProgress 0 none now) m .failed 0 (some e)
                 now,
               trace := s.trace ++ [Event.ledgerUpdate m Status.inProgress] ++
                 [Event.gatewayCall m] ++ [Event.ledgerUpdate m Status.failed] })
  ∧ (∀ (getItems : String → List Json) (attempt1 attempt2 : String → ModuleOutcome)
       (checkUsage : Except Unit (Option (List Char))) (aiSession : Option String)
       (now : Nat) (m : String) (rest : List String) (s : GLoopState) (e : List Char),
       getItems m ≠ [] →
       attempt1 m = .aiFailure e →
       isRateLimitError (pyLower e) = false →
       (genLoop getItems attempt1 attempt2 checkUsage aiSession now (m :: rest) s).2 =
           some (.aiError e)
       ∧ (genLoop getItems attempt1 attempt2 checkUsage aiSession now
           (m :: rest) s).1.store.modStatus m = some .failed
       ∧ (genLoop getItems attempt1 attempt2 checkUsage aiSession now
           (m :: rest) s).1.store.modError m = some (some e)
       ∧ (∀ m', m' ≠ m →
           (genLoop getItems attempt1 attempt2 checkUsage aiSession now
             (m :: rest) s).1.store.modStatus m' = s.store.modStatus m'))
  ∧ (∀ (getCards : String → List Json) (oracle : String → ModuleOutcome)
       (cts : Option (List (List Char))) (now : Nat) (m : String) (rest : List String)
       (s : OLoopState) (e : List Char),
       getCards m ≠ [] →
       oracle m = .otherFailure e →
       optLoop getCards oracle cts now (m :: rest) s =
         optLoop getCards oracle cts now rest
           { s with
               store := optUpdateModule
                 (optUpdateModule s.store m .inProgress 0 none now) m .failed 0 (some e)
                 now,
               trace := s.trace ++ [Event.ledgerUpdate m Status.inProgress] ++
                 [Event.gatewayCall m] ++ [Event.ledgerUpdate m Status.failed] })
  ∧ (∀ (getCards : String → List Json) (oracle : String → ModuleOutcome)
       (cts : Option (List (List Char))) (now : Nat) (m : String) (rest : List String)
       (s : OLoopState) (e : List Char),
       getCards m ≠ [] →
       oracle m = .aiFailure e →
       (optLoop getCards oracle cts now (m :: rest) s).2 = some e
       ∧ (optLoop getCards oracle cts now (m :: rest) s).1.store.modStatus m =
           some .failed
       ∧ (optLoop getCards oracle cts now (m :: rest) s).1.store.modError m =
           some (some e)
       ∧ (∀ m', m' ≠ m →
           (optLoop getCards oracle cts now (m :: rest) s).1.store.modStatus m' =
             s.store.modStatus m')) := by
  refine ⟨?_, ?_, ?_, ?_, ?_, ?_, ?_, ?_⟩
  · intro o now rid m rest s e ho
    simp only [restructLoop]
    rw [ho]
  · intro o now rid m rest s e ho
    have hstep : restructLoop o now rid (m :: rest) s =
        ({ s with
             store := storeUpdateModule
               (storeUpdateModule s.store rid m .inProgress 0 none now) rid m .failed 0
               (some e) now,
             trace := s.trace ++ [Event.ledgerUpdate m Status.inProgress] ++
               [Event.gatewayCall m, Event.ledgerUpdate m Status.failed] },
         some e) := by
      simp only [restructLoop]
      rw [ho]
    refine ⟨?_, ?_, ?_, ?_⟩
    · rw [hstep]
    · rw [hstep]
      exact storeUpdateModule_status_self _ _ _ _ _ _ _
    · rw [hstep]
      exact storeUpdateModule_error_self _ _ _ _ _ _ _
    · intro m' hne
      rw [hstep]
      rw [storeUpdateModule_status_ne _ _ _ _ _ _ _ _ hne,
          storeUpdateModule_status_ne _ _ _ _ _ _ _ _ hne]
  · intro o now rid mods s h
    exact ⟨(restructLoop_none_iff o now rid mods s).mpr h,
           (restructLoop_processed o now rid mods s h).1⟩
  · intro o now rid mods s m' h
    exact restructLoop_status_other o now rid mods s m' h
  · intro getItems attempt1 attempt2 checkUsage aiSession now m rest s e hi h1
    simp only [genLoop]
    rw [if_neg hi, h1]
  · intro getItems attempt1 attempt2 checkUsage aiSession now m rest s e hi h1 hrl
    have hstep : genLoop getItems attempt1 attempt2 checkUsage aiSession now (m :: rest) s =
        ({ s with
             store := genUpdateModule
               (genUpdateModule s.store m .inProgress 0 none now) m .failed 0 (some e) now,
             trace := s.trace ++ [Event.ledgerUpdate m Status.inProgress] ++
               [Event.gatewayCall m] ++ [Event.ledgerUpdate m Status.failed] },
         some (.aiError e)) := by
      simp only [genLoop]
      rw [if_neg hi, h1]
      simp only []
      rw [hrl, if_neg (by decide : ¬ ((false : Bool) = true))]
    refine ⟨?_, ?_, ?_, ?_⟩
    · rw [hstep]
    · rw [hstep]
      exact genUpdateModule_status_self _ _ _ _ _ _
    · rw [hstep]
      exact genUpdateModule_error_self _ _ _ _ _ _
    · intro m' hne
      rw [hstep]
      rw [genUpdateModule_status_ne _ _ _ _ _ _ _ hne,
          genUpdateModule_status_ne _ _ _ _ _ _ _ hne]
  · intro getCards oracle cts now m rest s e hi h1
    simp only [optLoop]
    rw [if_neg hi, h1]
  · intro getCards oracle cts now m rest s e hi h1
    have hstep : optLoop getCards oracle cts now (m :: rest) s =
        ({ s with
             store := optUpdateModule
               (optUpdateModule s.store m .inProgress 0 none now) m .failed 0 (some e) now,
             trace := s.trace ++ [Event.ledgerUpdate m Status.inProgress] ++
               [Event.gatewayCall m] ++ [Event.ledgerUpdate m Status.failed] },
         some e) := by
      simp only [optLoop]
      rw [if_neg hi, h1]
    refine ⟨?_, ?_, ?_, ?_⟩
    · rw [hstep]
    · rw [hstep]
      exact optUpdateModule_status_self _ _ _ _ _ _
    · rw [hstep]
      exact optUpdateModule_error_self _ _ _ _ _ _
    · intro m' hne
      rw [hstep]
      rw [optUpdateModule_status_ne _ _ _ _ _ _ _ hne,
          optUpdateModule_status_ne _ _ _ _ _ _ _ hne]


/-- Witness for `c2_error_propagation`: a non-gateway failure on
`vocabulary` lets each loop finish (stage-2 run shown: `tables` still
processed, `vocabulary` marked `failed`); a gateway failure aborts
each loop with the module marked `failed` carrying the error text,
while the previously completed `themes` stays `completed`. -/
theorem c2_error_propagation_witness :
    (restructLoop vocabBroken 9 r"R" [r"vocabulary", r"tables"]
        ⟨resumeStore, [], [], []⟩).2 = none
  ∧ (restructLoop vocabBroken 9 r"R" [r"vocabulary", r"tables"]
        ⟨resumeStore, [], [], []⟩).1.processed = [r"tables"]
  ∧ runModuleStatus (restructLoop vocabBroken 9 r"R" [r"vocabulary", r"tables"]
        ⟨resumeStore, [], [], []⟩).1.store r"R" r"vocabulary" = some .failed
  ∧ (restructLoop vocabRateLimited 9 r"R" [r"vocabulary", r"tables"]
        ⟨resumeStore, [], [], []⟩).2 = some rateLimitMsg
  ∧ runModuleStatus (restructLoop vocabRateLimited 9 r"R" [r"vocabulary", r"tables"]
        ⟨resumeStore, [], [], []⟩).1.store r"R" r"themes" = some .completed
  ∧ (genLoop oneItemPerModule vocabGatewayDown alwaysOneCard (Except.ok none) none 9
        [r"vocabulary", r"tables"] ⟨genEmptyStore, none, [], [], 0, []⟩).2 =
      some (.aiError plainGatewayMsg)
  ∧ (genLoop oneItemPerModule vocabGatewayDown alwaysOneCard (Except.ok none) none 9
        [r"vocabulary", r"tables"] ⟨genEmptyStore, none, [], [], 0, []⟩).1.store.modStatus
      r"vocabulary" = some .failed
  ∧ (optLoop oneItemPerModule vocabGatewayDown none 9 [r"vocabulary", r"tables"]
        ⟨optEmptyStore, [], 0, 0, []⟩).2 = some plainGatewayMsg
  ∧ (optLoop oneItemPerModule vocabGatewayDown none 9 [r"vocabulary", r"tables"]
        ⟨optEmptyStore, [], 0, 0, []⟩).1.store.modError r"vocabulary" =
      some (some plainGatewayMsg) := by
  have hgen := c2_error_propagation.2.2.2.2.2.1 oneItemPerModule vocabGatewayDown
    alwaysOneCard (Except.ok none) none 9 r"vocabulary" [r"tables"]
    ⟨genEmptyStore, none, [], [], 0, []⟩ plainGatewayMsg (by decide) rfl (by decide)
  have hopt := c2_error_propagation.2.2.2.2.2.2.2 oneItemPerModule vocabGatewayDown
    none 9 r"vocabulary" [r"tables"] ⟨optEmptyStore, [], 0, 0, []⟩ plainGatewayMsg
    (by decide) rfl
  have hab := c2_error_propagation.2.1 vocabRateLimited 9 r"R" r"vocabulary"
    [r"tables"] ⟨resumeStore, [], [], []⟩ rateLimitMsg rfl
  have hfin := c2_error_propagation.2.2.1 vocabBroken 9 r"R"
    [r"vocabulary", r"tables"] ⟨resumeStore, [], [], []⟩ (by decide)
  refine ⟨hfin.1, hfin.2.trans (by decide), ?_, hab.1, ?_, hgen.1, hgen.2.1,
    hopt.1, hopt.2.2.1⟩
  · rw [c2_error_propagation.1 vocabBroken 9 r"R" r"vocabulary" [r"tables"]
      ⟨resumeStore, [], [], []⟩ _ rfl]
    decide
  · exact (hab.2.2.2 r"themes" (by decide)).trans (by decide)

end AnkiDoc
